import Mathlib

/-!
# HIDIRT firmware core: ring buffer, debounce engine and software clock

A shallow embedding of `fifo.c`, `debounce.c` and `swrtc.c`.  Unsigned machine
integers are natural numbers reduced modulo `2 ^ w` at every assignment, signed
ones are integers wrapped into the twos complement range.  A C array is a
function from the index to the element; module-level and `static` variables are
the fields of a state record that every operation takes and returns.
-/

namespace HIDIRT

/-! ## Machine integers -/

/-- Conversion of a C integer value to `uint32_t`. -/
def toU32 (x : Int) : Nat := (x % 4294967296).toNat

/-- Conversion of a C integer value to `uint16_t`. -/
def toU16 (x : Int) : Nat := (x % 65536).toNat

/-- Conversion of a C integer value to `int32_t` (twos complement wrap). -/
def toI32 (x : Int) : Int := (x + 2147483648) % 4294967296 - 2147483648

/-- Conversion of a C integer value to `int16_t` (twos complement wrap). -/
def toI16 (x : Int) : Int := (x + 32768) % 65536 - 32768

/-! ## Ring buffer (`fifo.h`, `fifo.c`) -/

/-- Modelled from the spec: the record type `IRMP_DATA` of the external
infrared library (`irmp.h`), a decoded command with protocol id, address,
command and flags. -/
structure IRMP_DATA where
  protocol : Nat
  address : Nat
  command : Nat
  flags : Nat
deriving DecidableEq, Repr

/-- One ring buffer entry (`struct FIFO_ENTRY`). -/
structure fifo_entry_t where
  data : IRMP_DATA
deriving DecidableEq, Repr

/-- Number of slots of the ring buffer (`#define FIFO_SIZE 16`). -/
def FIFO_SIZE : Nat := 16

/-- The index mask `fifo_mask = FIFO_SIZE-1`. -/
def fifo_mask : Nat := FIFO_SIZE - 1

/-- The ring buffer (`struct FIFO`): `entry i` is the slot `entry[i]`. -/
structure fifo_t where
  read : Nat
  write : Nat
  entry : Nat → fifo_entry_t

/-- Function `FIFO_Read(fifo, entry)`: the returned triple is the `bool` result, the
buffer afterwards and the `*entry` of the caller afterwards. -/
def FIFO_Read (fifo : fifo_t) (entry : fifo_entry_t) : Bool × fifo_t × fifo_entry_t :=
  if fifo.read = fifo.write then
    (false, fifo, entry)
  else
    (true, { fifo with read := (fifo.read + 1) &&& fifo_mask }, fifo.entry fifo.read)

/-- Function `FIFO_Write(fifo, entry)`: the `bool` result and the buffer afterwards. -/
def FIFO_Write (fifo : fifo_t) (entry : fifo_entry_t) : Bool × fifo_t :=
  let next := (fifo.write + 1) &&& fifo_mask
  if fifo.read = next then
    (false, fifo)
  else
    (true, { fifo with
      entry := fun i => if i = fifo.write &&& fifo_mask then entry else fifo.entry i
      write := next })

/-- Function `FIFO_IsEmpty(fifo)`. -/
def FIFO_IsEmpty (fifo : fifo_t) : Bool :=
  if fifo.read = fifo.write then true else false

/-- Function `FIFO_IsFull(fifo)`. -/
def FIFO_IsFull (fifo : fifo_t) : Bool :=
  if fifo.read = ((fifo.write + 1) &&& fifo_mask) then true else false

/-- Function `FIFO_Clear(fifo)`. -/
def FIFO_Clear (fifo : fifo_t) : fifo_t :=
  { fifo with read := 0, write := 0 }

/-- Function `FIFO_Count(fifo)`: the difference of the two `uint16_t` indices is taken
in `int` and masked, the result is a `fifo_idx_t`. -/
def FIFO_Count (fifo : fifo_t) : Nat :=
  toU16 (Int.land ((fifo.write : Int) - (fifo.read : Int)) (fifo_mask : Int))

/-- A call of the ring buffer interface by one of its two users. -/
inductive FIFO_Op where
  | write (entry : fifo_entry_t)
  | read
deriving DecidableEq, Repr

/-- What a call returned: the `bool` of a write, or the entry a read delivered
(`none` when the read returned `false`). -/
inductive FIFO_Result where
  | wrote (ok : Bool)
  | got (entry : Option fifo_entry_t)
deriving DecidableEq, Repr

/-- One call on the buffer.  A read is given a scratch output record `out`. -/
def FIFO_step (out : fifo_entry_t) (fifo : fifo_t) : FIFO_Op → FIFO_Result × fifo_t
  | .write e => (FIFO_Result.wrote (FIFO_Write fifo e).1, (FIFO_Write fifo e).2)
  | .read =>
    let r := FIFO_Read fifo out
    (FIFO_Result.got (if r.1 then some r.2.2 else none), r.2.1)

/-- The results of a sequence of calls, in call order. -/
def FIFO_run (out : fifo_entry_t) : fifo_t → List FIFO_Op → List FIFO_Result
  | _, [] => []
  | fifo, op :: ops => (FIFO_step out fifo op).1 :: FIFO_run out (FIFO_step out fifo op).2 ops

/-- The queue the specification describes: the entries written and not yet
read, oldest first, at most `FIFO_SIZE - 1` of them. -/
abbrev SpecQueue := List fifo_entry_t

/-- One call on the specification queue: a write appends unless 15 entries are
outstanding, a read removes and delivers the oldest entry unless there is none. -/
def SpecQueue_step (q : SpecQueue) : FIFO_Op → FIFO_Result × SpecQueue
  | .write e => if q.length < FIFO_SIZE - 1 then (.wrote true, q ++ [e]) else (.wrote false, q)
  | .read =>
    match q with
    | [] => (.got none, [])
    | e :: rest => (.got (some e), rest)

/-- The results of a sequence of calls on the specification queue. -/
def SpecQueue_run : SpecQueue → List FIFO_Op → List FIFO_Result
  | _, [] => []
  | q, op :: ops => (SpecQueue_step q op).1 :: SpecQueue_run (SpecQueue_step q op).2 ops

/-- The entries a buffer holds, oldest first: the slots from the read index up
to the write index, walking modulo `FIFO_SIZE`. -/
def FIFO_contents (fifo : fifo_t) : List fifo_entry_t :=
  (List.range ((fifo.write + FIFO_SIZE - fifo.read) % FIFO_SIZE)).map
    (fun i => fifo.entry ((fifo.read + i) % FIFO_SIZE))

/-! ## Debounce engine (`debounce.h`, `debounce.c`) -/

/-- The C operator `~` on a `debounce_t` operand, kept to the eight bits of a
`debounce_t`: every use in `debounce.c` is assigned to a `debounce_t` or masked
with one. -/
def BNOT (x : Nat) : Nat := 255 - x % 256

/-- Bit of the PSU sense signal (`DEB_PSU_SENSE`). -/
def DEB_PSU_SENSE : Nat := 1

/-- Bit of the USB sense signal (`DEB_USB_SENSE`). -/
def DEB_USB_SENSE : Nat := 2

/-- Mask of the keys with repeat function (`REPEAT_MASK`). -/
def REPEAT_MASK : Nat := 0

/-- Calls until a long press is detected (`REPEAT_START`). -/
def REPEAT_START : Nat := 50

/-- Calls until the next repeated press (`REPEAT_NEXT`). -/
def REPEAT_NEXT : Nat := 20

/-- The variables of `debounce.c`: the four module masks and the `static`
locals `ct0`, `ct1`, `rpt` of `DEB_Service`. -/
structure DEB_State where
  key_state : Nat
  key_press : Nat
  key_release : Nat
  key_rpt : Nat
  ct0 : Nat
  ct1 : Nat
  rpt : Nat
deriving DecidableEq, Repr

/-- The initial values of the variables of `debounce.c`. -/
def DEB_initial : DEB_State :=
  { key_state := 255, key_press := 0, key_release := 0, key_rpt := 0,
    ct0 := 255, ct1 := 255, rpt := 0 }

/-- Function `DEB_CollectKeys()`: the two arguments are the levels `HAL_GPIO_ReadPin`
reports for the PSU sense pin and the USB sense pin. -/
def DEB_CollectKeys (psu_pin usb_pin : Bool) : Nat :=
  let k0 := 0
  let k1 := if !psu_pin then k0 ||| DEB_PSU_SENSE else k0
  let k2 := if !usb_pin then k1 ||| DEB_USB_SENSE else k1
  k2

/-- Function `DEB_Init(default_state)`. -/
def DEB_Init (s : DEB_State) (default_state : Nat) : DEB_State :=
  { s with key_state := default_state % 256 }

/-- Function `DEB_Service()`; `keys` is the value `DEB_CollectKeys()` returns in this
call. -/
def DEB_Service (s : DEB_State) (keys : Nat) : DEB_State :=
  let i := (s.key_state ^^^ keys) % 256
  let ct0 := BNOT (s.ct0 &&& i)
  let ct1 := (ct0 ^^^ (s.ct1 &&& i)) % 256
  let i := (i &&& (ct0 &&& ct1)) % 256
  let key_state := (s.key_state ^^^ i) % 256
  let key_press := (s.key_press ||| (key_state &&& i)) % 256
  let key_release := (s.key_release ||| (BNOT key_state &&& i)) % 256
  let rpt := if key_state &&& REPEAT_MASK = 0 then REPEAT_START else s.rpt
  let rpt := (rpt + 255) % 256
  let key_rpt := if rpt = 0 then (s.key_rpt ||| (key_state &&& REPEAT_MASK)) % 256 else s.key_rpt
  let rpt := if rpt = 0 then REPEAT_NEXT else rpt
  { key_state := key_state, key_press := key_press, key_release := key_release,
    key_rpt := key_rpt, ct0 := ct0, ct1 := ct1, rpt := rpt }

/-- The state after the first `n` calls of `DEB_Service`, call `j` (counted
from 0) sampling `keys j`. -/
def DEB_after (s : DEB_State) (keys : Nat → Nat) : Nat → DEB_State
  | 0 => s
  | n + 1 => DEB_Service (DEB_after s keys n) (keys n)

/-- Bit `k` of the signal sampled by a call differs from the stable bit the
call finds in `key_state`. -/
def DEB_differs (k : Nat) (s : DEB_State) (keys : Nat) : Bool :=
  keys.testBit k != s.key_state.testBit k

/-- A call of `DEB_Service` on `s` sampling `keys` flips stable bit `k`. -/
def DEB_flips (k : Nat) (s : DEB_State) (keys : Nat) : Bool :=
  (DEB_Service s keys).key_state.testBit k != s.key_state.testBit k

/-- Both vertical counter bits of signal `k` are set, as at start-up and after
every sample that agrees with the stable bit. -/
def DEB_counters_reset (k : Nat) (s : DEB_State) : Bool :=
  s.ct0.testBit k && s.ct1.testBit k

/-! ## Software clock (`swrtc.h`, `swrtc.c`) -/

/-- Calls of the service routine per second (`SWRTC_INTERVALS_PER_SECOND`). -/
def SWRTC_INTERVALS_PER_SECOND : Nat := 2

/-- Ticks per second (`SWRTC_TICKS_PER_SECOND`, an `unsigned long` constant of
32 bits on the target). -/
def SWRTC_TICKS_PER_SECOND : Nat := 32000000

/-- Ticks per interval (`SWRTC_TICKS_PER_INTERVAL`). -/
def SWRTC_TICKS_PER_INTERVAL : Nat := SWRTC_TICKS_PER_SECOND / SWRTC_INTERVALS_PER_SECOND

/-- Size of the alarm table (`SWRTC_NUMBER_OF_ALARMS`). -/
def SWRTC_NUMBER_OF_ALARMS : Nat := 2

/-- An alarm (`struct SWRTC_ALARM`).  A function pointer is `none` when it is
`NULL` and otherwise names the registered function. -/
structure swrtc_alarm_t where
  callback : Option Nat
  time : Nat
deriving DecidableEq, Repr

/-- A time in seconds and ticks of 100us (`struct SWRTC_TIME`): `seconds` is a
`uint32_t`, `ticks` an `int16_t`. -/
structure swrtc_time_t where
  seconds : Nat
  ticks : Int
deriving DecidableEq, Repr

/-- The variables of `swrtc.c`, with the `static` local `compensated` of
`SWRTC_Service`. -/
structure SWRTC_State where
  clk_secs : Nat
  clk_ticks : Nat
  clk_deviation : Int
  compensated : Bool
  full_second_callback_ptr : Option Nat
  alarms : Nat → swrtc_alarm_t

/-- A callback invoked by the service routine: the full-second callback `cb()`
or the alarm callback `cb(idx)`. -/
inductive SWRTC_Call where
  | full_second (cb : Nat)
  | alarm (cb : Nat) (idx : Nat)
deriving DecidableEq, Repr

/-- What one call of the service routine did: whether it ran the body of
`if( clk_ticks >= SWRTC_TICKS_PER_SECOND )`, whether it ran the statement
`clk_ticks += clk_deviation`, and the callbacks it invoked, in order. -/
structure SWRTC_Report where
  second_passed : Bool
  deviation_added : Bool
  calls : List SWRTC_Call
deriving DecidableEq, Repr

/-- The alarm loop of the service routine at the second count `secs`. -/
def SWRTC_alarm_calls (alarms : Nat → swrtc_alarm_t) (secs : Nat) : List SWRTC_Call :=
  (List.range SWRTC_NUMBER_OF_ALARMS).filterMap fun idx =>
    if (alarms idx).time = secs then
      match (alarms idx).callback with
      | some cb => some (SWRTC_Call.alarm cb idx)
      | none => none
    else none

/-- The body of `SWRTC_Service()` compiled with `SWRTC_TICKS_PER_SECOND = tps`
(and `SWRTC_AVOID_CONSECUTIVE_COMPENSATION`, the full-second callback and the
alarms enabled, the half-second callback disabled, as configured).  Every
variable the body assigns is followed through the two `if` statements:
`second` tells whether the body of `if( clk_ticks >= SWRTC_TICKS_PER_SECOND )`
runs, `temp_flag` is the local of that name, set where the deviation is added. -/
def SWRTC_Service_at (tps : Nat) (s : SWRTC_State) : SWRTC_State × SWRTC_Report :=
  let ticks := (s.clk_ticks + tps / SWRTC_INTERVALS_PER_SECOND) % 4294967296
  let second := decide (tps ≤ ticks)
  let temp_flag := second && (s.compensated == false)
  let secs := if second then (s.clk_secs + 1) % 4294967296 else s.clk_secs
  let ticks := if second then toU32 ((ticks : Int) - (tps : Int)) else ticks
  let ticks := if temp_flag then toU32 ((ticks : Int) + s.clk_deviation) else ticks
  let full := match s.full_second_callback_ptr with
    | some cb => [SWRTC_Call.full_second cb]
    | none => []
  let calls := if second then full ++ SWRTC_alarm_calls s.alarms secs else []
  ({ s with clk_secs := secs, clk_ticks := ticks, compensated := temp_flag },
   { second_passed := second, deviation_added := temp_flag, calls := calls })

/-- Routine `SWRTC_Service()` as built: the state after the call. -/
def SWRTC_Service (s : SWRTC_State) : SWRTC_State :=
  (SWRTC_Service_at SWRTC_TICKS_PER_SECOND s).1

/-- What the call `SWRTC_Service()` does on `s`. -/
def SWRTC_Service_report (s : SWRTC_State) : SWRTC_Report :=
  (SWRTC_Service_at SWRTC_TICKS_PER_SECOND s).2

/-- Function `SWRTC_GetDeviation()`. -/
def SWRTC_GetDeviation (s : SWRTC_State) : Int := s.clk_deviation

/-- Function `SWRTC_SetDeviation(deviation)`: the `bool` result and the state
afterwards.  The bounds are `(int32_t)SWRTC_TICKS_PER_SECOND` and
`(int32_t)-SWRTC_TICKS_PER_SECOND`, the negation being taken in `unsigned long`. -/
def SWRTC_SetDeviation (s : SWRTC_State) (deviation : Int) : Bool × SWRTC_State :=
  if deviation < toI32 (SWRTC_TICKS_PER_SECOND : Int)
      ∧ deviation > toI32 (toU32 (-(SWRTC_TICKS_PER_SECOND : Int))) then
    (true, { s with clk_deviation := deviation })
  else
    (false, s)

/-- Function `SWRTC_GetSeconds()`. -/
def SWRTC_GetSeconds (s : SWRTC_State) : Nat := s.clk_secs

/-- Function `SWRTC_SetSeconds(seconds)`. -/
def SWRTC_SetSeconds (s : SWRTC_State) (seconds : Nat) : SWRTC_State :=
  { s with clk_secs := seconds % 4294967296 }

/-- The divisor `(SWRTC_TICKS_PER_SECOND + clk_deviation) / 10000` of
`SWRTC_GetTicks` and `SWRTC_SetTicks`, computed in `unsigned long`. -/
def SWRTC_ticks_unit (s : SWRTC_State) : Nat :=
  toU32 ((SWRTC_TICKS_PER_SECOND : Int) + s.clk_deviation) / 10000

/-- Function `SWRTC_GetTicks()` (the branch for `SWRTC_TICKS_PER_SECOND >= 10000`).  The
accumulator is copied into an `int32_t`; the division has an `unsigned long`
right operand, so the `int32_t` is converted to `unsigned long` and the
division is unsigned; the quotient goes back to `int32_t` and the result is
cast to `int16_t`.  A zero divisor is a division by zero: `none`. -/
def SWRTC_GetTicks (s : SWRTC_State) : Option Int :=
  let ticks := toI32 (s.clk_ticks : Int)
  if SWRTC_ticks_unit s = 0 then none
  else
    let ticks := toI32 ((toU32 ticks / SWRTC_ticks_unit s : Nat) : Int)
    some (toI16 ticks)

/-- Function `SWRTC_SetTicks(ticks)` (the branch for `SWRTC_TICKS_PER_SECOND >= 10000`):
the product is computed in `unsigned long` and assigned to the `uint16_t`
parameter `ticks`, which is then stored in the accumulator. -/
def SWRTC_SetTicks (s : SWRTC_State) (ticks : Nat) : SWRTC_State :=
  let ticks := toU16 (((ticks * SWRTC_ticks_unit s) % 4294967296 : Nat) : Int)
  { s with clk_ticks := ticks }

/-- Function `SWRTC_GetTime()`; `none` when `SWRTC_GetTicks` divides by zero. -/
def SWRTC_GetTime (s : SWRTC_State) : Option swrtc_time_t :=
  match SWRTC_GetTicks s with
  | none => none
  | some t =>
    let time : swrtc_time_t := { seconds := s.clk_secs, ticks := t }
    let time : swrtc_time_t :=
      if time.ticks < 0 then
        { seconds := toU32 ((time.seconds : Int) - 1), ticks := toI16 (time.ticks + 10000) }
      else time
    let time : swrtc_time_t :=
      if time.ticks > 10000 then
        { seconds := toU32 ((time.seconds : Int) + 1), ticks := toI16 (time.ticks - 10000) }
      else time
    some time

/-- Function `SWRTC_SetTime(time)`: the `int16_t` field `ticks` is converted to the
`uint16_t` parameter of `SWRTC_SetTicks`. -/
def SWRTC_SetTime (s : SWRTC_State) (time : swrtc_time_t) : SWRTC_State :=
  SWRTC_SetTicks { s with clk_secs := time.seconds % 4294967296 } (toU16 time.ticks)

/-- The initial values of the variables of `swrtc.c` (no callback registered,
alarm times 0), with the deviation set to `d`. -/
def SWRTC_zero (d : Int) : SWRTC_State :=
  { clk_secs := 0, clk_ticks := 0, clk_deviation := d, compensated := false,
    full_second_callback_ptr := none, alarms := fun _ => { callback := none, time := 0 } }

/-- The state after `n` calls of the service routine built with
`SWRTC_TICKS_PER_SECOND = tps`. -/
def SWRTC_after (tps : Nat) (s : SWRTC_State) : Nat → SWRTC_State
  | 0 => s
  | n + 1 => (SWRTC_Service_at tps (SWRTC_after tps s n)).1

/-- The report of call number `n` (counted from 0) of a run from `s`. -/
def SWRTC_report_of (tps : Nat) (s : SWRTC_State) (n : Nat) : SWRTC_Report :=
  (SWRTC_Service_at tps (SWRTC_after tps s n)).2

/-- Number of calls among the first `n` that incremented the second counter. -/
def SWRTC_seconds_passed (tps : Nat) (s : SWRTC_State) : Nat → Nat
  | 0 => 0
  | n + 1 => SWRTC_seconds_passed tps s n + (if (SWRTC_report_of tps s n).second_passed then 1 else 0)

/-- Total amount the first `n` calls added to the accumulator as compensation:
the deviation, once for every call that ran `clk_ticks += clk_deviation`. -/
def SWRTC_total_added (tps : Nat) (s : SWRTC_State) : Nat → Int
  | 0 => 0
  | n + 1 => SWRTC_total_added tps s n +
      (if (SWRTC_report_of tps s n).deviation_added then (SWRTC_after tps s n).clk_deviation else 0)

/-! ## Alarms of the software clock (`swrtc.c`) -/

/-- Function `SWRTC_RegisterAlarmCallback(idx, cb)`: the `bool` result and the
state afterwards; `cb` is `none` for a `NULL` pointer. -/
def SWRTC_RegisterAlarmCallback (s : SWRTC_State) (idx : Nat) (cb : Option Nat) :
    Bool × SWRTC_State :=
  if idx < SWRTC_NUMBER_OF_ALARMS then
    (true, { s with alarms := fun i =>
      if i = idx then { callback := cb, time := (s.alarms i).time } else s.alarms i })
  else
    (false, s)

/-- Function `SWRTC_GetAlarmTime(idx)`. -/
def SWRTC_GetAlarmTime (s : SWRTC_State) (idx : Nat) : Nat :=
  if idx < SWRTC_NUMBER_OF_ALARMS then (s.alarms idx).time else 0

/-- Function `SWRTC_SetAlarmTime(idx, alarm_time)`: the `bool` result and the
state afterwards. -/
def SWRTC_SetAlarmTime (s : SWRTC_State) (idx : Nat) (alarm_time : Nat) : Bool × SWRTC_State :=
  if idx < SWRTC_NUMBER_OF_ALARMS then
    (true, { s with alarms := fun i =>
      if i = idx then { callback := (s.alarms i).callback, time := alarm_time } else s.alarms i })
  else
    (false, s)

/-- The alarm callbacks among the callbacks a call invoked, as pairs of the
callback and the index it was called with, in the order of the calls. -/
def SWRTC_alarms_fired : List SWRTC_Call → List (Nat × Nat)
  | [] => []
  | SWRTC_Call.alarm cb idx :: rest => (cb, idx) :: SWRTC_alarms_fired rest
  | SWRTC_Call.full_second _ :: rest => SWRTC_alarms_fired rest

/-! ## Configuration record, shadow and host interface
(`application.h`, `application.c`, `usbd_customhid_if.h`, `usbd_customhid_if.c`) -/

/-- Report ID `REP_ID_IR_CODE_INTERRUPT`. -/
def REP_ID_IR_CODE_INTERRUPT : Nat := 1

/-- Report ID `REP_ID_GET_FIRMWARE_VERSION`. -/
def REP_ID_GET_FIRMWARE_VERSION : Nat := 0x10

/-- Report ID `REP_ID_CONTROL_PC_ENABLE`. -/
def REP_ID_CONTROL_PC_ENABLE : Nat := 0x11

/-- Report ID `REP_ID_FORWARD_IR_ENABLE`. -/
def REP_ID_FORWARD_IR_ENABLE : Nat := 0x12

/-- Report ID `REP_ID_POWER_ON_IR_CODE`. -/
def REP_ID_POWER_ON_IR_CODE : Nat := 0x13

/-- Report ID `REP_ID_POWER_OFF_IR_CODE`. -/
def REP_ID_POWER_OFF_IR_CODE : Nat := 0x14

/-- Report ID `REP_ID_RESET_IR_CODE`. -/
def REP_ID_RESET_IR_CODE : Nat := 0x15

/-- Report ID `REP_ID_MINIMUM_REPEATS`. -/
def REP_ID_MINIMUM_REPEATS : Nat := 0x16

/-- Report ID `REP_ID_CURRENT_TIME`. -/
def REP_ID_CURRENT_TIME : Nat := 0x17

/-- Report ID `REP_ID_CLOCK_CORRECTION`. -/
def REP_ID_CLOCK_CORRECTION : Nat := 0x18

/-- Report ID `REP_ID_WAKEUP_TIME`. -/
def REP_ID_WAKEUP_TIME : Nat := 0x19

/-- Report ID `REP_ID_WAKEUP_TIME_SPAN`. -/
def REP_ID_WAKEUP_TIME_SPAN : Nat := 0x1A

/-- Report ID `REP_ID_REQUEST_BOOTLOADER`. -/
def REP_ID_REQUEST_BOOTLOADER : Nat := 0x50

/-- Report ID `REP_ID_WATCHDOG_ENABLE`. -/
def REP_ID_WATCHDOG_ENABLE : Nat := 0x51

/-- Report ID `REP_ID_WATCHDOG_RESET`. -/
def REP_ID_WATCHDOG_RESET : Nat := 0x52

/-- EEPROM address `ADDRESS_irmp_power_on`. -/
def ADDRESS_irmp_power_on : Nat := 0

/-- EEPROM address `ADDRESS_irmp_power_off`. -/
def ADDRESS_irmp_power_off : Nat := 6

/-- EEPROM address `ADDRESS_irmp_reset`. -/
def ADDRESS_irmp_reset : Nat := 12

/-- EEPROM address `ADDRESS_clock_correction`. -/
def ADDRESS_clock_correction : Nat := 18

/-- EEPROM address `ADDRESS_wakeup_time`. -/
def ADDRESS_wakeup_time : Nat := 22

/-- EEPROM address `ADDRESS_wakeup_time_span`. -/
def ADDRESS_wakeup_time_span : Nat := 26

/-- EEPROM address `ADDRESS_min_ir_repeats`. -/
def ADDRESS_min_ir_repeats : Nat := 27

/-- EEPROM address `ADDRESS_control_pc_enable`. -/
def ADDRESS_control_pc_enable : Nat := 28

/-- EEPROM address `ADDRESS_forward_ir_enable`. -/
def ADDRESS_forward_ir_enable : Nat := 29

/-- The pattern `BACKUP_INIT_PATTERN` of `stm32_hal_msp.h`. -/
def BACKUP_INIT_PATTERN : Nat := 0x32F2

/-- Status `USBD_OK` of the external USB device library. -/
def USBD_OK : Nat := 0

/-- Status `USBD_FAIL` of the external USB device library. -/
def USBD_FAIL : Nat := 2

/-- Modelled from the spec: the bit of the flags of a decoded command that
marks it as a repetition of the previous command (`IRMP_FLAG_REPETITION` of
the external `irmp.h`, bit 0). -/
def IRMP_FLAG_REPETITION : Nat := 1

/-- The configuration record (`struct HIDIRT_DATA`). -/
structure hidirt_data_t where
  clock_correction : Int
  data_update_pending : Nat
  min_ir_repeats : Nat
  wakeup_time_span : Nat
  irmp_power_on : IRMP_DATA
  irmp_power_off : IRMP_DATA
  irmp_reset : IRMP_DATA
  control_pc_enable : Bool
  forward_ir_enable : Bool
  watchdog_enable : Bool
  watchdog_reset : Bool
deriving DecidableEq, Repr

/-- The flags (`struct FLAGS`), one bit each. -/
structure flags_t where
  alarm_a_occurred : Bool
  alarm_b_occurred : Bool
  press_power_button : Bool
  press_reset_button : Bool
  wakeup_occurred : Bool
deriving DecidableEq, Repr

/-- Byte `i` of a buffer of `uint8_t`. -/
def rd_u8 (buffer : Nat → Nat) (i : Nat) : Nat := buffer i % 256

/-- The `uint16_t` stored at byte `i` of a buffer, low byte first. -/
def rd_u16 (buffer : Nat → Nat) (i : Nat) : Nat := rd_u8 buffer i + 256 * rd_u8 buffer (i + 1)

/-- The `uint32_t` stored at byte `i` of a buffer, low byte first. -/
def rd_u32 (buffer : Nat → Nat) (i : Nat) : Nat := rd_u16 buffer i + 65536 * rd_u16 buffer (i + 2)

/-- Modelled from the spec: the fixed-length byte encoding of a decoded
command, the packed record of the external `irmp.h` with its six bytes:
protocol, address (two bytes), command (two bytes), flags. -/
def rd_IRMP_DATA (buffer : Nat → Nat) : IRMP_DATA :=
  { protocol := rd_u8 buffer 0, address := rd_u16 buffer 1, command := rd_u16 buffer 3,
    flags := rd_u8 buffer 5 }

/-- The bytes of a `uint16_t`, low byte first. -/
def bytes_u16 (v : Nat) : List Nat := [v % 256, v / 256 % 256]

/-- The bytes of a `uint32_t`, low byte first. -/
def bytes_u32 (v : Nat) : List Nat := bytes_u16 (v % 65536) ++ bytes_u16 (v / 65536 % 65536)

/-- The byte of a `bool`. -/
def bytes_bool (b : Bool) : List Nat := [if b then 1 else 0]

/-- Modelled from the spec: the six bytes of a decoded command (see
`rd_IRMP_DATA`). -/
def bytes_IRMP_DATA (d : IRMP_DATA) : List Nat :=
  [d.protocol % 256] ++ bytes_u16 d.address ++ bytes_u16 d.command ++ [d.flags % 256]

/-- The variables of `application.c`, `usbd_customhid_if.c` and
`global_variables.c` with the `static` locals of the functions, the modules
they use, and what the external collaborators have been handed: the writes to
the EEPROM (address and bytes), the four backup registers, the reports given
to `USBD_CUSTOM_HID_SendReport`, the two output pins, the remote wake-ups and
watchdog refreshes so far and the commands given to `irsnd_send_data`. -/
structure HIDIRT_State where
  hidirt_data : hidirt_data_t
  hidirt_data_shadow : hidirt_data_t
  flags : flags_t
  last_flags : flags_t
  reset_ctr : Nat
  repeat_ctr : Nat
  PrevXferComplete : Nat
  irsnd_fifo : fifo_t
  deb : DEB_State
  clock : SWRTC_State
  eeprom_writes : List (Nat × List Nat)
  bkp_bootloader : Nat
  bkp_reset : Nat
  bkp_second : Nat
  bkp_alarm : Nat
  usb_reports : List (List Nat)
  power_pin : Bool
  reset_pin : Bool
  remote_wakeups : Nat
  iwdg_refreshes : Nat
  irsnd_sent : List IRMP_DATA

/-- How a call ended: it returned with the state `st`, or it never returns
(the endless loop of the bootloader request) and the state stays `st`. -/
inductive HIDIRT_Run where
  | done (st : HIDIRT_State)
  | halted (st : HIDIRT_State)

/-- Function `DEB_GetKeyState(key_mask)`. -/
def DEB_GetKeyState (s : DEB_State) (key_mask : Nat) : Nat := (key_mask &&& s.key_state) % 256

/-- Function `EEPROM_WriteBytes(address, data, length)`, `bytes` being the
`length` bytes at `data`: the write is handed to the non-volatile store. -/
def EEPROM_WriteBytes (st : HIDIRT_State) (address : Nat) (bytes : List Nat) : HIDIRT_State :=
  { st with eeprom_writes := st.eeprom_writes ++ [(address, bytes)] }

/-- Function `GetHidirtConfig(config)`: the configuration copied to `*config`. -/
def GetHidirtConfig (st : HIDIRT_State) : hidirt_data_t := st.hidirt_data

/-- The `switch` of `CustomHID_SetFeature(event_idx, buffer)` on the values the
cases read from the buffer: `flag` is `buffer[0]` converted to `bool`, `byte`
is `buffer[0]`, and `code`, `time`, `correction` and `alarm` are what `memcpy`
reads from `&buffer[0]` into an `IRMP_DATA`, a `swrtc_time_t`, an `int32_t`
and a `uint32_t`.  The result is the status returned and the state
afterwards. -/
def CustomHID_SetFeature_switch (st : HIDIRT_State) (event_idx : Nat) (flag : Bool)
    (code : IRMP_DATA) (byte : Nat) (time : swrtc_time_t) (correction : Int) (alarm : Nat) :
    Nat × HIDIRT_State :=
  let sh := st.hidirt_data_shadow
  if event_idx = REP_ID_CONTROL_PC_ENABLE then
    (USBD_OK, { st with hidirt_data_shadow :=
      { sh with control_pc_enable := flag,
                data_update_pending := REP_ID_CONTROL_PC_ENABLE } })
  else if event_idx = REP_ID_FORWARD_IR_ENABLE then
    (USBD_OK, { st with hidirt_data_shadow :=
      { sh with forward_ir_enable := flag,
                data_update_pending := REP_ID_FORWARD_IR_ENABLE } })
  else if event_idx = REP_ID_POWER_ON_IR_CODE then
    (USBD_OK, { st with hidirt_data_shadow :=
      { sh with irmp_power_on := code,
                data_update_pending := REP_ID_POWER_ON_IR_CODE } })
  else if event_idx = REP_ID_POWER_OFF_IR_CODE then
    (USBD_OK, { st with hidirt_data_shadow :=
      { sh with irmp_power_off := code,
                data_update_pending := REP_ID_POWER_OFF_IR_CODE } })
  else if event_idx = REP_ID_RESET_IR_CODE then
    (USBD_OK, { st with hidirt_data_shadow :=
      { sh with irmp_reset := code,
                data_update_pending := REP_ID_RESET_IR_CODE } })
  else if event_idx = REP_ID_MINIMUM_REPEATS then
    (USBD_OK, { st with hidirt_data_shadow :=
      { sh with min_ir_repeats := byte,
                data_update_pending := REP_ID_MINIMUM_REPEATS } })
  else if event_idx = REP_ID_CURRENT_TIME then
    (USBD_OK, { st with
      clock := SWRTC_SetTime st.clock
        time,
      bkp_reset := BACKUP_INIT_PATTERN })
  else if event_idx = REP_ID_CLOCK_CORRECTION then
    (USBD_OK, { st with hidirt_data_shadow :=
      { sh with clock_correction := correction,
                data_update_pending := REP_ID_CLOCK_CORRECTION } })
  else if event_idx = REP_ID_WAKEUP_TIME then
    (USBD_OK, { st with
      clock := (SWRTC_SetAlarmTime st.clock 0 (alarm)).2,
      bkp_alarm := alarm,
      hidirt_data_shadow := { sh with data_update_pending := REP_ID_WAKEUP_TIME } })
  else if event_idx = REP_ID_WAKEUP_TIME_SPAN then
    (USBD_OK, { st with hidirt_data_shadow :=
      { sh with wakeup_time_span := byte,
                data_update_pending := REP_ID_WAKEUP_TIME_SPAN } })
  else if event_idx = REP_ID_REQUEST_BOOTLOADER then
    (USBD_OK, { st with hidirt_data_shadow :=
      { sh with data_update_pending :=
          if byte = 0x5a then REP_ID_REQUEST_BOOTLOADER else sh.data_update_pending } })
  else if event_idx = REP_ID_WATCHDOG_ENABLE then
    (USBD_OK, { st with hidirt_data_shadow :=
      { sh with watchdog_enable := flag,
                data_update_pending := REP_ID_WATCHDOG_ENABLE } })
  else if event_idx = REP_ID_WATCHDOG_RESET then
    (USBD_OK, { st with hidirt_data_shadow :=
      { sh with watchdog_reset := flag,
                data_update_pending := REP_ID_WATCHDOG_RESET } })
  else
    (USBD_OK, st)

/-- Function `CustomHID_SetFeature(event_idx, buffer)`: the status returned and
the state afterwards; `buffer i` is the byte `buffer[i]`. -/
def CustomHID_SetFeature (st : HIDIRT_State) (event_idx : Nat) (buffer : Nat → Nat) :
    Nat × HIDIRT_State :=
  CustomHID_SetFeature_switch st event_idx (decide (rd_u8 buffer 0 ≠ 0)) (rd_IRMP_DATA buffer)
    (rd_u8 buffer 0) { seconds := rd_u32 buffer 0, ticks := toI16 (rd_u16 buffer 4 : Nat) }
    (toI32 (rd_u32 buffer 0 : Nat)) (rd_u32 buffer 0)

/-- What `CustomHID_GetFeature` puts into the transmit buffer, by the type of
the value copied there (the bytes themselves are not modelled): the firmware
version string, a `bool`, a decoded command, a `uint8_t`, the time record
(`none` when `SWRTC_GetTime` divides by zero), an `int32_t` or a `uint32_t`. -/
inductive HIDIRT_Reply where
  | firmware_version
  | flag (b : Bool)
  | code (d : IRMP_DATA)
  | byte (v : Nat)
  | time (t : Option swrtc_time_t)
  | correction (v : Int)
  | word (v : Nat)
deriving DecidableEq, Repr

/-- The `switch` of `CustomHID_GetFeature(event_idx, buffer, length)`, read
after `GetHidirtConfig(&hidirt_data_shadow)` has run: what is copied to the
buffer, `none` in the default case. -/
def CustomHID_GetFeature_reply (st : HIDIRT_State) (event_idx : Nat) : Option HIDIRT_Reply :=
  let sh := GetHidirtConfig st
  if event_idx = REP_ID_GET_FIRMWARE_VERSION then some .firmware_version
  else if event_idx = REP_ID_CONTROL_PC_ENABLE then some (.flag sh.control_pc_enable)
  else if event_idx = REP_ID_FORWARD_IR_ENABLE then some (.flag sh.forward_ir_enable)
  else if event_idx = REP_ID_POWER_ON_IR_CODE then some (.code sh.irmp_power_on)
  else if event_idx = REP_ID_POWER_OFF_IR_CODE then some (.code sh.irmp_power_off)
  else if event_idx = REP_ID_RESET_IR_CODE then some (.code sh.irmp_reset)
  else if event_idx = REP_ID_MINIMUM_REPEATS then some (.byte sh.min_ir_repeats)
  else if event_idx = REP_ID_CURRENT_TIME then some (.time (SWRTC_GetTime st.clock))
  else if event_idx = REP_ID_CLOCK_CORRECTION then some (.correction sh.clock_correction)
  else if event_idx = REP_ID_WAKEUP_TIME then some (.word (SWRTC_GetAlarmTime st.clock 0))
  else if event_idx = REP_ID_WAKEUP_TIME_SPAN then some (.byte sh.wakeup_time_span)
  else if event_idx = REP_ID_WATCHDOG_ENABLE then some (.flag sh.watchdog_enable)
  else none

/-- Function `CustomHID_GetFeature(event_idx, buffer, length)`: the status
returned, what was copied to the buffer, and the state afterwards.  The
configuration is first retrieved into `hidirt_data_shadow`, whatever the ID. -/
def CustomHID_GetFeature (st : HIDIRT_State) (event_idx : Nat) :
    Nat × Option HIDIRT_Reply × HIDIRT_State :=
  let reply := CustomHID_GetFeature_reply st event_idx
  (if reply.isSome then USBD_OK else USBD_FAIL, reply,
   { st with hidirt_data_shadow := GetHidirtConfig st })

/-- Function `GetHidirtShadowConfig(config)` as `hidirt()` calls it, with
`config = &hidirt_data`.  The bootloader request writes the backup register
and never returns. -/
def GetHidirtShadowConfig (st : HIDIRT_State) : HIDIRT_Run :=
  let sh := st.hidirt_data_shadow
  let tag := sh.data_update_pending
  let cfg := st.hidirt_data
  if tag = REP_ID_REQUEST_BOOTLOADER then
    HIDIRT_Run.halted { st with bkp_bootloader := 0xABADC0DE }
  else
    let st1 : HIDIRT_State :=
      if tag = REP_ID_CONTROL_PC_ENABLE then
        EEPROM_WriteBytes
          { st with hidirt_data := { cfg with control_pc_enable := sh.control_pc_enable } }
          ADDRESS_control_pc_enable (bytes_bool sh.control_pc_enable)
      else if tag = REP_ID_FORWARD_IR_ENABLE then
        EEPROM_WriteBytes
          { st with hidirt_data := { cfg with forward_ir_enable := sh.forward_ir_enable } }
          ADDRESS_forward_ir_enable (bytes_bool sh.forward_ir_enable)
      else if tag = REP_ID_POWER_ON_IR_CODE then
        EEPROM_WriteBytes
          { st with hidirt_data := { cfg with irmp_power_on := sh.irmp_power_on } }
          ADDRESS_irmp_power_on (bytes_IRMP_DATA sh.irmp_power_on)
      else if tag = REP_ID_POWER_OFF_IR_CODE then
        EEPROM_WriteBytes
          { st with hidirt_data := { cfg with irmp_power_off := sh.irmp_power_off } }
          ADDRESS_irmp_power_off (bytes_IRMP_DATA sh.irmp_power_off)
      else if tag = REP_ID_RESET_IR_CODE then
        EEPROM_WriteBytes
          { st with hidirt_data := { cfg with irmp_reset := sh.irmp_reset } }
          ADDRESS_irmp_reset (bytes_IRMP_DATA sh.irmp_reset)
      else if tag = REP_ID_MINIMUM_REPEATS then
        EEPROM_WriteBytes
          { st with hidirt_data := { cfg with min_ir_repeats := sh.min_ir_repeats } }
          ADDRESS_min_ir_repeats [sh.min_ir_repeats % 256]
      else if tag = REP_ID_CLOCK_CORRECTION then
        let st2 := EEPROM_WriteBytes
          { st with hidirt_data := { cfg with clock_correction := sh.clock_correction } }
          ADDRESS_clock_correction (bytes_u32 (toU32 sh.clock_correction))
        { st2 with clock := (SWRTC_SetDeviation st2.clock st2.hidirt_data.clock_correction).2 }
      else if tag = REP_ID_WAKEUP_TIME then
        { st with clock := (SWRTC_SetAlarmTime st.clock 1
            (toU32 ((SWRTC_GetAlarmTime st.clock 0 : Nat) + (cfg.wakeup_time_span : Int) * 60))).2 }
      else if tag = REP_ID_WAKEUP_TIME_SPAN then
        let st2 := EEPROM_WriteBytes
          { st with hidirt_data := { cfg with wakeup_time_span := sh.wakeup_time_span } }
          ADDRESS_wakeup_time_span [sh.wakeup_time_span % 256]
        { st2 with clock := (SWRTC_SetAlarmTime st2.clock 1
            (toU32 ((SWRTC_GetAlarmTime st2.clock 0 : Nat)
              + (st2.hidirt_data.wakeup_time_span : Int) * 60))).2 }
      else if tag = REP_ID_WATCHDOG_ENABLE then
        { st with hidirt_data := { cfg with watchdog_enable := sh.watchdog_enable } }
      else if tag = REP_ID_WATCHDOG_RESET then
        { st with hidirt_data := { cfg with watchdog_reset := sh.watchdog_reset } }
      else st
    HIDIRT_Run.done
      { st1 with hidirt_data_shadow := { st1.hidirt_data_shadow with data_update_pending := 0 } }

/-- Function `IRMP_DataIsEqual(irmp_data_1, irmp_data_2)`. -/
def IRMP_DataIsEqual (irmp_data_1 irmp_data_2 : IRMP_DATA) : Bool :=
  if irmp_data_1.command = irmp_data_2.command ∧ irmp_data_1.address = irmp_data_2.address
      ∧ irmp_data_1.protocol = irmp_data_2.protocol then true else false

/-- Function `IRMP_ForwardData(irmp_data)`.  The entry handed to `FIFO_Write`
is read at `&irmp_data`, the address of the pointer parameter, not at the
command it points to: `at_ptr` stands for the six bytes found there. -/
def IRMP_ForwardData (st : HIDIRT_State) (irmp_data : IRMP_DATA) (at_ptr : fifo_entry_t) :
    HIDIRT_State :=
  let min := st.hidirt_data.min_ir_repeats
  let ctr := if irmp_data.flags &&& IRMP_FLAG_REPETITION = 0 then 0 else (st.repeat_ctr + 1) % 256
  let send := decide (ctr = 0) || decide (min ≤ ctr)
  let ctr := if send && decide (min ≤ ctr) then min else ctr
  { st with
    repeat_ctr := ctr
    usb_reports := if send then st.usb_reports ++ [[1] ++ bytes_IRMP_DATA irmp_data]
      else st.usb_reports
    PrevXferComplete := if send then 0 else st.PrevXferComplete
    irsnd_fifo := if st.hidirt_data.forward_ir_enable then (FIFO_Write st.irsnd_fifo at_ptr).2
      else st.irsnd_fifo }

/-- What a call of `IRMP_ProcessData` did to the two press intents: whether it
ran `flags.press_power_button = 1` and whether it ran
`flags.press_reset_button = 1`. -/
structure IRMP_Report where
  power_set : Bool
  reset_set : Bool
deriving DecidableEq, Repr

/-- Function `IRMP_ProcessData(irmp_data)`: the state afterwards and what the
call did to the press intents; `at_ptr` is passed on to `IRMP_ForwardData`. -/
def IRMP_ProcessData (st : HIDIRT_State) (irmp_data : IRMP_DATA) (at_ptr : fifo_entry_t) :
    HIDIRT_State × IRMP_Report :=
  let cfg := st.hidirt_data
  let untrained_on := decide (cfg.irmp_power_on.protocol = 0x00 ∨ cfg.irmp_power_on.protocol = 0xFF)
  let untrained_off :=
    decide (cfg.irmp_power_off.protocol = 0x00 ∨ cfg.irmp_power_off.protocol = 0xFF)
  let psu := decide (DEB_GetKeyState st.deb DEB_PSU_SENSE ≠ 0)
  let power := !untrained_on &&
    ((IRMP_DataIsEqual irmp_data cfg.irmp_power_on && !psu) ||
     (IRMP_DataIsEqual irmp_data cfg.irmp_power_off && psu))
  let st1 : HIDIRT_State :=
    if untrained_on then
      let st2 := EEPROM_WriteBytes { st with hidirt_data := { cfg with irmp_power_on := irmp_data } }
        ADDRESS_irmp_power_on (bytes_IRMP_DATA irmp_data)
      if untrained_off then
        EEPROM_WriteBytes
          { st2 with hidirt_data := { st2.hidirt_data with irmp_power_off := irmp_data } }
          ADDRESS_irmp_power_off (bytes_IRMP_DATA irmp_data)
      else st2
    else
      IRMP_ForwardData st irmp_data at_ptr
  let is_reset := IRMP_DataIsEqual irmp_data st1.hidirt_data.irmp_reset
  let counted := is_reset && decide (irmp_data.flags &&& IRMP_FLAG_REPETITION = 0)
  let ctr := (st.reset_ctr + 1) % 256
  let fire := counted && decide (3 ≤ ctr)
  let reset_ctr :=
    if is_reset then (if counted then (if fire then 0 else ctr) else st.reset_ctr) else 0
  ({ st1 with
     flags := { st1.flags with
       press_power_button := power || st1.flags.press_power_button
       press_reset_button := fire || st1.flags.press_reset_button }
     reset_ctr := reset_ctr },
   { power_set := power, reset_set := fire })

/-- The state after the first `n` calls of `IRMP_ProcessData`, call `j`
(counted from 0) being given the reception `rx j`. -/
def IRMP_after (st : HIDIRT_State) (rx : Nat → IRMP_DATA) (at_ptr : Nat → fifo_entry_t) :
    Nat → HIDIRT_State
  | 0 => st
  | n + 1 => (IRMP_ProcessData (IRMP_after st rx at_ptr n) (rx n) (at_ptr n)).1

/-- What call `n` of such a run did to the press intents. -/
def IRMP_report_of (st : HIDIRT_State) (rx : Nat → IRMP_DATA) (at_ptr : Nat → fifo_entry_t)
    (n : Nat) : IRMP_Report :=
  (IRMP_ProcessData (IRMP_after st rx at_ptr n) (rx n) (at_ptr n)).2

/-- The start-up values of the variables, before `hidirt_init`: everything
zero, the debounce and clock modules in their initial states, nothing handed
to the collaborators yet. -/
def HIDIRT_initial : HIDIRT_State :=
  let zero_code : IRMP_DATA := { protocol := 0, address := 0, command := 0, flags := 0 }
  let zero_data : hidirt_data_t :=
    { clock_correction := 0, data_update_pending := 0, min_ir_repeats := 0, wakeup_time_span := 0,
      irmp_power_on := zero_code, irmp_power_off := zero_code, irmp_reset := zero_code,
      control_pc_enable := false, forward_ir_enable := false, watchdog_enable := false,
      watchdog_reset := false }
  let zero_flags : flags_t :=
    { alarm_a_occurred := false, alarm_b_occurred := false, press_power_button := false,
      press_reset_button := false, wakeup_occurred := false }
  { hidirt_data := zero_data, hidirt_data_shadow := zero_data, flags := zero_flags,
    last_flags := zero_flags, reset_ctr := 0, repeat_ctr := 0, PrevXferComplete := 1,
    irsnd_fifo := { read := 0, write := 0, entry := fun _ => { data := zero_code } },
    deb := DEB_initial, clock := SWRTC_zero 0, eeprom_writes := [], bkp_bootloader := 0,
    bkp_reset := 0, bkp_second := 0, bkp_alarm := 0, usb_reports := [], power_pin := false,
    reset_pin := false, remote_wakeups := 0, iwdg_refreshes := 0, irsnd_sent := [] }

/-! ## Coordinator: buttons, alarms, transmit queue and main loop (`application.c`) -/

/-- Modelled from the spec: the constant `SET` of the external hardware
library, the set state of a flag or the active level of an output. -/
def SET : Bool := true

/-- Modelled from the spec: the constant `RESET` of the external hardware
library, the cleared state of a flag or the inactive level of an output. -/
def RESET : Bool := false

/-- Modelled from the spec: the constant `TRUE`, defined outside this
repository, the truth value a `bool` field is compared with. -/
def TRUE : Bool := true

/-- Modelled from the spec: the constant `FALSE`, defined outside this
repository. -/
def FALSE : Bool := false

/-- Level of the power output while pressed (`POWER_PRESSED`). -/
def POWER_PRESSED : Bool := SET

/-- Level of the power output while released (`POWER_RELEASED`). -/
def POWER_RELEASED : Bool := RESET

/-- Level of the reset output while pressed (`RESET_PRESSED`). -/
def RESET_PRESSED : Bool := SET

/-- Level of the reset output while released (`RESET_RELEASED`). -/
def RESET_RELEASED : Bool := RESET

/-- Function `ProcessButtons()`.  Every variable the body assigns is followed
through the two `if` statements of the guarded block: `power_differs` and
`reset_differs` are the two comparisons with `last_flags`; a remote wake-up
(`HAL_PCD_ActivateRemoteWakeup` ... `HAL_PCD_DeActivateRemoteWakeup`) is
counted. -/
def ProcessButtons (st : HIDIRT_State) : HIDIRT_State :=
  let supply := decide (DEB_GetKeyState st.deb DEB_USB_SENSE ≠ 0)
  let power_differs := st.flags.press_power_button != st.last_flags.press_power_button
  let reset_differs := st.flags.press_reset_button != st.last_flags.press_reset_button
  let control := st.hidirt_data.control_pc_enable
  let power_flag :=
    if supply then (if power_differs then st.flags.press_power_button else false)
    else st.flags.press_power_button
  let reset_flag :=
    if supply then (if reset_differs then st.flags.press_reset_button else false)
    else st.flags.press_reset_button
  let power_pin :=
    if supply then
      (if power_differs then (if control then POWER_PRESSED else st.power_pin)
       else POWER_RELEASED)
    else st.power_pin
  let reset_pin :=
    if supply then
      (if reset_differs then (if control then RESET_PRESSED else st.reset_pin)
       else RESET_RELEASED)
    else st.reset_pin
  let remote_wakeups :=
    if supply && power_differs && !control then st.remote_wakeups + 1 else st.remote_wakeups
  { st with
    flags := { st.flags with press_power_button := power_flag, press_reset_button := reset_flag }
    last_flags :=
      { st.last_flags with
        press_power_button := if supply then power_flag else st.last_flags.press_power_button
        press_reset_button := if supply then reset_flag else st.last_flags.press_reset_button }
    power_pin := power_pin
    reset_pin := reset_pin
    remote_wakeups := remote_wakeups }

/-- Function `IRSND_ProcessData()`: `busy` is what `irsnd_is_busy()` returns in
this call and `irmp_data` the content of the uninitialised local the entry is
read into; a command handed to `irsnd_send_data` is appended to the commands
sent. -/
def IRSND_ProcessData (st : HIDIRT_State) (busy : Bool) (irmp_data : IRMP_DATA) : HIDIRT_State :=
  if !busy then
    let r := FIFO_Read st.irsnd_fifo { data := irmp_data }
    if r.1 then
      { st with irsnd_fifo := r.2.1, irsnd_sent := st.irsnd_sent ++ [r.2.2.data] }
    else
      { st with irsnd_fifo := r.2.1 }
  else st

/-- Function `FullSecond()`, the full-second callback. -/
def FullSecond (st : HIDIRT_State) : HIDIRT_State :=
  { st with bkp_second := SWRTC_GetSeconds st.clock }

/-- Function `Alarm1(idx)`, the callback of alarm 0. -/
def Alarm1 (st : HIDIRT_State) (_idx : Nat) : HIDIRT_State :=
  { st with flags := { st.flags with alarm_a_occurred := SET } }

/-- Function `Alarm2(idx)`, the callback of alarm 1. -/
def Alarm2 (st : HIDIRT_State) (_idx : Nat) : HIDIRT_State :=
  { st with flags := { st.flags with alarm_b_occurred := SET } }

/-- The first `if` statement of `RTC_HandleInterruptFlags()`: the buttons are
processed when a wake-up interrupt occurred. -/
def RTC_HandleInterruptFlags_wakeup (st : HIDIRT_State) : HIDIRT_State :=
  if st.flags.wakeup_occurred != RESET then
    { ProcessButtons st with
      flags := { (ProcessButtons st).flags with wakeup_occurred := RESET } }
  else st

/-- The second `if` statement of `RTC_HandleInterruptFlags()`, on alarm A. -/
def RTC_HandleInterruptFlags_alarm_a (st : HIDIRT_State) : HIDIRT_State :=
  let usb := decide (DEB_GetKeyState st.deb DEB_USB_SENSE ≠ 0)
  let psu := decide (DEB_GetKeyState st.deb DEB_PSU_SENSE ≠ 0)
  let alarm := st.flags.alarm_a_occurred != RESET
  { st with flags :=
    { st.flags with
      press_power_button :=
        if alarm && (usb && !psu) then true else st.flags.press_power_button
      alarm_a_occurred :=
        if alarm && (usb && psu) then RESET else st.flags.alarm_a_occurred } }

/-- The third `if` statement of `RTC_HandleInterruptFlags()`, on alarm B. -/
def RTC_HandleInterruptFlags_alarm_b (st : HIDIRT_State) : HIDIRT_State :=
  if st.flags.alarm_b_occurred != RESET then
    { st with flags := { st.flags with alarm_a_occurred := RESET, alarm_b_occurred := RESET } }
  else st

/-- Function `RTC_HandleInterruptFlags()`: its three `if` statements in
sequence. -/
def RTC_HandleInterruptFlags (st : HIDIRT_State) : HIDIRT_State :=
  RTC_HandleInterruptFlags_alarm_b
    (RTC_HandleInterruptFlags_alarm_a (RTC_HandleInterruptFlags_wakeup st))

/-- The first statement of `hidirt()`: the decision whether the watchdog is
refreshed (`HAL_IWDG_Refresh`, counted). -/
def hidirt_watchdog (st : HIDIRT_State) : HIDIRT_State :=
  if decide (DEB_GetKeyState st.deb DEB_PSU_SENSE ≠ 0) &&
      (st.hidirt_data.watchdog_enable == TRUE) then
    if st.hidirt_data.watchdog_reset == TRUE then
      { st with
        iwdg_refreshes := st.iwdg_refreshes + 1
        hidirt_data := { st.hidirt_data with watchdog_reset := FALSE } }
    else st
  else
    { st with iwdg_refreshes := st.iwdg_refreshes + 1 }

/-- Function `hidirt()`, one iteration of the main loop, compiled without
`USE_BACKUP_SUPPLY` as configured.  What `irmp_get_data` delivers is
`received` (`none` when it returns false); `at_ptr`, `busy` and `scratch` are
passed on to `IRMP_ProcessData` and `IRSND_ProcessData`.  The iteration does
not return when the drain of the shadow does not. -/
def hidirt (st : HIDIRT_State) (received : Option IRMP_DATA) (at_ptr : fifo_entry_t)
    (busy : Bool) (scratch : IRMP_DATA) : HIDIRT_Run :=
  let s1 := hidirt_watchdog st
  let s2 := match received with
    | some irmp_data => (IRMP_ProcessData s1 irmp_data at_ptr).1
    | none => s1
  let s3 := IRSND_ProcessData s2 busy scratch
  let s4 := RTC_HandleInterruptFlags s3
  GetHidirtShadowConfig s4

/-! ## Event getters of the debounce engine (`debounce.c`) -/

/-- Function `DEB_GetKeyPress(key_mask)`: the value returned and the state
afterwards. -/
def DEB_GetKeyPress (s : DEB_State) (key_mask : Nat) : Nat × DEB_State :=
  let key_mask := (key_mask &&& s.key_press) % 256
  (key_mask, { s with key_press := (s.key_press ^^^ key_mask) % 256 })

/-- Function `DEB_GetKeyRelease(key_mask)`: the value returned and the state
afterwards. -/
def DEB_GetKeyRelease (s : DEB_State) (key_mask : Nat) : Nat × DEB_State :=
  let key_mask := (key_mask &&& s.key_release) % 256
  (key_mask, { s with key_release := (s.key_release ^^^ key_mask) % 256 })

/-- Function `DEB_GetKeyRepeat(key_mask)`: the value returned and the state
afterwards. -/
def DEB_GetKeyRepeat (s : DEB_State) (key_mask : Nat) : Nat × DEB_State :=
  let key_mask := (key_mask &&& s.key_rpt) % 256
  (key_mask, { s with key_rpt := (s.key_rpt ^^^ key_mask) % 256 })

/-! ## Auxiliary notions of the proofs -/

/-- The buffer `fifo` holds exactly the queue `q` and its indices are in range. -/
def FIFO_holds (fifo : fifo_t) (q : SpecQueue) : Prop :=
  fifo.read < 16 ∧ fifo.write < 16 ∧ FIFO_contents fifo = q

/-- Number of consecutive differing samples the two vertical counter bits of
signal `k` have counted: `ct1 ct0 = 11, 10, 01, 00` stand for 0, 1, 2, 3. -/
def DEB_count (k : Nat) (s : DEB_State) : Nat :=
  match s.ct0.testBit k, s.ct1.testBit k with
  | true, true => 0
  | false, true => 1
  | true, false => 2
  | false, false => 3

/-- The mask of the bits a call flips: the final value of the local `i`. -/
def DEB_flip_mask (s : DEB_State) (keys : Nat) : Nat :=
  ((s.key_state ^^^ keys) % 256 &&& ((DEB_Service s keys).ct0 &&& (DEB_Service s keys).ct1)) % 256

/-- The accumulator after one interval was added, before the comparison with
one second: `clk_ticks += SWRTC_TICKS_PER_INTERVAL` in `uint32_t`. -/
def SWRTC_advanced (tps : Nat) (s : SWRTC_State) : Nat :=
  (s.clk_ticks + tps / SWRTC_INTERVALS_PER_SECOND) % 4294967296

/-- The accumulator a call of the service routine leaves when the deviation is
left out: one interval added, one second taken off when one is reached. -/
def SWRTC_uncompensated (tps : Nat) (s : SWRTC_State) : Nat :=
  if tps ≤ SWRTC_advanced tps s then SWRTC_advanced tps s - tps else SWRTC_advanced tps s

/-- Number of calls among the first `n` that incremented the second counter
without the call right before them having added the deviation. -/
def SWRTC_uncontested_seconds (tps : Nat) (s : SWRTC_State) : Nat → Nat
  | 0 => 0
  | n + 1 => SWRTC_uncontested_seconds tps s n +
      (if (SWRTC_report_of tps s n).second_passed &&
          !(match n with
            | 0 => false
            | m + 1 => (SWRTC_report_of tps s m).deviation_added)
        then 1 else 0)

/-- The accumulator and the flag `compensated` are such that a second that has
just been compensated is not followed by another one in the next call. -/
def SWRTC_settled (s : SWRTC_State) : Prop :=
  (s.compensated = false ∧ s.clk_ticks < 32000000) ∨
  (s.compensated = true ∧ (s.clk_ticks + 16000000) % 4294967296 < 32000000)

/-- The state a run of `GetHidirtShadowConfig` ends in, whether it returned or
not. -/
def HIDIRT_Run.state : HIDIRT_Run → HIDIRT_State
  | HIDIRT_Run.done st => st
  | HIDIRT_Run.halted st => st

/-- Whether a run of `GetHidirtShadowConfig` returned to its caller. -/
def HIDIRT_Run.returned : HIDIRT_Run → Bool
  | HIDIRT_Run.done _ => true
  | HIDIRT_Run.halted _ => false

/-- The report IDs that name a field of the configuration record. -/
def HIDIRT_field_ids : List Nat :=
  [REP_ID_CONTROL_PC_ENABLE, REP_ID_FORWARD_IR_ENABLE, REP_ID_POWER_ON_IR_CODE,
   REP_ID_POWER_OFF_IR_CODE, REP_ID_RESET_IR_CODE, REP_ID_MINIMUM_REPEATS,
   REP_ID_CLOCK_CORRECTION, REP_ID_WAKEUP_TIME_SPAN, REP_ID_WATCHDOG_ENABLE,
   REP_ID_WATCHDOG_RESET]

/-- The field of a configuration record that a report ID names, `none` for an
ID that names no field. -/
def HIDIRT_field (cfg : hidirt_data_t) (id : Nat) : Option HIDIRT_Reply :=
  if id = REP_ID_CONTROL_PC_ENABLE then some (.flag cfg.control_pc_enable)
  else if id = REP_ID_FORWARD_IR_ENABLE then some (.flag cfg.forward_ir_enable)
  else if id = REP_ID_POWER_ON_IR_CODE then some (.code cfg.irmp_power_on)
  else if id = REP_ID_POWER_OFF_IR_CODE then some (.code cfg.irmp_power_off)
  else if id = REP_ID_RESET_IR_CODE then some (.code cfg.irmp_reset)
  else if id = REP_ID_MINIMUM_REPEATS then some (.byte cfg.min_ir_repeats)
  else if id = REP_ID_CLOCK_CORRECTION then some (.correction cfg.clock_correction)
  else if id = REP_ID_WAKEUP_TIME_SPAN then some (.byte cfg.wakeup_time_span)
  else if id = REP_ID_WATCHDOG_ENABLE then some (.flag cfg.watchdog_enable)
  else if id = REP_ID_WATCHDOG_RESET then some (.flag cfg.watchdog_reset)
  else none

/-- The value a set request for the field named by a report ID carries, in
the type of that field, given the values read from the buffer (see
`CustomHID_SetFeature_switch`). -/
def HIDIRT_carried_value (id : Nat) (flag : Bool) (code : IRMP_DATA) (byte : Nat)
    (correction : Int) : Option HIDIRT_Reply :=
  if id = REP_ID_CONTROL_PC_ENABLE ∨ id = REP_ID_FORWARD_IR_ENABLE ∨
      id = REP_ID_WATCHDOG_ENABLE ∨ id = REP_ID_WATCHDOG_RESET then
    some (.flag flag)
  else if id = REP_ID_POWER_ON_IR_CODE ∨ id = REP_ID_POWER_OFF_IR_CODE ∨
      id = REP_ID_RESET_IR_CODE then
    some (.code code)
  else if id = REP_ID_MINIMUM_REPEATS ∨ id = REP_ID_WAKEUP_TIME_SPAN then
    some (.byte byte)
  else if id = REP_ID_CLOCK_CORRECTION then
    some (.correction correction)
  else none

/-- The value a set request for the field named by a report ID carries in its
buffer, in the type of that field: a `bool` converted from byte 0, a decoded
command in bytes 0 to 5, a `uint8_t` in byte 0 or an `int32_t` in bytes 0 to
3. -/
def HIDIRT_carried (id : Nat) (buffer : Nat → Nat) : Option HIDIRT_Reply :=
  HIDIRT_carried_value id (decide (rd_u8 buffer 0 ≠ 0)) (rd_IRMP_DATA buffer) (rd_u8 buffer 0)
    (toI32 (rd_u32 buffer 0 : Nat))

/-- A reception counts towards the reset chord for the reset code `code` when
it equals that code and is not flagged as a repetition. -/
def IRMP_counted (code d : IRMP_DATA) : Bool :=
  IRMP_DataIsEqual d code && decide (d.flags &&& IRMP_FLAG_REPETITION = 0)

/-- The number of counted receptions of the reset code `code` among the first
`n` receptions since the last reception of a different code or the last
firing, a firing being the third counted reception in a row. -/
def IRMP_chord (code : IRMP_DATA) (rx : Nat → IRMP_DATA) : Nat → Nat
  | 0 => 0
  | n + 1 =>
    if IRMP_DataIsEqual (rx n) code then
      (if IRMP_counted code (rx n) then
        (if IRMP_chord code rx n = 2 then 0 else IRMP_chord code rx n + 1)
       else IRMP_chord code rx n)
    else 0

/-- A buffer of received bytes given as a list, byte 0 first; bytes beyond the
list read as 0. -/
def HIDIRT_buffer (bytes : List Nat) : Nat → Nat := fun i => bytes.getD i 0

/-- The start-up state with three different codes trained: power-on
(protocol 2, address 1, command 1), power-off (protocol 2, address 1,
command 2) and reset (protocol 2, address 5, command 7). -/
def HIDIRT_trained : HIDIRT_State :=
  { HIDIRT_initial with
    hidirt_data :=
      { HIDIRT_initial.hidirt_data with
        irmp_power_on := { protocol := 2, address := 1, command := 1, flags := 0 }
        irmp_power_off := { protocol := 2, address := 1, command := 2, flags := 0 }
        irmp_reset := { protocol := 2, address := 5, command := 7, flags := 0 } } }

/-- Reception `m` fires the reset chord for the reset code `code`: it is
counted and two counted receptions are already pending. -/
def IRMP_fires (code : IRMP_DATA) (rx : Nat → IRMP_DATA) (m : Nat) : Bool :=
  IRMP_counted code (rx m) && decide (IRMP_chord code rx m = 2)

/-- Position `w` starts a window of the reset chord: nothing was received
before it, or the reception right before it was a different code or fired. -/
def IRMP_window_start (code : IRMP_DATA) (rx : Nat → IRMP_DATA) (w : Nat) : Bool :=
  decide (w = 0) || !IRMP_DataIsEqual (rx (w - 1)) code || IRMP_fires code rx (w - 1)

/-- The buffer after a sequence of calls. -/
def FIFO_final (out : fifo_entry_t) : fifo_t → List FIFO_Op → fifo_t
  | fifo, [] => fifo
  | fifo, op :: ops => FIFO_final out (FIFO_step out fifo op).2 ops

/-- Number of writes among the results that returned true. -/
def FIFO_writes_done : List FIFO_Result → Nat
  | [] => 0
  | FIFO_Result.wrote true :: rest => FIFO_writes_done rest + 1
  | _ :: rest => FIFO_writes_done rest

/-- Number of reads among the results that returned true. -/
def FIFO_reads_done : List FIFO_Result → Nat
  | [] => 0
  | FIFO_Result.got (some _) :: rest => FIFO_reads_done rest + 1
  | _ :: rest => FIFO_reads_done rest

/-- The state after the first `n` calls of `IRMP_ForwardData`, call `j`
(counted from 0) being given the command `rx j`. -/
def IRMP_ForwardData_after (st : HIDIRT_State) (rx : Nat → IRMP_DATA)
    (at_ptr : Nat → fifo_entry_t) : Nat → HIDIRT_State
  | 0 => st
  | n + 1 => IRMP_ForwardData (IRMP_ForwardData_after st rx at_ptr n) (rx n) (at_ptr n)

/-- A held key: an initial command without the repetition flag followed by
the same command flagged as a repetition, again and again. -/
def IRMP_held_key (d : IRMP_DATA) : Nat → IRMP_DATA
  | 0 => { d with flags := 0 }
  | _ + 1 => { d with flags := IRMP_FLAG_REPETITION }

/-- A decoded command slot is blank (not trained): its protocol is `0x00`
or `0xFF`. -/
def IRMP_blank (d : IRMP_DATA) : Bool :=
  decide (d.protocol = 0x00 ∨ d.protocol = 0xFF)

/-- The state in which the interrupt routine has moved the debounced signal
states to `key_state`, everything else as in `st`. -/
def HIDIRT_sensed (st : HIDIRT_State) (key_state : Nat) : HIDIRT_State :=
  { st with deb := { st.deb with key_state := key_state } }

/-- The start-up state with the control of the host buttons enabled, both
sense signals set and the power-press intent set. -/
def HIDIRT_power_intent : HIDIRT_State :=
  { HIDIRT_initial with
    hidirt_data := { HIDIRT_initial.hidirt_data with control_pc_enable := true }
    flags := { HIDIRT_initial.flags with press_power_button := true } }

/-- A call of the ring buffer interface, `FIFO_Clear` included. -/
inductive FIFO_Call where
  | write (entry : fifo_entry_t)
  | read
  | clear
deriving DecidableEq, Repr

/-- The buffer after one call of the interface; a read is given the scratch
output record `out`. -/
def FIFO_call (out : fifo_entry_t) (fifo : fifo_t) : FIFO_Call → fifo_t
  | FIFO_Call.write e => (FIFO_Write fifo e).2
  | FIFO_Call.read => (FIFO_Read fifo out).2.1
  | FIFO_Call.clear => FIFO_Clear fifo

/-- The buffer after a sequence of calls of the interface. -/
def FIFO_after_calls (out : fifo_entry_t) : fifo_t → List FIFO_Call → fifo_t
  | fifo, [] => fifo
  | fifo, c :: cs => FIFO_after_calls out (FIFO_call out fifo c) cs

/-- The report IDs `CustomHID_SetFeature` has a case for. -/
def HIDIRT_set_ids : List Nat :=
  [REP_ID_CONTROL_PC_ENABLE, REP_ID_FORWARD_IR_ENABLE, REP_ID_POWER_ON_IR_CODE,
   REP_ID_POWER_OFF_IR_CODE, REP_ID_RESET_IR_CODE, REP_ID_MINIMUM_REPEATS,
   REP_ID_CURRENT_TIME, REP_ID_CLOCK_CORRECTION, REP_ID_WAKEUP_TIME,
   REP_ID_WAKEUP_TIME_SPAN, REP_ID_REQUEST_BOOTLOADER, REP_ID_WATCHDOG_ENABLE,
   REP_ID_WATCHDOG_RESET]

/-- The report IDs `CustomHID_GetFeature` has a case for. -/
def HIDIRT_get_ids : List Nat :=
  [REP_ID_GET_FIRMWARE_VERSION, REP_ID_CONTROL_PC_ENABLE, REP_ID_FORWARD_IR_ENABLE,
   REP_ID_POWER_ON_IR_CODE, REP_ID_POWER_OFF_IR_CODE, REP_ID_RESET_IR_CODE,
   REP_ID_MINIMUM_REPEATS, REP_ID_CURRENT_TIME, REP_ID_CLOCK_CORRECTION,
   REP_ID_WAKEUP_TIME, REP_ID_WAKEUP_TIME_SPAN, REP_ID_WATCHDOG_ENABLE]

/-! ## Theorems -/

theorem land_fifo_mask (x : Nat) : x &&& fifo_mask = x % 16 := by
  have h := Nat.and_pow_two_sub_one_eq_mod x 4
  simpa [fifo_mask, FIFO_SIZE] using h

theorem FIFO_holds_clear (fifo : fifo_t) : FIFO_holds (FIFO_Clear fifo) [] := by
  simp [FIFO_holds, FIFO_Clear, FIFO_contents, FIFO_SIZE]

theorem FIFO_contents_length (fifo : fifo_t) :
    (FIFO_contents fifo).length = (fifo.write + 16 - fifo.read) % 16 := by
  simp [FIFO_contents, FIFO_SIZE]

theorem FIFO_holds_write (fifo : fifo_t) (q : SpecQueue) (e : fifo_entry_t)
    (h : FIFO_holds fifo q) :
    (FIFO_Write fifo e).1 = decide (q.length < 15) ∧
    FIFO_holds (FIFO_Write fifo e).2 (if q.length < 15 then q ++ [e] else q) := by
  obtain ⟨hr, hw, hq⟩ := h
  have hlen : q.length = (fifo.write + 16 - fifo.read) % 16 := by
    rw [← hq, FIFO_contents_length]
  unfold FIFO_Write
  simp only [land_fifo_mask]
  by_cases hfull : fifo.read = (fifo.write + 1) % 16
  · have h15 : ¬ q.length < 15 := by omega
    simp [hfull.symm, h15, FIFO_holds, hr, hw, hq]
  · have h15 : q.length < 15 := by omega
    rw [if_neg hfull, if_pos h15]
    refine ⟨by simp [h15], ?_, ?_, ?_⟩
    · exact hr
    · show (fifo.write + 1) % 16 < 16
      omega
    · subst hq
      unfold FIFO_contents
      simp only [FIFO_SIZE]
      have hc : ((fifo.write + 1) % 16 + 16 - fifo.read) % 16
          = (fifo.write + 16 - fifo.read) % 16 + 1 := by omega
      rw [hc, List.range_succ, List.map_append]
      congr 1
      · apply List.map_congr_left
        intro i hi
        have hi2 : i < (fifo.write + 16 - fifo.read) % 16 := List.mem_range.mp hi
        have : (fifo.read + i) % 16 ≠ fifo.write % 16 := by omega
        simp [this]
      · have : (fifo.read + (fifo.write + 16 - fifo.read) % 16) % 16 = fifo.write % 16 := by omega
        simp [this]

theorem FIFO_holds_read (fifo : fifo_t) (q : SpecQueue) (out : fifo_entry_t)
    (h : FIFO_holds fifo q) :
    match q with
    | [] => FIFO_Read fifo out = (false, fifo, out)
    | e :: rest => (FIFO_Read fifo out).1 = true ∧ (FIFO_Read fifo out).2.2 = e ∧
        FIFO_holds (FIFO_Read fifo out).2.1 rest := by
  obtain ⟨hr, hw, hq⟩ := h
  have hlen : q.length = (fifo.write + 16 - fifo.read) % 16 := by
    rw [← hq, FIFO_contents_length]
  unfold FIFO_Read
  simp only [land_fifo_mask]
  by_cases hempty : fifo.read = fifo.write
  · have h0 : q.length = 0 := by omega
    have hnil : q = [] := List.length_eq_zero.mp h0
    subst hnil
    simp [hempty]
  · obtain ⟨c, hc⟩ : ∃ c, (fifo.write + 16 - fifo.read) % 16 = c + 1 :=
      ⟨(fifo.write + 16 - fifo.read) % 16 - 1, by omega⟩
    have hcont : FIFO_contents fifo = fifo.entry fifo.read ::
        FIFO_contents { fifo with read := (fifo.read + 1) % 16 } := by
      unfold FIFO_contents
      simp only [FIFO_SIZE]
      have hc2 : (fifo.write + 16 - (fifo.read + 1) % 16) % 16 = c := by omega
      rw [hc, hc2, List.range_succ_eq_map, List.map_cons, List.map_map]
      have h0 : (fifo.read + 0) % 16 = fifo.read := by omega
      rw [h0]
      congr 1
      apply List.map_congr_left
      intro i _
      have : (fifo.read + (i + 1)) % 16 = ((fifo.read + 1) % 16 + i) % 16 := by omega
      simp [this]
    rw [hcont] at hq
    subst hq
    simp only [if_neg hempty]
    refine ⟨trivial, trivial, ?_, hw, rfl⟩
    show (fifo.read + 1) % 16 < 16
    omega

theorem FIFO_step_refines (out : fifo_entry_t) (fifo : fifo_t) (q : SpecQueue) (op : FIFO_Op)
    (h : FIFO_holds fifo q) :
    (FIFO_step out fifo op).1 = (SpecQueue_step q op).1 ∧
    FIFO_holds (FIFO_step out fifo op).2 (SpecQueue_step q op).2 := by
  cases op with
  | write e =>
    have hw := FIFO_holds_write fifo q e h
    by_cases h15 : q.length < 15
    · simp only [h15, if_true] at hw
      simp [FIFO_step, SpecQueue_step, FIFO_SIZE, h15, hw.1, hw.2]
    · simp only [h15, if_false] at hw
      simp [FIFO_step, SpecQueue_step, FIFO_SIZE, h15, hw.1, hw.2]
  | read =>
    have hrd := FIFO_holds_read fifo q out h
    cases q with
    | nil =>
      simp only at hrd
      simp [FIFO_step, SpecQueue_step, hrd, h]
    | cons e rest =>
      simp only at hrd
      simp [FIFO_step, SpecQueue_step, hrd.1, hrd.2.1, hrd.2.2]

theorem FIFO_run_refines (out : fifo_entry_t) (ops : List FIFO_Op) :
    ∀ (fifo : fifo_t) (q : SpecQueue), FIFO_holds fifo q →
      FIFO_run out fifo ops = SpecQueue_run q ops := by
  induction ops with
  | nil => intro fifo q _; rfl
  | cons op ops ih =>
    intro fifo q h
    have hs := FIFO_step_refines out fifo q op h
    simp only [FIFO_run, SpecQueue_run]
    rw [hs.1, ih _ _ hs.2]

/-- C1: on a buffer that starts cleared, every sequence of `FIFO_Write` and
`FIFO_Read` calls returns what the same calls return on a first-in-first-out
queue of at most 15 entries: a successful read delivers, unchanged, the entry
of the oldest successful write that has not been read yet. -/
theorem C1_fifo_is_queue (fifo : fifo_t) (out : fifo_entry_t) (ops : List FIFO_Op) :
    FIFO_run out (FIFO_Clear fifo) ops = SpecQueue_run [] ops :=
  FIFO_run_refines out ops (FIFO_Clear fifo) [] (FIFO_holds_clear fifo)

theorem testBit_mod_256 (x k : Nat) (hk : k < 8) : (x % 256).testBit k = x.testBit k := by
  have h := Nat.testBit_mod_two_pow x 8 k
  simpa [hk] using h

theorem testBit_BNOT (x k : Nat) (hk : k < 8) : (BNOT x).testBit k = !x.testBit k := by
  have hx : x % 256 < 2 ^ 8 := by omega
  have h := Nat.testBit_two_pow_sub_succ hx k
  have e : BNOT x = 2 ^ 8 - (x % 256 + 1) := by unfold BNOT; omega
  rw [e, h, testBit_mod_256 x k hk]
  simp [hk]

theorem DEB_Service_ct0 (s : DEB_State) (keys : Nat) :
    (DEB_Service s keys).ct0 = BNOT (s.ct0 &&& (s.key_state ^^^ keys) % 256) := by
  rfl

theorem DEB_Service_ct1 (s : DEB_State) (keys : Nat) :
    (DEB_Service s keys).ct1 =
      ((DEB_Service s keys).ct0 ^^^ (s.ct1 &&& (s.key_state ^^^ keys) % 256)) % 256 := by
  rfl

theorem DEB_Service_key_state (s : DEB_State) (keys : Nat) :
    (DEB_Service s keys).key_state = (s.key_state ^^^ DEB_flip_mask s keys) % 256 := by
  rfl

theorem DEB_Service_key_press (s : DEB_State) (keys : Nat) :
    (DEB_Service s keys).key_press =
      (s.key_press ||| ((DEB_Service s keys).key_state &&& DEB_flip_mask s keys)) % 256 := by
  rfl

theorem DEB_Service_key_release (s : DEB_State) (keys : Nat) :
    (DEB_Service s keys).key_release =
      (s.key_release ||| (BNOT (DEB_Service s keys).key_state &&& DEB_flip_mask s keys)) % 256 := by
  rfl

theorem DEB_bit_diff (k : Nat) (hk : k < 8) (s : DEB_State) (keys : Nat) :
    ((s.key_state ^^^ keys) % 256).testBit k = DEB_differs k s keys := by
  rw [testBit_mod_256 _ _ hk, Nat.testBit_xor]
  unfold DEB_differs
  cases s.key_state.testBit k <;> cases keys.testBit k <;> rfl

theorem DEB_bit_ct0 (k : Nat) (hk : k < 8) (s : DEB_State) (keys : Nat) :
    (DEB_Service s keys).ct0.testBit k = !(s.ct0.testBit k && DEB_differs k s keys) := by
  rw [DEB_Service_ct0, testBit_BNOT _ _ hk, Nat.testBit_and, DEB_bit_diff k hk]

theorem DEB_bit_ct1 (k : Nat) (hk : k < 8) (s : DEB_State) (keys : Nat) :
    (DEB_Service s keys).ct1.testBit k =
      xor (!(s.ct0.testBit k && DEB_differs k s keys)) (s.ct1.testBit k && DEB_differs k s keys) := by
  rw [DEB_Service_ct1, testBit_mod_256 _ _ hk, Nat.testBit_xor, Nat.testBit_and,
    DEB_bit_diff k hk, DEB_bit_ct0 k hk]

theorem DEB_bit_flip_mask (k : Nat) (hk : k < 8) (s : DEB_State) (keys : Nat) :
    (DEB_flip_mask s keys).testBit k =
      (DEB_differs k s keys && !s.ct0.testBit k && !s.ct1.testBit k) := by
  unfold DEB_flip_mask
  rw [testBit_mod_256 _ _ hk, Nat.testBit_and, Nat.testBit_and, DEB_bit_diff k hk,
    DEB_bit_ct0 k hk, DEB_bit_ct1 k hk]
  cases DEB_differs k s keys <;> cases s.ct0.testBit k <;> cases s.ct1.testBit k <;> rfl

theorem DEB_bit_key_state (k : Nat) (hk : k < 8) (s : DEB_State) (keys : Nat) :
    (DEB_Service s keys).key_state.testBit k =
      xor (s.key_state.testBit k) ((DEB_flip_mask s keys).testBit k) := by
  rw [DEB_Service_key_state, testBit_mod_256 _ _ hk, Nat.testBit_xor]

theorem DEB_bit_key_press (k : Nat) (hk : k < 8) (s : DEB_State) (keys : Nat) :
    (DEB_Service s keys).key_press.testBit k =
      (s.key_press.testBit k ||
        ((DEB_Service s keys).key_state.testBit k && (DEB_flip_mask s keys).testBit k)) := by
  rw [DEB_Service_key_press, testBit_mod_256 _ _ hk, Nat.testBit_or, Nat.testBit_and]

theorem DEB_bit_key_release (k : Nat) (hk : k < 8) (s : DEB_State) (keys : Nat) :
    (DEB_Service s keys).key_release.testBit k =
      (s.key_release.testBit k ||
        (!(DEB_Service s keys).key_state.testBit k && (DEB_flip_mask s keys).testBit k)) := by
  rw [DEB_Service_key_release, testBit_mod_256 _ _ hk, Nat.testBit_or, Nat.testBit_and,
    testBit_BNOT _ _ hk]

theorem DEB_flips_eq (k : Nat) (hk : k < 8) (s : DEB_State) (keys : Nat) :
    DEB_flips k s keys = (DEB_differs k s keys && decide (DEB_count k s = 3)) := by
  unfold DEB_flips DEB_count
  rw [DEB_bit_key_state k hk, DEB_bit_flip_mask k hk]
  cases DEB_differs k s keys <;> cases s.ct0.testBit k <;> cases s.ct1.testBit k <;>
    cases s.key_state.testBit k <;> rfl

theorem DEB_count_step (k : Nat) (hk : k < 8) (s : DEB_State) (keys : Nat) :
    DEB_count k (DEB_Service s keys) =
      if DEB_differs k s keys = true then (if DEB_count k s = 3 then 0 else DEB_count k s + 1)
      else 0 := by
  unfold DEB_count
  rw [DEB_bit_ct0 k hk, DEB_bit_ct1 k hk]
  cases DEB_differs k s keys <;> cases s.ct0.testBit k <;> cases s.ct1.testBit k <;> rfl

theorem DEB_count_le (k : Nat) (s : DEB_State) : DEB_count k s ≤ 3 := by
  unfold DEB_count
  cases s.ct0.testBit k <;> cases s.ct1.testBit k <;> simp

theorem DEB_count_reset (k : Nat) (s : DEB_State) :
    DEB_count k s = 0 ↔ DEB_counters_reset k s = true := by
  unfold DEB_count DEB_counters_reset
  cases s.ct0.testBit k <;> cases s.ct1.testBit k <;> simp

theorem DEB_stable_step (k : Nat) (s : DEB_State) (keys : Nat) :
    (DEB_Service s keys).key_state.testBit k =
      xor (s.key_state.testBit k) (DEB_flips k s keys) := by
  unfold DEB_flips
  cases (DEB_Service s keys).key_state.testBit k <;> cases s.key_state.testBit k <;> rfl

theorem DEB_differs_iff (k : Nat) (s : DEB_State) (keys : Nat) :
    DEB_differs k s keys = true ↔ keys.testBit k ≠ s.key_state.testBit k := by
  unfold DEB_differs
  cases keys.testBit k <;> cases s.key_state.testBit k <;> simp

theorem DEB_history (k : Nat) (hk : k < 8) (s : DEB_State) (keys : Nat → Nat)
    (hreset : DEB_counters_reset k s = true) (n : Nat) :
    DEB_count k (DEB_after s keys n) ≤ n ∧
    (∀ j, j < DEB_count k (DEB_after s keys n) →
      (keys (n - 1 - j)).testBit k ≠ (DEB_after s keys n).key_state.testBit k) ∧
    (DEB_count k (DEB_after s keys n) < n →
      (keys (n - 1 - DEB_count k (DEB_after s keys n))).testBit k
        = (DEB_after s keys n).key_state.testBit k) := by
  induction n with
  | zero =>
    have h0 : DEB_count k s = 0 := (DEB_count_reset k s).mpr hreset
    simp [DEB_after, h0]
  | succ n ih =>
    obtain ⟨ih1, ih2, ih3⟩ := ih
    have hc := DEB_count_step k hk (DEB_after s keys n) (keys n)
    have hf := DEB_flips_eq k hk (DEB_after s keys n) (keys n)
    have hb := DEB_stable_step k (DEB_after s keys n) (keys n)
    have hle := DEB_count_le k (DEB_after s keys n)
    simp only [DEB_after]
    by_cases hd : DEB_differs k (DEB_after s keys n) (keys n) = true
    · have hne := (DEB_differs_iff k _ _).mp hd
      by_cases h3 : DEB_count k (DEB_after s keys n) = 3
      · rw [hd, h3] at hf
        rw [hd, h3] at hc
        simp only [if_true] at hc
        rw [hf] at hb
        rw [hc, hb]
        refine ⟨by omega, fun j hj => absurd hj (by omega), fun _ => ?_⟩
        have e : n + 1 - 1 - 0 = n := by omega
        rw [e]
        revert hne
        cases (keys n).testBit k <;> cases (DEB_after s keys n).key_state.testBit k <;> simp
      · rw [hd] at hf
        rw [hd] at hc
        simp only [if_true, if_neg h3] at hc
        have hf' : DEB_flips k (DEB_after s keys n) (keys n) = false := by
          rw [hf]; simp [h3]
        rw [hf'] at hb
        simp only [Bool.xor_false] at hb
        rw [hc, hb]
        refine ⟨by omega, fun j hj => ?_, fun hlt => ?_⟩
        · rcases Nat.eq_zero_or_pos j with h0 | hpos
          · subst h0
            have e : n + 1 - 1 - 0 = n := by omega
            rw [e]; exact hne
          · have e : n + 1 - 1 - j = n - 1 - (j - 1) := by omega
            rw [e]; exact ih2 (j - 1) (by omega)
        · have e : n + 1 - 1 - (DEB_count k (DEB_after s keys n) + 1)
              = n - 1 - DEB_count k (DEB_after s keys n) := by omega
          rw [e]; exact ih3 (by omega)
    · have hd' : DEB_differs k (DEB_after s keys n) (keys n) = false := by
        simpa using hd
      rw [hd'] at hf
      rw [hd'] at hc
      simp only [Bool.false_and] at hf
      simp only [Bool.false_eq_true, if_false] at hc
      rw [hf] at hb
      simp only [Bool.xor_false] at hb
      rw [hc, hb]
      refine ⟨by omega, fun j hj => absurd hj (by omega), fun _ => ?_⟩
      have e : n + 1 - 1 - 0 = n := by omega
      rw [e]
      have := (DEB_differs_iff k (DEB_after s keys n) (keys n)).not.mp hd
      simpa using this

theorem DEB_flips_mask (k : Nat) (hk : k < 8) (s : DEB_State) (keys : Nat) :
    (DEB_flip_mask s keys).testBit k = DEB_flips k s keys := by
  unfold DEB_flips
  rw [DEB_bit_key_state k hk]
  cases s.key_state.testBit k <;> cases (DEB_flip_mask s keys).testBit k <;> rfl

theorem DEB_no_flip_frame (k : Nat) (hk : k < 8) (s : DEB_State) (keys : Nat)
    (h : DEB_flips k s keys = false) :
    (DEB_Service s keys).key_state.testBit k = s.key_state.testBit k ∧
    (DEB_Service s keys).key_press.testBit k = s.key_press.testBit k ∧
    (DEB_Service s keys).key_release.testBit k = s.key_release.testBit k := by
  have hm := DEB_flips_mask k hk s keys
  rw [h] at hm
  rw [DEB_bit_key_press k hk, DEB_bit_key_release k hk, DEB_bit_key_state k hk, hm]
  simp

/-- C2: `DEB_Service` accepts a new level only after 4 stable samples.  For a
signal bit `k` whose two vertical counter bits start in the reset state and
every sequence of sampled values, call `n` flips the stable bit if and only if
it has three predecessors and the values sampled by it and by the three calls
before it all differ, in bit `k`, from the stable bit the call finds; and when
four calls in a row, the first finding the counters reset, each sample a value
differing from the stable bit, the first three leave the bit and the fourth
flips it. -/
theorem C2_flip_iff_four_samples (k : Nat) (hk : k < 8) (s : DEB_State) (keys : Nat → Nat)
    (hreset : DEB_counters_reset k s = true) :
    (∀ n, DEB_flips k (DEB_after s keys n) (keys n) = true ↔
      (3 ≤ n ∧ ∀ j, j ≤ 3 →
        (keys (n - j)).testBit k ≠ (DEB_after s keys n).key_state.testBit k)) ∧
    (∀ n, DEB_counters_reset k (DEB_after s keys n) = true →
      (∀ j, j ≤ 3 → DEB_differs k (DEB_after s keys (n + j)) (keys (n + j)) = true) →
      DEB_flips k (DEB_after s keys n) (keys n) = false ∧
      DEB_flips k (DEB_after s keys (n + 1)) (keys (n + 1)) = false ∧
      DEB_flips k (DEB_after s keys (n + 2)) (keys (n + 2)) = false ∧
      DEB_flips k (DEB_after s keys (n + 3)) (keys (n + 3)) = true) := by
  constructor
  · intro n
    obtain ⟨h1, h2, h3⟩ := DEB_history k hk s keys hreset n
    have hle := DEB_count_le k (DEB_after s keys n)
    rw [DEB_flips_eq k hk, Bool.and_eq_true, decide_eq_true_eq, DEB_differs_iff]
    constructor
    · rintro ⟨hd, hc⟩
      refine ⟨by omega, fun j hj => ?_⟩
      rcases Nat.eq_zero_or_pos j with h0 | hpos
      · subst h0; exact hd
      · have e : n - j = n - 1 - (j - 1) := by omega
        rw [e]; exact h2 (j - 1) (by omega)
    · rintro ⟨hn, hall⟩
      refine ⟨hall 0 (by omega), ?_⟩
      by_contra hc
      have hlt : DEB_count k (DEB_after s keys n) < n := by omega
      have hne := hall (DEB_count k (DEB_after s keys n) + 1) (by omega)
      have e : n - (DEB_count k (DEB_after s keys n) + 1)
          = n - 1 - DEB_count k (DEB_after s keys n) := by omega
      rw [e] at hne
      exact hne (h3 hlt)
  · intro n hr hall
    have c0 : DEB_count k (DEB_after s keys n) = 0 := (DEB_count_reset k _).mpr hr
    have d0 := hall 0 (by omega)
    have d1 := hall 1 (by omega)
    have d2 := hall 2 (by omega)
    have d3 := hall 3 (by omega)
    have c1 := DEB_count_step k hk (DEB_after s keys n) (keys n)
    rw [show n + 0 = n from rfl] at d0
    rw [d0, c0] at c1
    have c2 := DEB_count_step k hk (DEB_after s keys (n + 1)) (keys (n + 1))
    rw [d1] at c2
    have c3 := DEB_count_step k hk (DEB_after s keys (n + 2)) (keys (n + 2))
    rw [d2] at c3
    simp only [DEB_after] at c1 c2 c3 ⊢
    simp only [DEB_after] at d1 d2 d3
    rw [c1] at c2
    simp only [if_true] at c1 c2
    rw [c2] at c3
    simp only [if_true] at c3
    refine ⟨?_, ?_, ?_, ?_⟩
    · rw [DEB_flips_eq k hk, c0]; simp
    · rw [DEB_flips_eq k hk, c1]; simp
    · rw [DEB_flips_eq k hk, c2]; simp
    · rw [DEB_flips_eq k hk, c3, d3]; simp

/-- Witness for C2: from the start-up state with the sampled value held at 0,
bit 0 flips on the fourth call (call 3) and not on the third. -/
theorem C2_flip_iff_four_samples_witness :
    DEB_counters_reset 0 DEB_initial = true ∧
    DEB_flips 0 (DEB_after DEB_initial (fun _ => 0) 3) 0 = true ∧
    DEB_flips 0 (DEB_after DEB_initial (fun _ => 0) 2) 0 = false :=
  ⟨by decide,
   ((C2_flip_iff_four_samples 0 (by decide) DEB_initial (fun _ => 0) (by decide)).1 3).mpr
     ⟨by decide, fun j hj => by interval_cases j <;> decide⟩,
   ((C2_flip_iff_four_samples 0 (by decide) DEB_initial (fun _ => 0) (by decide)).2 0
     (by decide) (fun j hj => by interval_cases j <;> decide)).2.2.1⟩

/-- C3 (as stated, refuted): from the start-up state, whose counter bits are in
the reset state, two consecutive calls that sample bit 0 different from the
stable bit do not flip the stable bit on the second call. -/
theorem C3_two_samples_counterexample :
    ¬ (∀ (k : Nat) (s : DEB_State) (keys1 keys2 : Nat), k < 8 →
        DEB_counters_reset k s = true →
        DEB_differs k s keys1 = true →
        DEB_differs k (DEB_Service s keys1) keys2 = true →
        DEB_flips k (DEB_Service s keys1) keys2 = true) := by
  intro h
  have h2 := h 0 DEB_initial 0 0 (by decide) (by decide) (by decide) (by decide)
  revert h2
  decide

/-- C3 (amended): for a bit whose counters are in the reset state, if the
sampled value differs from the stable bit on four consecutive `DEB_Service`
calls, the stable bit is still unchanged after the second call and flips on
the fourth call. -/
theorem C3_flip_on_fourth_call (k : Nat) (hk : k < 8) (s : DEB_State) (r1 r2 r3 r4 : Nat)
    (hreset : DEB_counters_reset k s = true)
    (h1 : DEB_differs k s r1 = true)
    (h2 : DEB_differs k (DEB_Service s r1) r2 = true)
    (h3 : DEB_differs k (DEB_Service (DEB_Service s r1) r2) r3 = true)
    (h4 : DEB_differs k (DEB_Service (DEB_Service (DEB_Service s r1) r2) r3) r4 = true) :
    (DEB_Service (DEB_Service s r1) r2).key_state.testBit k = s.key_state.testBit k ∧
    DEB_flips k (DEB_Service s r1) r2 = false ∧
    DEB_flips k (DEB_Service (DEB_Service (DEB_Service s r1) r2) r3) r4 = true ∧
    (DEB_Service (DEB_Service (DEB_Service (DEB_Service s r1) r2) r3) r4).key_state.testBit k
      = !s.key_state.testBit k := by
  have c0 : DEB_count k s = 0 := (DEB_count_reset k s).mpr hreset
  have c1 := DEB_count_step k hk s r1
  rw [h1, c0] at c1
  simp only [if_true] at c1
  have c2 := DEB_count_step k hk (DEB_Service s r1) r2
  rw [h2, c1] at c2
  simp only [if_true] at c2
  have c3 := DEB_count_step k hk (DEB_Service (DEB_Service s r1) r2) r3
  rw [h3, c2] at c3
  simp only [if_true] at c3
  have f1 : DEB_flips k s r1 = false := by rw [DEB_flips_eq k hk, c0]; simp
  have f2 : DEB_flips k (DEB_Service s r1) r2 = false := by rw [DEB_flips_eq k hk, c1]; simp
  have f3 : DEB_flips k (DEB_Service (DEB_Service s r1) r2) r3 = false := by
    rw [DEB_flips_eq k hk, c2]; simp
  have f4 : DEB_flips k (DEB_Service (DEB_Service (DEB_Service s r1) r2) r3) r4 = true := by
    rw [DEB_flips_eq k hk, c3, h4]; simp
  have b1 := DEB_stable_step k s r1
  have b2 := DEB_stable_step k (DEB_Service s r1) r2
  have b3 := DEB_stable_step k (DEB_Service (DEB_Service s r1) r2) r3
  have b4 := DEB_stable_step k (DEB_Service (DEB_Service (DEB_Service s r1) r2) r3) r4
  rw [f1, Bool.xor_false] at b1
  rw [f2, Bool.xor_false, b1] at b2
  rw [f3, Bool.xor_false, b2] at b3
  rw [f4, b3, Bool.xor_true] at b4
  exact ⟨b2, f2, f4, b4⟩

/-- Witness for C3 (amended): the start-up state with the sampled value held
at 0 for four calls. -/
theorem C3_flip_on_fourth_call_witness :
    DEB_counters_reset 0 DEB_initial = true ∧
    (DEB_Service (DEB_Service (DEB_Service (DEB_Service DEB_initial 0) 0) 0) 0).key_state.testBit 0
      = !DEB_initial.key_state.testBit 0 :=
  ⟨by decide,
   (C3_flip_on_fourth_call 0 (by decide) DEB_initial 0 0 0 0 (by decide) (by decide) (by decide)
     (by decide) (by decide)).2.2.2⟩

/-- C4: glitch rejection.  For a signal bit `k` whose counter bits start in the
reset state and every sequence of sampled values: when call `n` samples a
value that differs from the stable bit, the call before it (if there was one)
sampled a value that agreed with it and the call after it samples a value
that agrees again, then the stable bit, the press bit and the release bit are
the same after those two calls as before them; and a call flips the stable bit
only if the call before it sampled the same value, one that differs from the
stable bit. -/
theorem C4_glitch_rejected (k : Nat) (hk : k < 8) (s : DEB_State) (keys : Nat → Nat)
    (hreset : DEB_counters_reset k s = true) :
    (∀ n, (n = 0 ∨ DEB_differs k (DEB_after s keys (n - 1)) (keys (n - 1)) = false) →
      DEB_differs k (DEB_after s keys n) (keys n) = true →
      DEB_differs k (DEB_after s keys (n + 1)) (keys (n + 1)) = false →
      (DEB_after s keys (n + 2)).key_state.testBit k = (DEB_after s keys n).key_state.testBit k ∧
      (DEB_after s keys (n + 2)).key_press.testBit k = (DEB_after s keys n).key_press.testBit k ∧
      (DEB_after s keys (n + 2)).key_release.testBit k
        = (DEB_after s keys n).key_release.testBit k) ∧
    (∀ n, DEB_flips k (DEB_after s keys n) (keys n) = true →
      1 ≤ n ∧ (keys (n - 1)).testBit k = (keys n).testBit k ∧
      (keys n).testBit k ≠ (DEB_after s keys n).key_state.testBit k) := by
  constructor
  · intro n hprev hd hnext
    have c0 : DEB_count k (DEB_after s keys n) = 0 := by
      rcases hprev with h0 | hp
      · subst h0; exact (DEB_count_reset k s).mpr hreset
      · rcases Nat.eq_zero_or_pos n with h0 | hpos
        · subst h0; exact (DEB_count_reset k s).mpr hreset
        · obtain ⟨m, rfl⟩ : ∃ m, n = m + 1 := ⟨n - 1, by omega⟩
          have e : m + 1 - 1 = m := by omega
          rw [e] at hp
          have hc := DEB_count_step k hk (DEB_after s keys m) (keys m)
          rw [hp] at hc
          simpa [DEB_after] using hc
    have f1 : DEB_flips k (DEB_after s keys n) (keys n) = false := by
      rw [DEB_flips_eq k hk, c0]; simp
    have f2 : DEB_flips k (DEB_after s keys (n + 1)) (keys (n + 1)) = false := by
      rw [DEB_flips_eq k hk, hnext]; simp
    obtain ⟨a1, a2, a3⟩ := DEB_no_flip_frame k hk _ _ f1
    obtain ⟨b1, b2, b3⟩ := DEB_no_flip_frame k hk _ _ f2
    simp only [DEB_after] at a1 a2 a3 b1 b2 b3 ⊢
    exact ⟨b1.trans a1, b2.trans a2, b3.trans a3⟩
  · intro n hf
    obtain ⟨h1, h2, _⟩ := DEB_history k hk s keys hreset n
    rw [DEB_flips_eq k hk, Bool.and_eq_true, decide_eq_true_eq, DEB_differs_iff] at hf
    obtain ⟨hd, hc⟩ := hf
    have hp := h2 0 (by omega)
    have e : n - 1 - 0 = n - 1 := by omega
    rw [e] at hp
    refine ⟨by omega, ?_, hd⟩
    revert hp hd
    cases (keys (n - 1)).testBit k <;> cases (keys n).testBit k <;>
      cases (DEB_after s keys n).key_state.testBit k <;> simp

/-- Witness for C4: from the start-up state, a sampled value whose bit 0
differs from the stable bit on call 0 only (1 is stable): the three bits are
unchanged after calls 0 and 1. -/
theorem C4_glitch_rejected_witness :
    DEB_counters_reset 0 DEB_initial = true ∧
    (DEB_after DEB_initial (fun n => if n = 0 then 0 else 1) 2).key_state.testBit 0
      = DEB_initial.key_state.testBit 0 :=
  ⟨by decide,
   ((C4_glitch_rejected 0 (by decide) DEB_initial (fun n => if n = 0 then 0 else 1)
     (by decide)).1 0 (Or.inl rfl) (by decide) (by decide)).1⟩

theorem toU32_of_lt (x : Nat) (h : x < 4294967296) : toU32 (x : Int) = x := by
  unfold toU32
  omega

theorem toU32_sub (t tps : Nat) (h1 : tps ≤ t) (h2 : t < 4294967296) :
    toU32 ((t : Int) - (tps : Int)) = t - tps := by
  unfold toU32
  omega

theorem SWRTC_advanced_lt (tps : Nat) (s : SWRTC_State) : SWRTC_advanced tps s < 4294967296 :=
  Nat.mod_lt _ (by norm_num)

theorem SWRTC_step_secs (tps : Nat) (s : SWRTC_State) :
    (SWRTC_Service_at tps s).1.clk_secs =
      if tps ≤ SWRTC_advanced tps s then (s.clk_secs + 1) % 4294967296 else s.clk_secs := by
  unfold SWRTC_Service_at SWRTC_advanced
  simp

theorem SWRTC_step_flags (tps : Nat) (s : SWRTC_State) :
    (SWRTC_Service_at tps s).1.compensated =
      (decide (tps ≤ SWRTC_advanced tps s) && !s.compensated) ∧
    (SWRTC_Service_at tps s).2.deviation_added =
      (decide (tps ≤ SWRTC_advanced tps s) && !s.compensated) ∧
    (SWRTC_Service_at tps s).2.second_passed = decide (tps ≤ SWRTC_advanced tps s) ∧
    (SWRTC_Service_at tps s).1.clk_deviation = s.clk_deviation := by
  unfold SWRTC_Service_at SWRTC_advanced
  cases s.compensated <;> simp

theorem SWRTC_step_ticks (tps : Nat) (s : SWRTC_State) :
    (SWRTC_Service_at tps s).1.clk_ticks =
      if tps ≤ SWRTC_advanced tps s then
        toU32 (((SWRTC_advanced tps s - tps : Nat) : Int)
          + (if s.compensated = true then 0 else s.clk_deviation))
      else SWRTC_advanced tps s := by
  have hlt := SWRTC_advanced_lt tps s
  by_cases h : tps ≤ SWRTC_advanced tps s
  · have e := toU32_sub _ _ h hlt
    have e2 : toU32 (((SWRTC_advanced tps s - tps : Nat) : Int)) = SWRTC_advanced tps s - tps :=
      toU32_of_lt _ (by omega)
    rw [if_pos h]
    unfold SWRTC_advanced at h e e2 ⊢
    unfold SWRTC_Service_at
    cases hc : s.compensated
    · simp only [h, decide_True, if_true, Bool.true_and, e, beq_self_eq_true,
        Bool.false_eq_true, if_false]
    · simp only [h, decide_True, if_true, Bool.true_and, e, e2, add_zero]
      rfl
  · rw [if_neg h]
    unfold SWRTC_advanced at h ⊢
    unfold SWRTC_Service_at
    simp only [h, decide_False, Bool.false_and, Bool.false_eq_true, if_false]

theorem SWRTC_advanced_built (s : SWRTC_State) :
    SWRTC_advanced SWRTC_TICKS_PER_SECOND s = (s.clk_ticks + 16000000) % 4294967296 := by
  unfold SWRTC_advanced
  norm_num [SWRTC_TICKS_PER_SECOND, SWRTC_INTERVALS_PER_SECOND]

/-- C5: for every clock state, `SWRTC_Service` adds one interval of 16,000,000
ticks to the 32-bit accumulator; if the sum has reached 32,000,000 the second
counter is incremented by one (modulo 2^32) and exactly 32,000,000 is
subtracted (the deviation, in a call that applies it, comes on top), otherwise
the second counter is unchanged and the accumulator is the sum. -/
theorem C5_service_step (s : SWRTC_State) :
    (SWRTC_Service s).clk_secs =
      (if 32000000 ≤ (s.clk_ticks + 16000000) % 4294967296
        then (s.clk_secs + 1) % 4294967296 else s.clk_secs) ∧
    (SWRTC_Service s).clk_ticks =
      (if 32000000 ≤ (s.clk_ticks + 16000000) % 4294967296
        then toU32 ((((s.clk_ticks + 16000000) % 4294967296 - 32000000 : Nat) : Int)
              + (if s.compensated = true then 0 else s.clk_deviation))
        else (s.clk_ticks + 16000000) % 4294967296) := by
  have h1 := SWRTC_step_secs SWRTC_TICKS_PER_SECOND s
  have h2 := SWRTC_step_ticks SWRTC_TICKS_PER_SECOND s
  rw [SWRTC_advanced_built] at h1 h2
  exact ⟨h1, h2⟩

theorem SWRTC_report_flags (tps : Nat) (s : SWRTC_State) (n : Nat) :
    (SWRTC_report_of tps s n).deviation_added =
      ((SWRTC_report_of tps s n).second_passed && !(SWRTC_after tps s n).compensated) ∧
    (SWRTC_after tps s (n + 1)).compensated = (SWRTC_report_of tps s n).deviation_added ∧
    (SWRTC_after tps s (n + 1)).clk_deviation = (SWRTC_after tps s n).clk_deviation := by
  obtain ⟨h1, h2, h3, h4⟩ := SWRTC_step_flags tps (SWRTC_after tps s n)
  unfold SWRTC_report_of
  simp only [SWRTC_after]
  rw [h1, h2, h3, h4]
  exact ⟨rfl, rfl, rfl⟩

theorem SWRTC_after_ticks (tps : Nat) (s : SWRTC_State) (n : Nat) :
    (SWRTC_after tps s (n + 1)).clk_ticks =
      toU32 ((SWRTC_uncompensated tps (SWRTC_after tps s n) : Int) +
        (if (SWRTC_report_of tps s n).deviation_added = true
          then (SWRTC_after tps s n).clk_deviation else 0)) := by
  obtain ⟨_, h2, _, _⟩ := SWRTC_step_flags tps (SWRTC_after tps s n)
  have ht := SWRTC_step_ticks tps (SWRTC_after tps s n)
  have hlt := SWRTC_advanced_lt tps (SWRTC_after tps s n)
  unfold SWRTC_report_of SWRTC_uncompensated
  simp only [SWRTC_after]
  rw [ht, h2]
  by_cases h : tps ≤ SWRTC_advanced tps (SWRTC_after tps s n)
  · cases hc : (SWRTC_after tps s n).compensated <;> simp [h]
  · simp only [if_neg h, h, decide_False, Bool.false_and, Bool.false_eq_true, if_false,
      add_zero]
    exact (toU32_of_lt _ hlt).symm

/-- C6: in every run of the service routine (built for any number of ticks
per second) the deviation is never added in two consecutive calls.  Call
`n + 1` adds the deviation, once, exactly when it rolls over a second and call
`n` did not add it; the first call adds it exactly when it rolls over a second
and finds the flag `compensated` clear, as at start-up; and the accumulator a
call leaves is the uncompensated one plus the deviation if the call added it
and plus nothing otherwise. -/
theorem C6_no_consecutive_compensation (tps : Nat) (s : SWRTC_State) (n : Nat) :
    ((SWRTC_report_of tps s (n + 1)).deviation_added = true ↔
      ((SWRTC_report_of tps s (n + 1)).second_passed = true ∧
        (SWRTC_report_of tps s n).deviation_added = false)) ∧
    ((SWRTC_report_of tps s 0).deviation_added = true ↔
      ((SWRTC_report_of tps s 0).second_passed = true ∧ s.compensated = false)) ∧
    ¬ ((SWRTC_report_of tps s n).deviation_added = true ∧
        (SWRTC_report_of tps s (n + 1)).deviation_added = true) ∧
    (SWRTC_after tps s (n + 1)).clk_ticks =
      toU32 ((SWRTC_uncompensated tps (SWRTC_after tps s n) : Int) +
        (if (SWRTC_report_of tps s n).deviation_added = true
          then (SWRTC_after tps s n).clk_deviation else 0)) := by
  obtain ⟨a1, a2, _⟩ := SWRTC_report_flags tps s n
  obtain ⟨b1, _, _⟩ := SWRTC_report_flags tps s (n + 1)
  obtain ⟨c1, _, _⟩ := SWRTC_report_flags tps s 0
  rw [a2] at b1
  simp only [SWRTC_after] at c1
  refine ⟨?_, ?_, ?_, SWRTC_after_ticks tps s n⟩
  · rw [b1]
    cases (SWRTC_report_of tps s (n + 1)).second_passed <;>
      cases (SWRTC_report_of tps s n).deviation_added <;> simp
  · rw [c1]
    cases (SWRTC_report_of tps s 0).second_passed <;> cases s.compensated <;> simp
  · rw [b1]
    cases (SWRTC_report_of tps s (n + 1)).second_passed <;>
      cases (SWRTC_report_of tps s n).deviation_added <;> simp

theorem SWRTC_after_deviation (tps : Nat) (s : SWRTC_State) (n : Nat) :
    (SWRTC_after tps s n).clk_deviation = s.clk_deviation := by
  induction n with
  | zero => rfl
  | succ n ih => rw [(SWRTC_report_flags tps s n).2.2, ih]

theorem SWRTC_after_flag (tps : Nat) (s : SWRTC_State) (hs : s.compensated = false) (n : Nat) :
    (SWRTC_after tps s n).compensated =
      (match n with
        | 0 => false
        | m + 1 => (SWRTC_report_of tps s m).deviation_added) := by
  cases n with
  | zero => exact hs
  | succ m => exact (SWRTC_report_flags tps s m).2.1

theorem SWRTC_total_uncontested (tps : Nat) (s : SWRTC_State) (hs : s.compensated = false)
    (n : Nat) :
    SWRTC_total_added tps s n = s.clk_deviation * (SWRTC_uncontested_seconds tps s n : Int) := by
  induction n with
  | zero => simp [SWRTC_total_added, SWRTC_uncontested_seconds]
  | succ n ih =>
    have hf := (SWRTC_report_flags tps s n).1
    rw [SWRTC_after_flag tps s hs n] at hf
    simp only [SWRTC_total_added, SWRTC_uncontested_seconds, ih, SWRTC_after_deviation, hf]
    split <;> simp [mul_add]

theorem SWRTC_settled_step (tps : Nat) (htps : tps = 32000000) (s : SWRTC_State)
    (hd1 : -16000000 ≤ s.clk_deviation) (hd2 : s.clk_deviation ≤ 0) (hP : SWRTC_settled s) :
    SWRTC_settled (SWRTC_Service_at tps s).1 ∧
    (SWRTC_Service_at tps s).2.deviation_added = (SWRTC_Service_at tps s).2.second_passed := by
  obtain ⟨f1, f2, f3, _⟩ := SWRTC_step_flags tps s
  have ht := SWRTC_step_ticks tps s
  have hadv : SWRTC_advanced tps s = (s.clk_ticks + 16000000) % 4294967296 := by
    unfold SWRTC_advanced
    rw [htps]
    norm_num [SWRTC_INTERVALS_PER_SECOND]
  unfold SWRTC_settled at hP ⊢
  rw [f1, f2, f3, ht, hadv, htps]
  rcases hP with ⟨hc, hlt⟩ | ⟨hc, hlt⟩
  · rw [hc]
    by_cases h : 32000000 ≤ (s.clk_ticks + 16000000) % 4294967296
    · simp only [h, decide_True, Bool.not_false, Bool.and_self, if_true, Bool.false_eq_true,
        if_false, and_true]
      right
      refine ⟨trivial, ?_⟩
      unfold toU32
      omega
    · simp only [h, decide_False, Bool.false_and, Bool.false_eq_true, if_false, and_true]
      left
      refine ⟨trivial, ?_⟩
      omega
  · rw [hc]
    have h : ¬ 32000000 ≤ (s.clk_ticks + 16000000) % 4294967296 := by omega
    simp only [h, decide_False, Bool.false_and, Bool.false_eq_true, if_false, and_true]
    left
    refine ⟨trivial, ?_⟩
    omega

theorem SWRTC_settled_run (tps : Nat) (htps : tps = 32000000) (s : SWRTC_State)
    (hd1 : -16000000 ≤ s.clk_deviation) (hd2 : s.clk_deviation ≤ 0) (hP : SWRTC_settled s)
    (n : Nat) :
    SWRTC_settled (SWRTC_after tps s n) ∧
    SWRTC_total_added tps s n = s.clk_deviation * (SWRTC_seconds_passed tps s n : Int) := by
  induction n with
  | zero => exact ⟨hP, by simp [SWRTC_total_added, SWRTC_seconds_passed]⟩
  | succ n ih =>
    obtain ⟨ih1, ih2⟩ := ih
    have hdev := SWRTC_after_deviation tps s n
    obtain ⟨g1, g2⟩ := SWRTC_settled_step tps htps (SWRTC_after tps s n)
      (by rw [hdev]; exact hd1) (by rw [hdev]; exact hd2) ih1
    refine ⟨g1, ?_⟩
    have g2' : (SWRTC_report_of tps s n).deviation_added
        = (SWRTC_report_of tps s n).second_passed := g2
    simp only [SWRTC_total_added, SWRTC_seconds_passed, ih2, hdev, g2']
    split <;> simp [mul_add]

/-- C7 (as stated, refuted): the deviation 16,000,000 is accepted by
`SWRTC_SetDeviation`, and after three calls from the zero state the second
counter was incremented twice while the deviation was added once, so the total
compensation is not the deviation times the number of second increments. -/
theorem C7_once_per_second_counterexample :
    ¬ (∀ (d : Int) (n : Nat), (SWRTC_SetDeviation (SWRTC_zero 0) d).1 = true →
        SWRTC_total_added SWRTC_TICKS_PER_SECOND (SWRTC_zero d) n
          = d * (SWRTC_seconds_passed SWRTC_TICKS_PER_SECOND (SWRTC_zero d) n : Int)) := by
  intro h
  have h3 := h 16000000 3 (by decide)
  revert h3
  decide

/-- C7 (amended): for every deviation `d` and every number of calls from the
zero state, the total amount added to the accumulator as compensation is `d`
times the number of second increments that were not immediately preceded by a
call that added the deviation; for `-16,000,000 ≤ d ≤ 0` every second
increment is of that kind and the total is `d` times the number of second
increments. -/
theorem C7_compensation_total (d : Int) (n : Nat) :
    SWRTC_total_added SWRTC_TICKS_PER_SECOND (SWRTC_zero d) n
      = d * (SWRTC_uncontested_seconds SWRTC_TICKS_PER_SECOND (SWRTC_zero d) n : Int) ∧
    (-16000000 ≤ d → d ≤ 0 →
      SWRTC_total_added SWRTC_TICKS_PER_SECOND (SWRTC_zero d) n
        = d * (SWRTC_seconds_passed SWRTC_TICKS_PER_SECOND (SWRTC_zero d) n : Int)) := by
  refine ⟨SWRTC_total_uncontested SWRTC_TICKS_PER_SECOND (SWRTC_zero d) rfl n, ?_⟩
  intro h1 h2
  have hP : SWRTC_settled (SWRTC_zero d) := Or.inl ⟨rfl, by show (0 : Nat) < 32000000; omega⟩
  exact (SWRTC_settled_run SWRTC_TICKS_PER_SECOND rfl (SWRTC_zero d) h1 h2 hP n).2

/-- Witness for C7 (amended): deviation `-1`, five calls. -/
theorem C7_compensation_total_witness :
    (-16000000 : Int) ≤ -1 ∧ (-1 : Int) ≤ 0 ∧
    SWRTC_total_added SWRTC_TICKS_PER_SECOND (SWRTC_zero (-1)) 5
      = (-1) * (SWRTC_seconds_passed SWRTC_TICKS_PER_SECOND (SWRTC_zero (-1)) 5 : Int) :=
  ⟨by decide, by decide, (C7_compensation_total (-1) 5).2 (by decide) (by decide)⟩

/-- C8: the compensation example of `swrtc.h`.  With the service routine built
for `SWRTC_TICKS_PER_SECOND = 4` (two intervals per second), 120 calls from
the zero state, that is 60 real seconds, leave the second counter at 48 with
deviation `-1` and at 72 with deviation `+1`. -/
theorem C8_documented_example :
    (SWRTC_after 4 (SWRTC_zero (-1)) 120).clk_secs = 48 ∧
    (SWRTC_after 4 (SWRTC_zero 1) 120).clk_secs = 72 := by
  set_option maxRecDepth 100000 in
  decide

/-- C9 (code defect): the deviation `-1` is accepted, and after two calls of
`SWRTC_Service` from the zero state the accumulator holds `2^32 - 1`; the
unsigned division in `SWRTC_GetTicks` and the cast to `int16_t` then make
`SWRTC_GetTime` return 21876 ticks (and 2 seconds), outside `[0, 10000)`. -/
theorem C9_get_time_not_normalized :
    SWRTC_SetDeviation (SWRTC_zero 0) (-1) = (true, SWRTC_zero (-1)) ∧
    (SWRTC_Service (SWRTC_Service (SWRTC_zero (-1)))).clk_ticks = 4294967295 ∧
    (SWRTC_Service (SWRTC_Service (SWRTC_zero (-1)))).clk_secs = 1 ∧
    SWRTC_GetTicks (SWRTC_Service (SWRTC_Service (SWRTC_zero (-1)))) = some 31876 ∧
    SWRTC_GetTime (SWRTC_Service (SWRTC_Service (SWRTC_zero (-1))))
      = some { seconds := 2, ticks := 21876 } := by
  refine ⟨rfl, ?_, ?_, ?_, ?_⟩ <;> decide

/-- C10 (code defect): with deviation 0, `SWRTC_SetTime` of 0 seconds and 21
ticks stores `21 * 3200 mod 2^16 = 1664` in the accumulator, not 67200, and
`SWRTC_GetTime` right after it returns 0 ticks instead of 21. -/
theorem C10_set_get_time_truncates :
    (SWRTC_SetTime (SWRTC_zero 0) { seconds := 0, ticks := 21 }).clk_ticks = 1664 ∧
    SWRTC_GetTime (SWRTC_SetTime (SWRTC_zero 0) { seconds := 0, ticks := 21 })
      = some { seconds := 0, ticks := 0 } ∧
    SWRTC_GetTime (SWRTC_SetTime (SWRTC_zero 0) { seconds := 0, ticks := 20 })
      = some { seconds := 0, ticks := 20 } := by
  refine ⟨?_, ?_, ?_⟩ <;> decide

theorem SWRTC_deviation_bounds :
    toI32 (SWRTC_TICKS_PER_SECOND : Nat) = 32000000 ∧
    toI32 (toU32 (-(SWRTC_TICKS_PER_SECOND : Int))) = -32000000 := by
  constructor <;> decide

theorem SWRTC_SetDeviation_eq (s : SWRTC_State) (d : Int) :
    SWRTC_SetDeviation s d =
      if d < 32000000 ∧ d > -32000000 then (true, { s with clk_deviation := d }) else (false, s) := by
  unfold SWRTC_SetDeviation
  rw [SWRTC_deviation_bounds.1, SWRTC_deviation_bounds.2]

/-- C11: `SWRTC_SetDeviation(d)` returns true and stores `d`, leaving the rest
of the clock as it was, exactly when `-32,000,000 < d < 32,000,000`; for every
other `d` it returns false and changes nothing, so `SWRTC_GetDeviation` still
returns the prior deviation; `d = SWRTC_TICKS_PER_SECOND` is such a value. -/
theorem C11_set_deviation_bounds (s : SWRTC_State) (d : Int) :
    (SWRTC_SetDeviation s d).1 = decide (-32000000 < d ∧ d < 32000000) ∧
    (SWRTC_SetDeviation s d).2 =
      (if (SWRTC_SetDeviation s d).1 then { s with clk_deviation := d } else s) ∧
    SWRTC_GetDeviation (SWRTC_SetDeviation s d).2 =
      (if (SWRTC_SetDeviation s d).1 then d else SWRTC_GetDeviation s) ∧
    (SWRTC_SetDeviation s (SWRTC_TICKS_PER_SECOND : Nat)).1 = false ∧
    SWRTC_GetDeviation (SWRTC_SetDeviation s (SWRTC_TICKS_PER_SECOND : Nat)).2 =
      SWRTC_GetDeviation s := by
  have hT : ((SWRTC_TICKS_PER_SECOND : Nat) : Int) = 32000000 := by decide
  rw [hT, SWRTC_SetDeviation_eq s d, SWRTC_SetDeviation_eq s 32000000]
  refine ⟨?_, ?_, ?_, ?_, ?_⟩
  · by_cases h : d < 32000000 ∧ d > -32000000
    · rw [if_pos h]; simp [h.1, h.2]
    · rw [if_neg h]
      have : ¬ (-32000000 < d ∧ d < 32000000) := fun h2 => h ⟨h2.2, h2.1⟩
      simp [this]
  · by_cases h : d < 32000000 ∧ d > -32000000
    · rw [if_pos h]; simp
    · rw [if_neg h]; simp
  · by_cases h : d < 32000000 ∧ d > -32000000
    · rw [if_pos h]; simp [SWRTC_GetDeviation]
    · rw [if_neg h]; simp
  · rw [if_neg (by omega)]
  · rw [if_neg (by omega)]

/-- C12: every call of `SWRTC_Service` leaves the second counter unchanged or
larger by exactly one modulo 2^32, for every state and deviation; the counter
after the call is below the counter before it only when a counter at its
largest value `2^32 - 1` wraps to 0. -/
theorem C12_seconds_only_increase (s : SWRTC_State) :
    ((SWRTC_Service s).clk_secs = s.clk_secs ∨
      (SWRTC_Service s).clk_secs = (s.clk_secs + 1) % 4294967296) ∧
    (s.clk_secs ≤ (SWRTC_Service s).clk_secs ∨
      (4294967295 ≤ s.clk_secs ∧ (SWRTC_Service s).clk_secs = (s.clk_secs + 1) % 4294967296)) := by
  have h := SWRTC_step_secs SWRTC_TICKS_PER_SECOND s
  unfold SWRTC_Service
  generalize (SWRTC_Service_at SWRTC_TICKS_PER_SECOND s).1.clk_secs = x at h ⊢
  generalize SWRTC_advanced SWRTC_TICKS_PER_SECOND s = a at h
  generalize SWRTC_TICKS_PER_SECOND = t at h
  split at h
  · subst h
    refine ⟨Or.inr rfl, ?_⟩
    by_cases hk : 4294967295 ≤ s.clk_secs
    · exact Or.inr ⟨hk, rfl⟩
    · left; omega
  · subst h
    exact ⟨Or.inl rfl, Or.inl (le_refl _)⟩

theorem SWRTC_step_calls (tps : Nat) (s : SWRTC_State) :
    (SWRTC_Service_at tps s).2.calls =
      if tps ≤ SWRTC_advanced tps s then
        (match s.full_second_callback_ptr with
          | some cb => [SWRTC_Call.full_second cb]
          | none => []) ++ SWRTC_alarm_calls s.alarms (SWRTC_Service_at tps s).1.clk_secs
      else [] := by
  unfold SWRTC_Service_at SWRTC_advanced
  by_cases h : tps ≤ (s.clk_ticks + tps / SWRTC_INTERVALS_PER_SECOND) % 4294967296
  · simp [h]
  · simp [h]

theorem SWRTC_alarm_calls_mem (alarms : Nat → swrtc_alarm_t) (secs : Nat) (c : SWRTC_Call) :
    c ∈ SWRTC_alarm_calls alarms secs ↔
      ∃ idx cb, c = SWRTC_Call.alarm cb idx ∧ idx < SWRTC_NUMBER_OF_ALARMS ∧
        (alarms idx).time = secs ∧ (alarms idx).callback = some cb := by
  unfold SWRTC_alarm_calls
  rw [List.mem_filterMap]
  constructor
  · rintro ⟨idx, hidx, h⟩
    rw [List.mem_range] at hidx
    by_cases ht : (alarms idx).time = secs
    · rw [if_pos ht] at h
      cases hc : (alarms idx).callback with
      | none => rw [hc] at h; cases h
      | some cb =>
        rw [hc] at h
        exact ⟨idx, cb, (Option.some.inj h).symm, hidx, ht, hc⟩
    · rw [if_neg ht] at h; cases h
  · rintro ⟨idx, cb, rfl, hidx, ht, hc⟩
    refine ⟨idx, List.mem_range.mpr hidx, ?_⟩
    rw [if_pos ht, hc]

theorem SWRTC_alarms_fired_append (l1 l2 : List SWRTC_Call) :
    SWRTC_alarms_fired (l1 ++ l2) = SWRTC_alarms_fired l1 ++ SWRTC_alarms_fired l2 := by
  induction l1 with
  | nil => rfl
  | cons c l ih => cases c <;> simp [SWRTC_alarms_fired, ih]

theorem SWRTC_alarm_calls_ascending (alarms : Nat → swrtc_alarm_t) (secs : Nat) :
    ((SWRTC_alarms_fired (SWRTC_alarm_calls alarms secs)).map Prod.snd).Pairwise (· < ·) := by
  unfold SWRTC_alarm_calls
  have e : List.range SWRTC_NUMBER_OF_ALARMS = [0, 1] := by decide
  rw [e]
  simp only [List.filterMap_cons, List.filterMap_nil]
  by_cases h0 : (alarms 0).time = secs <;> by_cases h1 : (alarms 1).time = secs <;>
    cases c0 : (alarms 0).callback <;> cases c1 : (alarms 1).callback <;>
    simp [h0, h1, SWRTC_alarms_fired]

/-- C13: a call of `SWRTC_Service` that increments the second counter invokes
the alarm callbacks of exactly the table entries whose time equals the new
second counter and whose callback is not null, each with its own index, once
and in ascending order of the index; a call that does not increment the second
counter invokes no callback at all. -/
theorem C13_alarm_callbacks (s : SWRTC_State) :
    (∀ cb idx, SWRTC_Call.alarm cb idx ∈ (SWRTC_Service_report s).calls ↔
      ((SWRTC_Service_report s).second_passed = true ∧ idx < SWRTC_NUMBER_OF_ALARMS ∧
        (s.alarms idx).time = (SWRTC_Service s).clk_secs ∧
        (s.alarms idx).callback = some cb)) ∧
    ((SWRTC_alarms_fired (SWRTC_Service_report s).calls).map Prod.snd).Pairwise (· < ·) ∧
    ((SWRTC_Service_report s).second_passed = true ∨ (SWRTC_Service_report s).calls = []) ∧
    (SWRTC_Service s).clk_secs =
      (if (SWRTC_Service_report s).second_passed then (s.clk_secs + 1) % 4294967296
       else s.clk_secs) := by
  have hc := SWRTC_step_calls SWRTC_TICKS_PER_SECOND s
  have hs := SWRTC_step_secs SWRTC_TICKS_PER_SECOND s
  obtain ⟨-, -, hp, -⟩ := SWRTC_step_flags SWRTC_TICKS_PER_SECOND s
  unfold SWRTC_Service_report SWRTC_Service
  generalize SWRTC_Service_at SWRTC_TICKS_PER_SECOND s = r at hc hs hp ⊢
  generalize SWRTC_advanced SWRTC_TICKS_PER_SECOND s = a at hc hs hp
  generalize SWRTC_TICKS_PER_SECOND = t at hc hs hp
  by_cases h : t ≤ a
  · rw [if_pos h] at hc hs
    have hp2 : r.2.second_passed = true := by rw [hp]; exact decide_eq_true h
    rw [hc, hp2]
    refine ⟨?_, ?_, Or.inl rfl, ?_⟩
    · intro cb idx
      rw [List.mem_append, SWRTC_alarm_calls_mem]
      constructor
      · rintro (hm | ⟨i, c, e, hi, ht, hcb⟩)
        · cases hf : s.full_second_callback_ptr with
          | none => rw [hf] at hm; cases hm
          | some f =>
            rw [hf] at hm
            rw [List.mem_singleton] at hm
            cases hm
        · cases e
          exact ⟨rfl, hi, ht, hcb⟩
      · rintro ⟨-, hi, ht, hcb⟩
        exact Or.inr ⟨idx, cb, rfl, hi, ht, hcb⟩
    · rw [SWRTC_alarms_fired_append]
      have e0 : SWRTC_alarms_fired (match s.full_second_callback_ptr with
          | some cb => [SWRTC_Call.full_second cb]
          | none => []) = [] := by
        cases s.full_second_callback_ptr <;> rfl
      rw [e0, List.nil_append]
      exact SWRTC_alarm_calls_ascending s.alarms r.1.clk_secs
    · rw [hs]; rfl
  · rw [if_neg h] at hc hs
    have hp2 : r.2.second_passed = false := by rw [hp]; exact decide_eq_false h
    rw [hc, hp2]
    refine ⟨?_, ?_, Or.inr rfl, ?_⟩
    · intro cb idx
      simp
    · simp [SWRTC_alarms_fired]
    · rw [hs]; rfl

theorem GetHidirtShadowConfig_fields (st : HIDIRT_State)
    (h : st.hidirt_data_shadow.data_update_pending ≠ REP_ID_REQUEST_BOOTLOADER) :
    (GetHidirtShadowConfig st).returned = true ∧
      (GetHidirtShadowConfig st).state.hidirt_data.control_pc_enable =
        (if st.hidirt_data_shadow.data_update_pending = REP_ID_CONTROL_PC_ENABLE
          then st.hidirt_data_shadow.control_pc_enable else st.hidirt_data.control_pc_enable) ∧
      (GetHidirtShadowConfig st).state.hidirt_data.forward_ir_enable =
        (if st.hidirt_data_shadow.data_update_pending = REP_ID_FORWARD_IR_ENABLE
          then st.hidirt_data_shadow.forward_ir_enable else st.hidirt_data.forward_ir_enable) ∧
      (GetHidirtShadowConfig st).state.hidirt_data.irmp_power_on =
        (if st.hidirt_data_shadow.data_update_pending = REP_ID_POWER_ON_IR_CODE
          then st.hidirt_data_shadow.irmp_power_on else st.hidirt_data.irmp_power_on) ∧
      (GetHidirtShadowConfig st).state.hidirt_data.irmp_power_off =
        (if st.hidirt_data_shadow.data_update_pending = REP_ID_POWER_OFF_IR_CODE
          then st.hidirt_data_shadow.irmp_power_off else st.hidirt_data.irmp_power_off) ∧
      (GetHidirtShadowConfig st).state.hidirt_data.irmp_reset =
        (if st.hidirt_data_shadow.data_update_pending = REP_ID_RESET_IR_CODE
          then st.hidirt_data_shadow.irmp_reset else st.hidirt_data.irmp_reset) ∧
      (GetHidirtShadowConfig st).state.hidirt_data.min_ir_repeats =
        (if st.hidirt_data_shadow.data_update_pending = REP_ID_MINIMUM_REPEATS
          then st.hidirt_data_shadow.min_ir_repeats else st.hidirt_data.min_ir_repeats) ∧
      (GetHidirtShadowConfig st).state.hidirt_data.clock_correction =
        (if st.hidirt_data_shadow.data_update_pending = REP_ID_CLOCK_CORRECTION
          then st.hidirt_data_shadow.clock_correction else st.hidirt_data.clock_correction) ∧
      (GetHidirtShadowConfig st).state.hidirt_data.wakeup_time_span =
        (if st.hidirt_data_shadow.data_update_pending = REP_ID_WAKEUP_TIME_SPAN
          then st.hidirt_data_shadow.wakeup_time_span else st.hidirt_data.wakeup_time_span) ∧
      (GetHidirtShadowConfig st).state.hidirt_data.watchdog_enable =
        (if st.hidirt_data_shadow.data_update_pending = REP_ID_WATCHDOG_ENABLE
          then st.hidirt_data_shadow.watchdog_enable else st.hidirt_data.watchdog_enable) ∧
      (GetHidirtShadowConfig st).state.hidirt_data.watchdog_reset =
        (if st.hidirt_data_shadow.data_update_pending = REP_ID_WATCHDOG_RESET
          then st.hidirt_data_shadow.watchdog_reset else st.hidirt_data.watchdog_reset) ∧
      (GetHidirtShadowConfig st).state.hidirt_data.data_update_pending = st.hidirt_data.data_update_pending ∧
      (GetHidirtShadowConfig st).state.hidirt_data_shadow = { st.hidirt_data_shadow with data_update_pending := 0 } ∧
      (st.hidirt_data_shadow.data_update_pending = 0 → (GetHidirtShadowConfig st).state.hidirt_data = st.hidirt_data) := by
  have hc : st.hidirt_data_shadow.data_update_pending = 17 ∨
      st.hidirt_data_shadow.data_update_pending = 18 ∨
      st.hidirt_data_shadow.data_update_pending = 19 ∨
      st.hidirt_data_shadow.data_update_pending = 20 ∨
      st.hidirt_data_shadow.data_update_pending = 21 ∨
      st.hidirt_data_shadow.data_update_pending = 22 ∨
      st.hidirt_data_shadow.data_update_pending = 24 ∨
      st.hidirt_data_shadow.data_update_pending = 25 ∨
      st.hidirt_data_shadow.data_update_pending = 26 ∨
      st.hidirt_data_shadow.data_update_pending = 81 ∨
      st.hidirt_data_shadow.data_update_pending = 82 ∨
      (st.hidirt_data_shadow.data_update_pending ≠ 17 ∧
       st.hidirt_data_shadow.data_update_pending ≠ 18 ∧
       st.hidirt_data_shadow.data_update_pending ≠ 19 ∧
       st.hidirt_data_shadow.data_update_pending ≠ 20 ∧
       st.hidirt_data_shadow.data_update_pending ≠ 21 ∧
       st.hidirt_data_shadow.data_update_pending ≠ 22 ∧
       st.hidirt_data_shadow.data_update_pending ≠ 24 ∧
       st.hidirt_data_shadow.data_update_pending ≠ 25 ∧
       st.hidirt_data_shadow.data_update_pending ≠ 26 ∧
       st.hidirt_data_shadow.data_update_pending ≠ 81 ∧
       st.hidirt_data_shadow.data_update_pending ≠ 82) := by omega
  have h80 : st.hidirt_data_shadow.data_update_pending ≠ 80 := h
  unfold GetHidirtShadowConfig HIDIRT_Run.returned HIDIRT_Run.state
  simp only [REP_ID_CONTROL_PC_ENABLE, REP_ID_FORWARD_IR_ENABLE, REP_ID_POWER_ON_IR_CODE,
    REP_ID_POWER_OFF_IR_CODE, REP_ID_RESET_IR_CODE, REP_ID_MINIMUM_REPEATS,
    REP_ID_CLOCK_CORRECTION, REP_ID_WAKEUP_TIME, REP_ID_WAKEUP_TIME_SPAN,
    REP_ID_WATCHDOG_ENABLE, REP_ID_WATCHDOG_RESET, REP_ID_REQUEST_BOOTLOADER, EEPROM_WriteBytes]
  rcases hc with e | e | e | e | e | e | e | e | e | e | e | e
  any_goals (simp only [e]; simp)
  obtain ⟨e1, e2, e3, e4, e5, e6, e7, e8, e9, e10, e11⟩ := e
  simp only [if_neg e1, if_neg e2, if_neg e3, if_neg e4, if_neg e5, if_neg e6, if_neg e7,
    if_neg e8, if_neg e9, if_neg e10, if_neg e11, if_neg h80]
  simp

/-- C14: when the pending-field tag is not the bootloader request,
`GetHidirtShadowConfig` returns, and afterwards every field of the live
configuration is the shadow field if the tag names it and is unchanged
otherwise (the tag of the live record itself is never written), while the
shadow keeps its values with its tag cleared to 0; with tag 0 the live
configuration is unchanged. -/
theorem C14_drain_copies_tagged_field (st : HIDIRT_State)
    (h : st.hidirt_data_shadow.data_update_pending ≠ REP_ID_REQUEST_BOOTLOADER) :
    (GetHidirtShadowConfig st).returned = true ∧
      (GetHidirtShadowConfig st).state.hidirt_data.control_pc_enable =
        (if st.hidirt_data_shadow.data_update_pending = REP_ID_CONTROL_PC_ENABLE
          then st.hidirt_data_shadow.control_pc_enable else st.hidirt_data.control_pc_enable) ∧
      (GetHidirtShadowConfig st).state.hidirt_data.forward_ir_enable =
        (if st.hidirt_data_shadow.data_update_pending = REP_ID_FORWARD_IR_ENABLE
          then st.hidirt_data_shadow.forward_ir_enable else st.hidirt_data.forward_ir_enable) ∧
      (GetHidirtShadowConfig st).state.hidirt_data.irmp_power_on =
        (if st.hidirt_data_shadow.data_update_pending = REP_ID_POWER_ON_IR_CODE
          then st.hidirt_data_shadow.irmp_power_on else st.hidirt_data.irmp_power_on) ∧
      (GetHidirtShadowConfig st).state.hidirt_data.irmp_power_off =
        (if st.hidirt_data_shadow.data_update_pending = REP_ID_POWER_OFF_IR_CODE
          then st.hidirt_data_shadow.irmp_power_off else st.hidirt_data.irmp_power_off) ∧
      (GetHidirtShadowConfig st).state.hidirt_data.irmp_reset =
        (if st.hidirt_data_shadow.data_update_pending = REP_ID_RESET_IR_CODE
          then st.hidirt_data_shadow.irmp_reset else st.hidirt_data.irmp_reset) ∧
      (GetHidirtShadowConfig st).state.hidirt_data.min_ir_repeats =
        (if st.hidirt_data_shadow.data_update_pending = REP_ID_MINIMUM_REPEATS
          then st.hidirt_data_shadow.min_ir_repeats else st.hidirt_data.min_ir_repeats) ∧
      (GetHidirtShadowConfig st).state.hidirt_data.clock_correction =
        (if st.hidirt_data_shadow.data_update_pending = REP_ID_CLOCK_CORRECTION
          then st.hidirt_data_shadow.clock_correction else st.hidirt_data.clock_correction) ∧
      (GetHidirtShadowConfig st).state.hidirt_data.wakeup_time_span =
        (if st.hidirt_data_shadow.data_update_pending = REP_ID_WAKEUP_TIME_SPAN
          then st.hidirt_data_shadow.wakeup_time_span else st.hidirt_data.wakeup_time_span) ∧
      (GetHidirtShadowConfig st).state.hidirt_data.watchdog_enable =
        (if st.hidirt_data_shadow.data_update_pending = REP_ID_WATCHDOG_ENABLE
          then st.hidirt_data_shadow.watchdog_enable else st.hidirt_data.watchdog_enable) ∧
      (GetHidirtShadowConfig st).state.hidirt_data.watchdog_reset =
        (if st.hidirt_data_shadow.data_update_pending = REP_ID_WATCHDOG_RESET
          then st.hidirt_data_shadow.watchdog_reset else st.hidirt_data.watchdog_reset) ∧
      (GetHidirtShadowConfig st).state.hidirt_data.data_update_pending = st.hidirt_data.data_update_pending ∧
      (GetHidirtShadowConfig st).state.hidirt_data_shadow = { st.hidirt_data_shadow with data_update_pending := 0 } ∧
      (st.hidirt_data_shadow.data_update_pending = 0 → (GetHidirtShadowConfig st).state.hidirt_data = st.hidirt_data) :=
  GetHidirtShadowConfig_fields st h

/-- Witness of C14: after a set request for the repeat threshold with value 3
on the start-up state, the drain returns and commits 3. -/
theorem C14_drain_copies_tagged_field_witness :
    (CustomHID_SetFeature HIDIRT_initial REP_ID_MINIMUM_REPEATS
        (HIDIRT_buffer [3])).2.hidirt_data_shadow.data_update_pending
      ≠ REP_ID_REQUEST_BOOTLOADER ∧
    (GetHidirtShadowConfig (CustomHID_SetFeature HIDIRT_initial REP_ID_MINIMUM_REPEATS
        (HIDIRT_buffer [3])).2).state.hidirt_data.min_ir_repeats = 3 := by
  refine ⟨by decide, ?_⟩
  have h := (C14_drain_copies_tagged_field
    (CustomHID_SetFeature HIDIRT_initial REP_ID_MINIMUM_REPEATS (HIDIRT_buffer [3])).2
    (by decide)).2.2.2.2.2.2.1
  rw [h]
  decide

theorem toU32_add_nat (a b : Nat) : toU32 ((a : Int) + (b : Int) * 60) = (a + 60 * b) % 4294967296 := by
  unfold toU32
  omega

/-- C18: draining a pending wake-time-span update with span `m` in the shadow
while alarm 0 (the wake alarm) is at `T` returns, sets the live span to `m` and
alarm 1 (the deadline alarm) to `(T + 60 * m) mod 2^32`, and leaves alarm 0 at
`T`; with `m = 10` and `T + 600` below `2^32` the deadline alarm is `T + 600`. -/
theorem C18_span_sets_deadline (st : HIDIRT_State) (T m : Nat)
    (hp : st.hidirt_data_shadow.data_update_pending = REP_ID_WAKEUP_TIME_SPAN)
    (hm : st.hidirt_data_shadow.wakeup_time_span = m)
    (hT : SWRTC_GetAlarmTime st.clock 0 = T) :
    (GetHidirtShadowConfig st).returned = true ∧
    (GetHidirtShadowConfig st).state.hidirt_data.wakeup_time_span = m ∧
    SWRTC_GetAlarmTime (GetHidirtShadowConfig st).state.clock 1 = (T + 60 * m) % 4294967296 ∧
    SWRTC_GetAlarmTime (GetHidirtShadowConfig st).state.clock 0 = T ∧
    (m = 10 → T + 600 < 4294967296 →
      SWRTC_GetAlarmTime (GetHidirtShadowConfig st).state.clock 1 = T + 600) := by
  have key : (GetHidirtShadowConfig st).returned = true ∧
      (GetHidirtShadowConfig st).state.hidirt_data.wakeup_time_span = m ∧
      SWRTC_GetAlarmTime (GetHidirtShadowConfig st).state.clock 1 = (T + 60 * m) % 4294967296 ∧
      SWRTC_GetAlarmTime (GetHidirtShadowConfig st).state.clock 0 = T := by
    subst hm hT
    unfold GetHidirtShadowConfig HIDIRT_Run.returned HIDIRT_Run.state
    simp only [hp, REP_ID_CONTROL_PC_ENABLE, REP_ID_FORWARD_IR_ENABLE, REP_ID_POWER_ON_IR_CODE,
      REP_ID_POWER_OFF_IR_CODE, REP_ID_RESET_IR_CODE, REP_ID_MINIMUM_REPEATS,
      REP_ID_CLOCK_CORRECTION, REP_ID_WAKEUP_TIME, REP_ID_WAKEUP_TIME_SPAN,
      REP_ID_WATCHDOG_ENABLE, REP_ID_WATCHDOG_RESET, REP_ID_REQUEST_BOOTLOADER, EEPROM_WriteBytes]
    simp [SWRTC_GetAlarmTime, SWRTC_SetAlarmTime, SWRTC_NUMBER_OF_ALARMS, toU32_add_nat]
  refine ⟨key.1, key.2.1, key.2.2.1, key.2.2.2, ?_⟩
  intro h10 hlt
  rw [key.2.2.1, h10]
  omega

/-- Witness of C18: the wake alarm set to second 1000 and a span of 10 minutes
requested by the host on the start-up state; the drain puts the deadline alarm
at second 1600. -/
theorem C18_span_sets_deadline_witness :
    (CustomHID_SetFeature
      (CustomHID_SetFeature HIDIRT_initial REP_ID_WAKEUP_TIME (HIDIRT_buffer [232, 3, 0, 0])).2
      REP_ID_WAKEUP_TIME_SPAN (HIDIRT_buffer [10])).2.hidirt_data_shadow.data_update_pending
      = REP_ID_WAKEUP_TIME_SPAN ∧
    (CustomHID_SetFeature
      (CustomHID_SetFeature HIDIRT_initial REP_ID_WAKEUP_TIME (HIDIRT_buffer [232, 3, 0, 0])).2
      REP_ID_WAKEUP_TIME_SPAN (HIDIRT_buffer [10])).2.hidirt_data_shadow.wakeup_time_span = 10 ∧
    SWRTC_GetAlarmTime (CustomHID_SetFeature
      (CustomHID_SetFeature HIDIRT_initial REP_ID_WAKEUP_TIME (HIDIRT_buffer [232, 3, 0, 0])).2
      REP_ID_WAKEUP_TIME_SPAN (HIDIRT_buffer [10])).2.clock 0 = 1000 ∧
    SWRTC_GetAlarmTime (GetHidirtShadowConfig
      (CustomHID_SetFeature
        (CustomHID_SetFeature HIDIRT_initial REP_ID_WAKEUP_TIME (HIDIRT_buffer [232, 3, 0, 0])).2
        REP_ID_WAKEUP_TIME_SPAN (HIDIRT_buffer [10])).2).state.clock 1 = 1600 :=
  ⟨by decide, by decide, by decide,
   (C18_span_sets_deadline
    (CustomHID_SetFeature
      (CustomHID_SetFeature HIDIRT_initial REP_ID_WAKEUP_TIME (HIDIRT_buffer [232, 3, 0, 0])).2
      REP_ID_WAKEUP_TIME_SPAN (HIDIRT_buffer [10])).2
    1000 10 (by decide) (by decide) (by decide)).2.2.2.2 rfl (by decide)⟩

theorem HIDIRT_field_ids_cases (id : Nat) (h : id ∈ HIDIRT_field_ids) :
    id = 17 ∨ id = 18 ∨ id = 19 ∨ id = 20 ∨ id = 21 ∨ id = 22 ∨ id = 24 ∨ id = 26 ∨ id = 81 ∨
      id = 82 := by
  simpa [HIDIRT_field_ids, REP_ID_CONTROL_PC_ENABLE, REP_ID_FORWARD_IR_ENABLE,
    REP_ID_POWER_ON_IR_CODE, REP_ID_POWER_OFF_IR_CODE, REP_ID_RESET_IR_CODE,
    REP_ID_MINIMUM_REPEATS, REP_ID_CLOCK_CORRECTION, REP_ID_WAKEUP_TIME_SPAN,
    REP_ID_WATCHDOG_ENABLE, REP_ID_WATCHDOG_RESET] using h

theorem CustomHID_SetFeature_switch_field (st : HIDIRT_State) (id : Nat) (flag : Bool)
    (code : IRMP_DATA) (byte : Nat) (time : swrtc_time_t) (correction : Int) (alarm : Nat)
    (hid : id ∈ HIDIRT_field_ids) :
    (CustomHID_SetFeature_switch st id flag code byte time correction alarm).2.hidirt_data =
      st.hidirt_data ∧
    (CustomHID_SetFeature_switch st id flag code byte time correction
      alarm).2.hidirt_data_shadow.data_update_pending = id ∧
    HIDIRT_field (CustomHID_SetFeature_switch st id flag code byte time correction
      alarm).2.hidirt_data_shadow id = HIDIRT_carried_value id flag code byte correction := by
  rcases HIDIRT_field_ids_cases id hid with e | e | e | e | e | e | e | e | e | e <;>
    subst e <;>
    unfold CustomHID_SetFeature_switch HIDIRT_field HIDIRT_carried_value <;>
    simp only [REP_ID_CONTROL_PC_ENABLE,
      REP_ID_FORWARD_IR_ENABLE, REP_ID_POWER_ON_IR_CODE, REP_ID_POWER_OFF_IR_CODE,
      REP_ID_RESET_IR_CODE, REP_ID_MINIMUM_REPEATS, REP_ID_CLOCK_CORRECTION, REP_ID_WAKEUP_TIME,
      REP_ID_WAKEUP_TIME_SPAN, REP_ID_WATCHDOG_ENABLE, REP_ID_WATCHDOG_RESET,
      REP_ID_REQUEST_BOOTLOADER, REP_ID_CURRENT_TIME] <;>
    simp only [Nat.reduceEqDiff, if_true, if_false, or_self, or_false, false_or, or_true,
      true_or, and_self]

theorem CustomHID_SetFeature_field (st : HIDIRT_State) (id : Nat) (buffer : Nat → Nat)
    (hid : id ∈ HIDIRT_field_ids) :
    (CustomHID_SetFeature st id buffer).2.hidirt_data = st.hidirt_data ∧
    (CustomHID_SetFeature st id buffer).2.hidirt_data_shadow.data_update_pending = id ∧
    HIDIRT_field (CustomHID_SetFeature st id buffer).2.hidirt_data_shadow id =
      HIDIRT_carried id buffer := by
  unfold CustomHID_SetFeature HIDIRT_carried
  exact CustomHID_SetFeature_switch_field st id _ _ _ _ _ _ hid



theorem GetHidirtShadowConfig_field (st : HIDIRT_State) (id : Nat)
    (hid : id ∈ HIDIRT_field_ids) (htag : st.hidirt_data_shadow.data_update_pending = id) :
    (GetHidirtShadowConfig st).returned = true ∧
    HIDIRT_field (GetHidirtShadowConfig st).state.hidirt_data id =
      HIDIRT_field st.hidirt_data_shadow id ∧
    (∀ other, other ≠ id → HIDIRT_field (GetHidirtShadowConfig st).state.hidirt_data other =
      HIDIRT_field st.hidirt_data other) ∧
    (GetHidirtShadowConfig st).state.hidirt_data_shadow.data_update_pending = 0 := by
  have h80 : st.hidirt_data_shadow.data_update_pending ≠ REP_ID_REQUEST_BOOTLOADER := by
    rcases HIDIRT_field_ids_cases id hid with e | e | e | e | e | e | e | e | e | e <;>
      rw [htag, e] <;> decide
  obtain ⟨hr, f1, f2, f3, f4, f5, f6, f7, f8, f9, f10, -, hsh, -⟩ :=
    GetHidirtShadowConfig_fields st h80
  refine ⟨hr, ?_, ?_, by rw [hsh]⟩
  · unfold HIDIRT_field
    rw [f1, f2, f3, f4, f5, f6, f7, f8, f9, f10, htag]
    rcases HIDIRT_field_ids_cases id hid with e | e | e | e | e | e | e | e | e | e <;>
      subst e <;> rfl
  · intro other hne
    unfold HIDIRT_field
    rw [f1, f2, f3, f4, f5, f6, f7, f8, f9, f10, htag]
    rcases HIDIRT_field_ids_cases id hid with e | e | e | e | e | e | e | e | e | e <;>
      subst e <;>
      simp only [REP_ID_CONTROL_PC_ENABLE, REP_ID_FORWARD_IR_ENABLE,
        REP_ID_POWER_ON_IR_CODE, REP_ID_POWER_OFF_IR_CODE, REP_ID_RESET_IR_CODE,
        REP_ID_MINIMUM_REPEATS, REP_ID_CLOCK_CORRECTION, REP_ID_WAKEUP_TIME_SPAN,
        REP_ID_WATCHDOG_ENABLE, REP_ID_WATCHDOG_RESET] at hne ⊢ <;>
      simp [hne]

theorem GetHidirtShadowConfig_idle (st : HIDIRT_State)
    (htag : st.hidirt_data_shadow.data_update_pending = 0) :
    (GetHidirtShadowConfig st).returned = true ∧
    (GetHidirtShadowConfig st).state.hidirt_data = st.hidirt_data ∧
    (GetHidirtShadowConfig st).state.eeprom_writes = st.eeprom_writes := by
  unfold GetHidirtShadowConfig HIDIRT_Run.returned HIDIRT_Run.state
  simp [htag, REP_ID_CONTROL_PC_ENABLE, REP_ID_FORWARD_IR_ENABLE, REP_ID_POWER_ON_IR_CODE,
    REP_ID_POWER_OFF_IR_CODE, REP_ID_RESET_IR_CODE, REP_ID_MINIMUM_REPEATS,
    REP_ID_CLOCK_CORRECTION, REP_ID_WAKEUP_TIME, REP_ID_WAKEUP_TIME_SPAN,
    REP_ID_WATCHDOG_ENABLE, REP_ID_WATCHDOG_RESET, REP_ID_REQUEST_BOOTLOADER]

/-- C15, counterexample: on the start-up state the host sets
`control_pc_enable` to true and then `min_ir_repeats` to 3 before the first
drain; both drains return, and after them (the second finding nothing pending)
the live `min_ir_repeats` is 3 but the live `control_pc_enable` is still false:
the first request is never committed. -/
theorem C15_interleaved_counterexample :
    (GetHidirtShadowConfig
      (CustomHID_SetFeature
        (CustomHID_SetFeature HIDIRT_initial REP_ID_CONTROL_PC_ENABLE (HIDIRT_buffer [1])).2
        REP_ID_MINIMUM_REPEATS (HIDIRT_buffer [3])).2).returned = true ∧
    (GetHidirtShadowConfig (GetHidirtShadowConfig
      (CustomHID_SetFeature
        (CustomHID_SetFeature HIDIRT_initial REP_ID_CONTROL_PC_ENABLE (HIDIRT_buffer [1])).2
        REP_ID_MINIMUM_REPEATS (HIDIRT_buffer [3])).2).state).returned = true ∧
    HIDIRT_carried REP_ID_CONTROL_PC_ENABLE (HIDIRT_buffer [1]) = some (HIDIRT_Reply.flag true) ∧
    (GetHidirtShadowConfig (GetHidirtShadowConfig
      (CustomHID_SetFeature
        (CustomHID_SetFeature HIDIRT_initial REP_ID_CONTROL_PC_ENABLE (HIDIRT_buffer [1])).2
        REP_ID_MINIMUM_REPEATS (HIDIRT_buffer [3])).2).state).state.hidirt_data.control_pc_enable
      = false ∧
    (GetHidirtShadowConfig (GetHidirtShadowConfig
      (CustomHID_SetFeature
        (CustomHID_SetFeature HIDIRT_initial REP_ID_CONTROL_PC_ENABLE (HIDIRT_buffer [1])).2
        REP_ID_MINIMUM_REPEATS (HIDIRT_buffer [3])).2).state).state.hidirt_data.min_ir_repeats
      = 3 := by
  decide

/-- C15, amended: for two set requests for two different fields of the
configuration, each followed by a drain before the next request is issued,
both drains return and the live configuration afterwards holds the value
carried by the first request in the first field and the value carried by the
second request in the second field; a further drain returns and changes
neither the live configuration nor the store.  When both requests are issued
before the first drain, the drain commits the second value only and leaves the
first field as it was. -/
theorem C15_sequential_sets_commit (st : HIDIRT_State) (id1 id2 : Nat) (b1 b2 : Nat → Nat)
    (h1 : id1 ∈ HIDIRT_field_ids) (h2 : id2 ∈ HIDIRT_field_ids) (hne : id1 ≠ id2) :
    (GetHidirtShadowConfig (CustomHID_SetFeature st id1 b1).2).returned = true ∧
    (GetHidirtShadowConfig (CustomHID_SetFeature
      (GetHidirtShadowConfig (CustomHID_SetFeature st id1 b1).2).state id2 b2).2).returned
      = true ∧
    HIDIRT_field (GetHidirtShadowConfig (CustomHID_SetFeature
      (GetHidirtShadowConfig (CustomHID_SetFeature st id1 b1).2).state id2 b2).2).state.hidirt_data
      id1 = HIDIRT_carried id1 b1 ∧
    HIDIRT_field (GetHidirtShadowConfig (CustomHID_SetFeature
      (GetHidirtShadowConfig (CustomHID_SetFeature st id1 b1).2).state id2 b2).2).state.hidirt_data
      id2 = HIDIRT_carried id2 b2 ∧
    (GetHidirtShadowConfig (GetHidirtShadowConfig (CustomHID_SetFeature
      (GetHidirtShadowConfig (CustomHID_SetFeature st id1 b1).2).state id2 b2).2).state).returned
      = true ∧
    (GetHidirtShadowConfig (GetHidirtShadowConfig (CustomHID_SetFeature
      (GetHidirtShadowConfig (CustomHID_SetFeature st id1 b1).2).state id2
      b2).2).state).state.hidirt_data =
      (GetHidirtShadowConfig (CustomHID_SetFeature
        (GetHidirtShadowConfig (CustomHID_SetFeature st id1 b1).2).state id2
        b2).2).state.hidirt_data ∧
    (GetHidirtShadowConfig (GetHidirtShadowConfig (CustomHID_SetFeature
      (GetHidirtShadowConfig (CustomHID_SetFeature st id1 b1).2).state id2
      b2).2).state).state.eeprom_writes =
      (GetHidirtShadowConfig (CustomHID_SetFeature
        (GetHidirtShadowConfig (CustomHID_SetFeature st id1 b1).2).state id2
        b2).2).state.eeprom_writes ∧
    HIDIRT_field (GetHidirtShadowConfig (CustomHID_SetFeature
      (CustomHID_SetFeature st id1 b1).2 id2 b2).2).state.hidirt_data id2 =
      HIDIRT_carried id2 b2 ∧
    HIDIRT_field (GetHidirtShadowConfig (CustomHID_SetFeature
      (CustomHID_SetFeature st id1 b1).2 id2 b2).2).state.hidirt_data id1 =
      HIDIRT_field st.hidirt_data id1 := by
  obtain ⟨a1, a2, a3⟩ := CustomHID_SetFeature_field st id1 b1 h1
  obtain ⟨d1, d2, d3, -⟩ := GetHidirtShadowConfig_field (CustomHID_SetFeature st id1 b1).2 id1 h1 a2
  generalize (GetHidirtShadowConfig (CustomHID_SetFeature st id1 b1).2).state = s1 at d2 d3 ⊢
  obtain ⟨e1, e2, e3⟩ := CustomHID_SetFeature_field s1 id2 b2 h2
  obtain ⟨f1, f2, f3, f4⟩ := GetHidirtShadowConfig_field (CustomHID_SetFeature s1 id2 b2).2 id2 h2 e2
  obtain ⟨g1, g2, g3⟩ :=
    GetHidirtShadowConfig_idle (GetHidirtShadowConfig (CustomHID_SetFeature s1 id2 b2).2).state f4
  obtain ⟨k1, k2, k3⟩ := CustomHID_SetFeature_field (CustomHID_SetFeature st id1 b1).2 id2 b2 h2
  obtain ⟨l1, l2, l3, -⟩ := GetHidirtShadowConfig_field
    (CustomHID_SetFeature (CustomHID_SetFeature st id1 b1).2 id2 b2).2 id2 h2 k2
  refine ⟨d1, f1, ?_, ?_, g1, g2, g3, ?_, ?_⟩
  · rw [f3 id1 hne, e1, d2, a3]
  · rw [f2, e3]
  · rw [l2, k3]
  · rw [l3 id1 hne, k1, a1]

/-- Witness of C15, amended: `control_pc_enable` set to true and drained, then
`min_ir_repeats` set to 3 and drained, on the start-up state. -/
theorem C15_sequential_sets_commit_witness :
    REP_ID_CONTROL_PC_ENABLE ∈ HIDIRT_field_ids ∧ REP_ID_MINIMUM_REPEATS ∈ HIDIRT_field_ids ∧
    REP_ID_CONTROL_PC_ENABLE ≠ REP_ID_MINIMUM_REPEATS ∧
    HIDIRT_field (GetHidirtShadowConfig (CustomHID_SetFeature
      (GetHidirtShadowConfig (CustomHID_SetFeature HIDIRT_initial REP_ID_CONTROL_PC_ENABLE
        (HIDIRT_buffer [1])).2).state REP_ID_MINIMUM_REPEATS
        (HIDIRT_buffer [3])).2).state.hidirt_data REP_ID_CONTROL_PC_ENABLE =
      HIDIRT_carried REP_ID_CONTROL_PC_ENABLE (HIDIRT_buffer [1]) :=
  ⟨by decide, by decide, by decide,
   (C15_sequential_sets_commit HIDIRT_initial REP_ID_CONTROL_PC_ENABLE REP_ID_MINIMUM_REPEATS
     (HIDIRT_buffer [1]) (HIDIRT_buffer [3]) (by decide) (by decide) (by decide)).2.2.1⟩

/-- C16, divergence: `CustomHID_GetFeature` leaves the live configuration as it
was but overwrites the whole shadow, pending tag and pending value included,
with the live configuration, for every state and report ID.  On the start-up
state a set request for `control_pc_enable` with value true leaves tag 0x11
pending; a get request for the firmware version then leaves tag 0 and the
value false in the shadow, and the drain that follows commits nothing: the
live `control_pc_enable` is false, while without the get request it is true. -/
theorem C16_get_feature_discards_pending :
    (∀ (st : HIDIRT_State) (id : Nat),
      (CustomHID_GetFeature st id).2.2.hidirt_data = st.hidirt_data ∧
      (CustomHID_GetFeature st id).2.2.hidirt_data_shadow = st.hidirt_data) ∧
    (CustomHID_SetFeature HIDIRT_initial REP_ID_CONTROL_PC_ENABLE
      (HIDIRT_buffer [1])).2.hidirt_data_shadow.data_update_pending = REP_ID_CONTROL_PC_ENABLE ∧
    (CustomHID_SetFeature HIDIRT_initial REP_ID_CONTROL_PC_ENABLE
      (HIDIRT_buffer [1])).2.hidirt_data_shadow.control_pc_enable = true ∧
    (CustomHID_GetFeature (CustomHID_SetFeature HIDIRT_initial REP_ID_CONTROL_PC_ENABLE
      (HIDIRT_buffer [1])).2 REP_ID_GET_FIRMWARE_VERSION).1 = USBD_OK ∧
    (CustomHID_GetFeature (CustomHID_SetFeature HIDIRT_initial REP_ID_CONTROL_PC_ENABLE
      (HIDIRT_buffer [1])).2 REP_ID_GET_FIRMWARE_VERSION).2.2.hidirt_data_shadow.data_update_pending
      = 0 ∧
    (CustomHID_GetFeature (CustomHID_SetFeature HIDIRT_initial REP_ID_CONTROL_PC_ENABLE
      (HIDIRT_buffer [1])).2 REP_ID_GET_FIRMWARE_VERSION).2.2.hidirt_data_shadow.control_pc_enable
      = false ∧
    (GetHidirtShadowConfig (CustomHID_GetFeature (CustomHID_SetFeature HIDIRT_initial
      REP_ID_CONTROL_PC_ENABLE (HIDIRT_buffer [1])).2 REP_ID_GET_FIRMWARE_VERSION).2.2).returned
      = true ∧
    (GetHidirtShadowConfig (CustomHID_GetFeature (CustomHID_SetFeature HIDIRT_initial
      REP_ID_CONTROL_PC_ENABLE (HIDIRT_buffer [1])).2
      REP_ID_GET_FIRMWARE_VERSION).2.2).state.hidirt_data.control_pc_enable = false ∧
    (GetHidirtShadowConfig (CustomHID_SetFeature HIDIRT_initial
      REP_ID_CONTROL_PC_ENABLE (HIDIRT_buffer [1])).2).state.hidirt_data.control_pc_enable
      = true := by
  refine ⟨fun st id => ⟨rfl, rfl⟩, ?_, ?_, ?_, ?_, ?_, ?_, ?_, ?_⟩ <;> decide

theorem GetHidirtShadowConfig_clock_correction (st : HIDIRT_State)
    (h : st.hidirt_data_shadow.data_update_pending = REP_ID_CLOCK_CORRECTION) :
    (GetHidirtShadowConfig st).state.hidirt_data.clock_correction =
      st.hidirt_data_shadow.clock_correction ∧
    (GetHidirtShadowConfig st).state.clock =
      (SWRTC_SetDeviation st.clock st.hidirt_data_shadow.clock_correction).2 ∧
    (GetHidirtShadowConfig st).state.eeprom_writes = st.eeprom_writes ++
      [(ADDRESS_clock_correction, bytes_u32 (toU32 st.hidirt_data_shadow.clock_correction))] := by
  unfold GetHidirtShadowConfig HIDIRT_Run.state
  simp only [h, REP_ID_CONTROL_PC_ENABLE, REP_ID_FORWARD_IR_ENABLE, REP_ID_POWER_ON_IR_CODE,
    REP_ID_POWER_OFF_IR_CODE, REP_ID_RESET_IR_CODE, REP_ID_MINIMUM_REPEATS,
    REP_ID_CLOCK_CORRECTION, REP_ID_WAKEUP_TIME, REP_ID_WAKEUP_TIME_SPAN,
    REP_ID_WATCHDOG_ENABLE, REP_ID_WATCHDOG_RESET, REP_ID_REQUEST_BOOTLOADER, EEPROM_WriteBytes]
  simp only [Nat.reduceEqDiff, if_true, if_false, and_self]

/-- C17, divergence: for every state and every correction `d`, draining a
pending clock correction `d` leaves `d` in the live `clock_correction`, while
the deviation of the clock becomes `d` only if `-32,000,000 < d < 32,000,000`
and otherwise stays what it was.  On the start-up state, where the deviation
of the clock and the live `clock_correction` are both 0, the host sets the
clock correction to 32,000,000 (bytes 00 48 E8 01); the drain returns, the
clock rejects the value and keeps deviation 0, but the live `clock_correction`
is 32,000,000 and the same four bytes have been handed to the store, so the
two no longer agree. -/
theorem C17_rejected_deviation_committed :
    (∀ (st : HIDIRT_State) (d : Int),
      (GetHidirtShadowConfig { st with hidirt_data_shadow :=
        { st.hidirt_data_shadow with
          clock_correction := d
          data_update_pending := REP_ID_CLOCK_CORRECTION } }
          ).state.hidirt_data.clock_correction = d ∧
      SWRTC_GetDeviation (GetHidirtShadowConfig { st with hidirt_data_shadow :=
        { st.hidirt_data_shadow with
          clock_correction := d
          data_update_pending := REP_ID_CLOCK_CORRECTION } }
          ).state.clock =
        (if -32000000 < d ∧ d < 32000000 then d else SWRTC_GetDeviation st.clock)) ∧
    HIDIRT_carried REP_ID_CLOCK_CORRECTION (HIDIRT_buffer [0, 72, 232, 1]) =
      some (HIDIRT_Reply.correction 32000000) ∧
    HIDIRT_initial.hidirt_data.clock_correction = 0 ∧
    SWRTC_GetDeviation HIDIRT_initial.clock = 0 ∧
    (SWRTC_SetDeviation HIDIRT_initial.clock 32000000).1 = false ∧
    (GetHidirtShadowConfig (CustomHID_SetFeature HIDIRT_initial REP_ID_CLOCK_CORRECTION
      (HIDIRT_buffer [0, 72, 232, 1])).2).returned = true ∧
    SWRTC_GetDeviation (GetHidirtShadowConfig (CustomHID_SetFeature HIDIRT_initial
      REP_ID_CLOCK_CORRECTION (HIDIRT_buffer [0, 72, 232, 1])).2).state.clock = 0 ∧
    (GetHidirtShadowConfig (CustomHID_SetFeature HIDIRT_initial REP_ID_CLOCK_CORRECTION
      (HIDIRT_buffer [0, 72, 232, 1])).2).state.hidirt_data.clock_correction = 32000000 ∧
    (GetHidirtShadowConfig (CustomHID_SetFeature HIDIRT_initial REP_ID_CLOCK_CORRECTION
      (HIDIRT_buffer [0, 72, 232, 1])).2).state.eeprom_writes =
      [(ADDRESS_clock_correction, [0, 72, 232, 1])] := by
  refine ⟨?_, ?_, ?_, ?_, ?_, ?_, ?_, ?_, ?_⟩
  · intro st d
    obtain ⟨h1, h2, -⟩ := GetHidirtShadowConfig_clock_correction
      { st with hidirt_data_shadow :=
        { st.hidirt_data_shadow with
          clock_correction := d
          data_update_pending := REP_ID_CLOCK_CORRECTION } }
          rfl
    rw [h1, h2]
    refine ⟨rfl, ?_⟩
    have e := (SWRTC_SetDeviation_eq st.clock d)
    rw [e]
    by_cases hd : -32000000 < d ∧ d < 32000000
    · rw [if_pos hd, if_pos ⟨hd.2, hd.1⟩]; rfl
    · rw [if_neg hd, if_neg (fun hh => hd ⟨hh.2, hh.1⟩)]
  all_goals decide

theorem IRMP_ProcessData_chord (st : HIDIRT_State) (d : IRMP_DATA) (p : fifo_entry_t) :
    (IRMP_ProcessData st d p).1.hidirt_data.irmp_reset = st.hidirt_data.irmp_reset ∧
    (IRMP_ProcessData st d p).2.reset_set =
      (IRMP_counted st.hidirt_data.irmp_reset d && decide (3 ≤ (st.reset_ctr + 1) % 256)) ∧
    (IRMP_ProcessData st d p).1.reset_ctr =
      (if IRMP_DataIsEqual d st.hidirt_data.irmp_reset then
        (if IRMP_counted st.hidirt_data.irmp_reset d then
          (if 3 ≤ (st.reset_ctr + 1) % 256 then 0 else (st.reset_ctr + 1) % 256)
         else st.reset_ctr)
       else 0) ∧
    (IRMP_ProcessData st d p).1.flags.press_reset_button =
      ((IRMP_ProcessData st d p).2.reset_set || st.flags.press_reset_button) := by
  unfold IRMP_ProcessData IRMP_counted
  by_cases h1 : st.hidirt_data.irmp_power_on.protocol = 0x00 ∨
      st.hidirt_data.irmp_power_on.protocol = 0xFF
  · by_cases h2 : st.hidirt_data.irmp_power_off.protocol = 0x00 ∨
        st.hidirt_data.irmp_power_off.protocol = 0xFF
    · simp only [h1, h2, decide_True, if_true, EEPROM_WriteBytes]
      cases hr : IRMP_DataIsEqual d st.hidirt_data.irmp_reset <;>
        by_cases hc : d.flags &&& IRMP_FLAG_REPETITION = 0 <;>
        by_cases h3 : 3 ≤ (st.reset_ctr + 1) % 256 <;> simp [hr, hc, h3]
    · simp only [h1, h2, decide_True, decide_False, if_true, EEPROM_WriteBytes]
      cases hr : IRMP_DataIsEqual d st.hidirt_data.irmp_reset <;>
        by_cases hc : d.flags &&& IRMP_FLAG_REPETITION = 0 <;>
        by_cases h3 : 3 ≤ (st.reset_ctr + 1) % 256 <;> simp [hr, hc, h3]
  · simp only [h1, decide_False, IRMP_ForwardData]
    cases hr : IRMP_DataIsEqual d st.hidirt_data.irmp_reset <;>
      by_cases hc : d.flags &&& IRMP_FLAG_REPETITION = 0 <;>
      by_cases h3 : 3 ≤ (st.reset_ctr + 1) % 256 <;> simp [hr, hc, h3]

/-- C19, counterexample: with the reset code (protocol 2, address 5, command 7)
trained and the chord counter at 0, that code is received three times in a
row, the second and third reception flagged as repetitions, as a held key
sends them.  All three equal the reset code in protocol, address and command,
yet the third reception does not set the reset-press intent, and the chord
counter is left at 1. -/
theorem C19_held_key_counterexample :
    HIDIRT_trained.reset_ctr = 0 ∧
    IRMP_DataIsEqual { protocol := 2, address := 5, command := 7, flags := 0 }
      HIDIRT_trained.hidirt_data.irmp_reset = true ∧
    IRMP_DataIsEqual { protocol := 2, address := 5, command := 7, flags := 1 }
      HIDIRT_trained.hidirt_data.irmp_reset = true ∧
    (IRMP_ProcessData
      (IRMP_ProcessData
        (IRMP_ProcessData HIDIRT_trained
          { protocol := 2, address := 5, command := 7, flags := 0 }
          { data := { protocol := 0, address := 0, command := 0, flags := 0 } }).1
        { protocol := 2, address := 5, command := 7, flags := 1 }
        { data := { protocol := 0, address := 0, command := 0, flags := 0 } }).1
      { protocol := 2, address := 5, command := 7, flags := 1 }
      { data := { protocol := 0, address := 0, command := 0, flags := 0 } }).2.reset_set
      = false ∧
    (IRMP_ProcessData
      (IRMP_ProcessData
        (IRMP_ProcessData HIDIRT_trained
          { protocol := 2, address := 5, command := 7, flags := 0 }
          { data := { protocol := 0, address := 0, command := 0, flags := 0 } }).1
        { protocol := 2, address := 5, command := 7, flags := 1 }
        { data := { protocol := 0, address := 0, command := 0, flags := 0 } }).1
      { protocol := 2, address := 5, command := 7, flags := 1 }
      { data := { protocol := 0, address := 0, command := 0, flags := 0 } }
      ).1.flags.press_reset_button = false ∧
    (IRMP_ProcessData
      (IRMP_ProcessData
        (IRMP_ProcessData HIDIRT_trained
          { protocol := 2, address := 5, command := 7, flags := 0 }
          { data := { protocol := 0, address := 0, command := 0, flags := 0 } }).1
        { protocol := 2, address := 5, command := 7, flags := 1 }
        { data := { protocol := 0, address := 0, command := 0, flags := 0 } }).1
      { protocol := 2, address := 5, command := 7, flags := 1 }
      { data := { protocol := 0, address := 0, command := 0, flags := 0 } }).1.reset_ctr = 1 := by
  refine ⟨?_, ?_, ?_, ?_, ?_, ?_⟩ <;> decide

/-- C19, amended: for every state with chord counter 0, three consecutive
receptions that equal the reset code in protocol, address and command and of
which none is flagged as a repetition, passed to `IRMP_ProcessData`, set the
reset-press intent on the third reception and not on the first two, and leave
the chord counter at 0. -/
theorem C19_reset_chord_fires (st : HIDIRT_State) (d1 d2 d3 : IRMP_DATA)
    (p1 p2 p3 : fifo_entry_t) (h0 : st.reset_ctr = 0)
    (e1 : IRMP_DataIsEqual d1 st.hidirt_data.irmp_reset = true)
    (e2 : IRMP_DataIsEqual d2 st.hidirt_data.irmp_reset = true)
    (e3 : IRMP_DataIsEqual d3 st.hidirt_data.irmp_reset = true)
    (n1 : d1.flags &&& IRMP_FLAG_REPETITION = 0)
    (n2 : d2.flags &&& IRMP_FLAG_REPETITION = 0)
    (n3 : d3.flags &&& IRMP_FLAG_REPETITION = 0) :
    (IRMP_ProcessData st d1 p1).2.reset_set = false ∧
    (IRMP_ProcessData (IRMP_ProcessData st d1 p1).1 d2 p2).2.reset_set = false ∧
    (IRMP_ProcessData (IRMP_ProcessData (IRMP_ProcessData st d1 p1).1 d2 p2).1 d3
      p3).2.reset_set = true ∧
    (IRMP_ProcessData (IRMP_ProcessData (IRMP_ProcessData st d1 p1).1 d2 p2).1 d3
      p3).1.flags.press_reset_button = true ∧
    (IRMP_ProcessData (IRMP_ProcessData (IRMP_ProcessData st d1 p1).1 d2 p2).1 d3
      p3).1.reset_ctr = 0 := by
  obtain ⟨a1, a2, a3, -⟩ := IRMP_ProcessData_chord st d1 p1
  have c1 : IRMP_counted st.hidirt_data.irmp_reset d1 = true := by
    unfold IRMP_counted; rw [e1]; simp [n1]
  have c2 : IRMP_counted st.hidirt_data.irmp_reset d2 = true := by
    unfold IRMP_counted; rw [e2]; simp [n2]
  have c3 : IRMP_counted st.hidirt_data.irmp_reset d3 = true := by
    unfold IRMP_counted; rw [e3]; simp [n3]
  rw [e1, c1, h0] at a3
  rw [c1, h0] at a2
  have r1 : (IRMP_ProcessData st d1 p1).1.reset_ctr = 1 := by rw [a3]; decide
  have f1 : (IRMP_ProcessData st d1 p1).2.reset_set = false := by rw [a2]; decide
  generalize (IRMP_ProcessData st d1 p1).1 = s1 at a1 r1 ⊢
  obtain ⟨b1, b2, b3, -⟩ := IRMP_ProcessData_chord s1 d2 p2
  rw [a1] at b1 b2 b3
  rw [e2, c2, r1] at b3
  rw [c2, r1] at b2
  have r2 : (IRMP_ProcessData s1 d2 p2).1.reset_ctr = 2 := by rw [b3]; decide
  have f2 : (IRMP_ProcessData s1 d2 p2).2.reset_set = false := by rw [b2]; decide
  generalize (IRMP_ProcessData s1 d2 p2).1 = s2 at b1 r2 ⊢
  obtain ⟨g1, g2, g3, g4⟩ := IRMP_ProcessData_chord s2 d3 p3
  rw [b1] at g2 g3
  rw [e3, c3, r2] at g3
  rw [c3, r2] at g2
  have f3 : (IRMP_ProcessData s2 d3 p3).2.reset_set = true := by rw [g2]; decide
  refine ⟨f1, f2, f3, ?_, ?_⟩
  · rw [g4, f3]; rfl
  · rw [g3]; decide

/-- Witness of C19, amended: the reset code (protocol 2, address 5,
command 7) received three times, never flagged as a repetition, in the state
with the three codes trained. -/
theorem C19_reset_chord_fires_witness :
    (IRMP_ProcessData (IRMP_ProcessData (IRMP_ProcessData HIDIRT_trained
        { protocol := 2, address := 5, command := 7, flags := 0 }
        { data := { protocol := 0, address := 0, command := 0, flags := 0 } }).1
      { protocol := 2, address := 5, command := 7, flags := 0 }
      { data := { protocol := 0, address := 0, command := 0, flags := 0 } }).1
      { protocol := 2, address := 5, command := 7, flags := 0 }
      { data := { protocol := 0, address := 0, command := 0, flags := 0 } }).2.reset_set = true :=
  (C19_reset_chord_fires HIDIRT_trained
    { protocol := 2, address := 5, command := 7, flags := 0 }
    { protocol := 2, address := 5, command := 7, flags := 0 }
    { protocol := 2, address := 5, command := 7, flags := 0 }
    { data := { protocol := 0, address := 0, command := 0, flags := 0 } }
    { data := { protocol := 0, address := 0, command := 0, flags := 0 } }
    { data := { protocol := 0, address := 0, command := 0, flags := 0 } }
    (by decide) (by decide) (by decide) (by decide) (by decide) (by decide) (by decide)).2.2.1

theorem IRMP_chord_le (code : IRMP_DATA) (rx : Nat → IRMP_DATA) (n : Nat) :
    IRMP_chord code rx n ≤ 2 := by
  induction n with
  | zero => simp [IRMP_chord]
  | succ n ih =>
    simp only [IRMP_chord]
    split_ifs <;> omega

theorem IRMP_after_chord (st : HIDIRT_State) (rx : Nat → IRMP_DATA)
    (at_ptr : Nat → fifo_entry_t) (h0 : st.reset_ctr = 0) (n : Nat) :
    (IRMP_after st rx at_ptr n).hidirt_data.irmp_reset = st.hidirt_data.irmp_reset ∧
    (IRMP_after st rx at_ptr n).reset_ctr = IRMP_chord st.hidirt_data.irmp_reset rx n := by
  induction n with
  | zero => exact ⟨rfl, by rw [IRMP_chord]; exact h0⟩
  | succ n ih =>
    obtain ⟨ih1, ih2⟩ := ih
    obtain ⟨a1, -, a3, -⟩ :=
      IRMP_ProcessData_chord (IRMP_after st rx at_ptr n) (rx n) (at_ptr n)
    have hle := IRMP_chord_le st.hidirt_data.irmp_reset rx n
    simp only [IRMP_after]
    rw [a1, a3, ih1, ih2]
    refine ⟨rfl, ?_⟩
    rw [IRMP_chord]
    have hm : (IRMP_chord st.hidirt_data.irmp_reset rx n + 1) % 256 =
        IRMP_chord st.hidirt_data.irmp_reset rx n + 1 := by omega
    rw [hm]
    by_cases h2 : IRMP_chord st.hidirt_data.irmp_reset rx n = 2
    · have h3 : 3 ≤ IRMP_chord st.hidirt_data.irmp_reset rx n + 1 := by omega
      rw [if_pos h3, if_pos h2]
    · have h3 : ¬ 3 ≤ IRMP_chord st.hidirt_data.irmp_reset rx n + 1 := by omega
      rw [if_neg h3, if_neg h2]

theorem IRMP_report_fires (st : HIDIRT_State) (rx : Nat → IRMP_DATA)
    (at_ptr : Nat → fifo_entry_t) (h0 : st.reset_ctr = 0) (n : Nat) :
    (IRMP_report_of st rx at_ptr n).reset_set = IRMP_fires st.hidirt_data.irmp_reset rx n := by
  obtain ⟨ih1, ih2⟩ := IRMP_after_chord st rx at_ptr h0 n
  obtain ⟨-, a2, -, -⟩ :=
    IRMP_ProcessData_chord (IRMP_after st rx at_ptr n) (rx n) (at_ptr n)
  have hle := IRMP_chord_le st.hidirt_data.irmp_reset rx n
  unfold IRMP_report_of IRMP_fires
  rw [a2, ih1, ih2]
  congr 1
  have hm : (IRMP_chord st.hidirt_data.irmp_reset rx n + 1) % 256 =
      IRMP_chord st.hidirt_data.irmp_reset rx n + 1 := by omega
  rw [hm]
  by_cases h2 : IRMP_chord st.hidirt_data.irmp_reset rx n = 2
  · simp [h2]
  · have h3 : ¬ 3 ≤ IRMP_chord st.hidirt_data.irmp_reset rx n + 1 := by omega
    simp [h2, h3]

theorem IRMP_counted_equal (code d : IRMP_DATA) (h : IRMP_counted code d = true) :
    IRMP_DataIsEqual d code = true := by
  unfold IRMP_counted at h
  rw [Bool.and_eq_true] at h
  exact h.1

theorem IRMP_chord_window (code : IRMP_DATA) (rx : Nat → IRMP_DATA) (n : Nat) :
    (IRMP_chord code rx n = 0 → ∃ w, w ≤ n ∧ IRMP_window_start code rx w = true ∧
      ∀ k, w ≤ k → k < n →
        IRMP_DataIsEqual (rx k) code = true ∧ IRMP_counted code (rx k) = false) ∧
    (IRMP_chord code rx n = 1 → ∃ w i, w ≤ i ∧ i < n ∧ IRMP_window_start code rx w = true ∧
      IRMP_counted code (rx i) = true ∧
      ∀ k, w ≤ k → k < n → k ≠ i →
        IRMP_DataIsEqual (rx k) code = true ∧ IRMP_counted code (rx k) = false) ∧
    (IRMP_chord code rx n = 2 → ∃ w i j, w ≤ i ∧ i < j ∧ j < n ∧
      IRMP_window_start code rx w = true ∧
      IRMP_counted code (rx i) = true ∧ IRMP_counted code (rx j) = true ∧
      ∀ k, w ≤ k → k < n → k ≠ i → k ≠ j →
        IRMP_DataIsEqual (rx k) code = true ∧ IRMP_counted code (rx k) = false) := by
  induction n with
  | zero =>
    refine ⟨fun _ => ⟨0, le_refl 0, by simp [IRMP_window_start],
      fun k _ hk => absurd hk (Nat.not_lt_zero k)⟩, ?_, ?_⟩
    · intro h; rw [IRMP_chord] at h; cases h
    · intro h; rw [IRMP_chord] at h; cases h
  | succ n ih =>
    obtain ⟨ih0, ih1, ih2⟩ := ih
    have hle := IRMP_chord_le code rx n
    rw [IRMP_chord]
    cases he : IRMP_DataIsEqual (rx n) code with
    | false =>
      simp only [Bool.false_eq_true, if_false]
      refine ⟨fun _ => ⟨n + 1, le_refl _, ?_, fun k h1 h2 => (by omega)⟩,
        fun h => absurd h (by decide), fun h => absurd h (by decide)⟩
      unfold IRMP_window_start
      simp [he]
    | true =>
      simp only [if_true]
      cases hc : IRMP_counted code (rx n) with
      | false =>
        simp only [Bool.false_eq_true, if_false]
        refine ⟨?_, ?_, ?_⟩
        · intro h
          obtain ⟨w, hw, hs, hall⟩ := ih0 h
          refine ⟨w, by omega, hs, fun k h1 h2 => ?_⟩
          by_cases hk : k = n
          · subst hk; exact ⟨he, hc⟩
          · exact hall k h1 (by omega)
        · intro h
          obtain ⟨w, i, hw, hi, hs, hci, hall⟩ := ih1 h
          refine ⟨w, i, hw, by omega, hs, hci, fun k h1 h2 h3 => ?_⟩
          by_cases hk : k = n
          · subst hk; exact ⟨he, hc⟩
          · exact hall k h1 (by omega) h3
        · intro h
          obtain ⟨w, i, j, hw, hi, hj, hs, hci, hcj, hall⟩ := ih2 h
          refine ⟨w, i, j, hw, hi, by omega, hs, hci, hcj, fun k h1 h2 h3 h4 => ?_⟩
          by_cases hk : k = n
          · subst hk; exact ⟨he, hc⟩
          · exact hall k h1 (by omega) h3 h4
      | true =>
        simp only [if_true]
        by_cases h2 : IRMP_chord code rx n = 2
        · simp only [h2, if_true]
          refine ⟨fun _ => ⟨n + 1, le_refl _, ?_, fun k h1 h2 => (by omega)⟩,
            fun h => absurd h (by decide), fun h => absurd h (by decide)⟩
          unfold IRMP_window_start IRMP_fires
          simp [hc, h2]
        · simp only [h2, if_false]
          refine ⟨fun h => by omega, ?_, ?_⟩
          · intro h
            have h0 : IRMP_chord code rx n = 0 := by omega
            obtain ⟨w, hw, hs, hall⟩ := ih0 h0
            refine ⟨w, n, hw, by omega, hs, hc, fun k h1 h2 h3 => ?_⟩
            exact hall k h1 (by omega)
          · intro h
            have h1 : IRMP_chord code rx n = 1 := by omega
            obtain ⟨w, i, hw, hi, hs, hci, hall⟩ := ih1 h1
            refine ⟨w, i, n, hw, hi, by omega, hs, hci, hc, fun k h1 h2 h3 h4 => ?_⟩
            exact hall k h1 (by omega) h3

/-- C20: in every run of `IRMP_ProcessData` that starts with chord counter 0,
over every sequence of receptions, call `n` sets the reset-press intent exactly
when reception `n` is a counted reception of the reset code (equal to it and
not flagged as a repetition) and two counted receptions are pending; then there
are two earlier counted receptions `i < j < n` and a window start `w ≤ i`
(the beginning of the run, or right after a different code or a firing) such
that every other reception from `w` up to `n` is a reception of the reset code
that is not counted, so reception `n` is the third counted one of its window.
The intent flag after the call is set only by such a call or was set before
it, a reception of a different code leaves the chord counter at 0, and the
chord counter never exceeds 2 after a call. -/
theorem C20_reset_chord_required (st : HIDIRT_State) (rx : Nat → IRMP_DATA)
    (at_ptr : Nat → fifo_entry_t) (h0 : st.reset_ctr = 0) (n : Nat) :
    (IRMP_report_of st rx at_ptr n).reset_set = IRMP_fires st.hidirt_data.irmp_reset rx n ∧
    ((IRMP_report_of st rx at_ptr n).reset_set = true →
      IRMP_counted st.hidirt_data.irmp_reset (rx n) = true ∧
      IRMP_DataIsEqual (rx n) st.hidirt_data.irmp_reset = true ∧
      ∃ w i j, w ≤ i ∧ i < j ∧ j < n ∧
        IRMP_window_start st.hidirt_data.irmp_reset rx w = true ∧
        IRMP_counted st.hidirt_data.irmp_reset (rx i) = true ∧
        IRMP_counted st.hidirt_data.irmp_reset (rx j) = true ∧
        ∀ k, w ≤ k → k < n → k ≠ i → k ≠ j →
          IRMP_DataIsEqual (rx k) st.hidirt_data.irmp_reset = true ∧
          IRMP_counted st.hidirt_data.irmp_reset (rx k) = false ∧
          (IRMP_report_of st rx at_ptr k).reset_set = false) ∧
    (IRMP_after st rx at_ptr (n + 1)).flags.press_reset_button =
      ((IRMP_report_of st rx at_ptr n).reset_set ||
        (IRMP_after st rx at_ptr n).flags.press_reset_button) ∧
    (IRMP_DataIsEqual (rx n) st.hidirt_data.irmp_reset = true ∨
      (IRMP_after st rx at_ptr (n + 1)).reset_ctr = 0) ∧
    (IRMP_after st rx at_ptr (n + 1)).reset_ctr ≤ 2 := by
  have hf := IRMP_report_fires st rx at_ptr h0
  refine ⟨hf n, ?_, ?_, ?_, ?_⟩
  · intro h
    rw [hf n] at h
    unfold IRMP_fires at h
    rw [Bool.and_eq_true, decide_eq_true_eq] at h
    obtain ⟨hc, h2⟩ := h
    refine ⟨hc, IRMP_counted_equal _ _ hc, ?_⟩
    obtain ⟨w, i, j, hw, hi, hj, hs, hci, hcj, hall⟩ :=
      (IRMP_chord_window st.hidirt_data.irmp_reset rx n).2.2 h2
    refine ⟨w, i, j, hw, hi, hj, hs, hci, hcj, fun k h1 h2 h3 h4 => ?_⟩
    obtain ⟨q1, q2⟩ := hall k h1 h2 h3 h4
    refine ⟨q1, q2, ?_⟩
    rw [hf k]
    unfold IRMP_fires
    rw [q2]
    rfl
  · obtain ⟨-, -, -, a4⟩ :=
      IRMP_ProcessData_chord (IRMP_after st rx at_ptr n) (rx n) (at_ptr n)
    exact a4
  · obtain ⟨e1, e2⟩ := IRMP_after_chord st rx at_ptr h0 (n + 1)
    rw [e2, IRMP_chord]
    cases he : IRMP_DataIsEqual (rx n) st.hidirt_data.irmp_reset with
    | false => right; simp
    | true => left; rfl
  · obtain ⟨e1, e2⟩ := IRMP_after_chord st rx at_ptr h0 (n + 1)
    rw [e2]
    exact IRMP_chord_le _ _ _

/-- Witness of C20: the reset code (protocol 2, address 5, command 7) received
again and again, never flagged as a repetition, in the state with the three
codes trained; the third reception fires. -/
theorem C20_reset_chord_required_witness :
    HIDIRT_trained.reset_ctr = 0 ∧
    (IRMP_report_of HIDIRT_trained
      (fun _ => { protocol := 2, address := 5, command := 7, flags := 0 })
      (fun _ => { data := { protocol := 0, address := 0, command := 0, flags := 0 } })
      2).reset_set = true ∧
    (IRMP_after HIDIRT_trained
      (fun _ => { protocol := 2, address := 5, command := 7, flags := 0 })
      (fun _ => { data := { protocol := 0, address := 0, command := 0, flags := 0 } })
      3).reset_ctr ≤ 2 :=
  ⟨by decide,
   (C20_reset_chord_required HIDIRT_trained
      (fun _ => { protocol := 2, address := 5, command := 7, flags := 0 })
      (fun _ => { data := { protocol := 0, address := 0, command := 0, flags := 0 } })
      (by decide) 2).1.trans (by decide),
   (C20_reset_chord_required HIDIRT_trained
      (fun _ => { protocol := 2, address := 5, command := 7, flags := 0 })
      (fun _ => { data := { protocol := 0, address := 0, command := 0, flags := 0 } })
      (by decide) 2).2.2.2.2⟩

/-- C21, counterexample: with the control of the host buttons enabled, both
sense signals set and the power-press intent newly set, a call of
`ProcessButtons` asserts the power output; the debounced USB sense then drops,
and the immediately following call neither releases the output nor clears the
flag. -/
theorem C21_supply_lost_counterexample :
    HIDIRT_power_intent.flags.press_power_button = true ∧
    HIDIRT_power_intent.last_flags.press_power_button = false ∧
    HIDIRT_power_intent.power_pin = POWER_RELEASED ∧
    (ProcessButtons HIDIRT_power_intent).power_pin = POWER_PRESSED ∧
    DEB_GetKeyState (HIDIRT_sensed (ProcessButtons HIDIRT_power_intent) 1).deb DEB_USB_SENSE
      = 0 ∧
    (ProcessButtons (HIDIRT_sensed (ProcessButtons HIDIRT_power_intent) 1)).power_pin
      = POWER_PRESSED ∧
    (ProcessButtons (HIDIRT_sensed (ProcessButtons HIDIRT_power_intent)
      1)).flags.press_power_button = true := by
  refine ⟨?_, ?_, ?_, ?_, ?_, ?_, ?_⟩ <;> decide

/-- C21, amended: a call of `ProcessButtons` made while the debounced USB
sense is set and the control of the host buttons is enabled asserts the power
output when the power-press intent is newly set (set, and clear in
`last_flags`), and likewise the reset output for the reset-press intent.  The
immediately following call, before which the two press intents, their copies
in `last_flags` and the two outputs have not been touched, releases that
output and clears the flag
if the debounced USB sense is set at that call; if it is not set, the call
leaves output and flag as they are. -/
theorem C21_one_cycle_pulse (st mid : HIDIRT_State)
    (hs : DEB_GetKeyState st.deb DEB_USB_SENSE ≠ 0)
    (hc : st.hidirt_data.control_pc_enable = true)
    (hlp : mid.last_flags.press_power_button = (ProcessButtons st).last_flags.press_power_button)
    (hlr : mid.last_flags.press_reset_button = (ProcessButtons st).last_flags.press_reset_button)
    (hpp : mid.power_pin = (ProcessButtons st).power_pin)
    (hrp : mid.reset_pin = (ProcessButtons st).reset_pin)
    (hfp : mid.flags.press_power_button = (ProcessButtons st).flags.press_power_button)
    (hfr : mid.flags.press_reset_button = (ProcessButtons st).flags.press_reset_button) :
    ((st.flags.press_power_button = true ∧ st.last_flags.press_power_button = false) →
      (ProcessButtons st).power_pin = POWER_PRESSED ∧
      (ProcessButtons st).flags.press_power_button = true ∧
      (ProcessButtons mid).power_pin =
        (if DEB_GetKeyState mid.deb DEB_USB_SENSE ≠ 0 then POWER_RELEASED else POWER_PRESSED) ∧
      (ProcessButtons mid).flags.press_power_button =
        (if DEB_GetKeyState mid.deb DEB_USB_SENSE ≠ 0 then false else true)) ∧
    ((st.flags.press_reset_button = true ∧ st.last_flags.press_reset_button = false) →
      (ProcessButtons st).reset_pin = RESET_PRESSED ∧
      (ProcessButtons st).flags.press_reset_button = true ∧
      (ProcessButtons mid).reset_pin =
        (if DEB_GetKeyState mid.deb DEB_USB_SENSE ≠ 0 then RESET_RELEASED else RESET_PRESSED) ∧
      (ProcessButtons mid).flags.press_reset_button =
        (if DEB_GetKeyState mid.deb DEB_USB_SENSE ≠ 0 then false else true)) := by
  have e1 : (ProcessButtons st).flags.press_power_button =
      (if (st.flags.press_power_button != st.last_flags.press_power_button) then
        st.flags.press_power_button else false) := by
    simp [ProcessButtons, hs]
  have e2 : (ProcessButtons st).last_flags.press_power_button =
      (ProcessButtons st).flags.press_power_button := by
    simp [ProcessButtons, hs]
  have e3 : (ProcessButtons st).power_pin =
      (if (st.flags.press_power_button != st.last_flags.press_power_button) then
        POWER_PRESSED else POWER_RELEASED) := by
    simp [ProcessButtons, hs, hc]
  have f1 : (ProcessButtons st).flags.press_reset_button =
      (if (st.flags.press_reset_button != st.last_flags.press_reset_button) then
        st.flags.press_reset_button else false) := by
    simp [ProcessButtons, hs]
  have f2 : (ProcessButtons st).last_flags.press_reset_button =
      (ProcessButtons st).flags.press_reset_button := by
    simp [ProcessButtons, hs]
  have f3 : (ProcessButtons st).reset_pin =
      (if (st.flags.press_reset_button != st.last_flags.press_reset_button) then
        RESET_PRESSED else RESET_RELEASED) := by
    simp [ProcessButtons, hs, hc]
  have m1 : (ProcessButtons mid).power_pin =
      (if DEB_GetKeyState mid.deb DEB_USB_SENSE ≠ 0 then
        (if (mid.flags.press_power_button != mid.last_flags.press_power_button) then
          (if mid.hidirt_data.control_pc_enable then POWER_PRESSED else mid.power_pin)
         else POWER_RELEASED)
       else mid.power_pin) := by
    simp [ProcessButtons]
  have m2 : (ProcessButtons mid).flags.press_power_button =
      (if DEB_GetKeyState mid.deb DEB_USB_SENSE ≠ 0 then
        (if (mid.flags.press_power_button != mid.last_flags.press_power_button) then
          mid.flags.press_power_button else false)
       else mid.flags.press_power_button) := by
    simp [ProcessButtons]
  have m3 : (ProcessButtons mid).reset_pin =
      (if DEB_GetKeyState mid.deb DEB_USB_SENSE ≠ 0 then
        (if (mid.flags.press_reset_button != mid.last_flags.press_reset_button) then
          (if mid.hidirt_data.control_pc_enable then RESET_PRESSED else mid.reset_pin)
         else RESET_RELEASED)
       else mid.reset_pin) := by
    simp [ProcessButtons]
  have m4 : (ProcessButtons mid).flags.press_reset_button =
      (if DEB_GetKeyState mid.deb DEB_USB_SENSE ≠ 0 then
        (if (mid.flags.press_reset_button != mid.last_flags.press_reset_button) then
          mid.flags.press_reset_button else false)
       else mid.flags.press_reset_button) := by
    simp [ProcessButtons]
  constructor
  · rintro ⟨a, b⟩
    rw [a, b] at e1 e3
    have g1 : (ProcessButtons st).flags.press_power_button = true := by rw [e1]; rfl
    have g3 : (ProcessButtons st).power_pin = POWER_PRESSED := by rw [e3]; rfl
    refine ⟨g3, g1, ?_, ?_⟩
    · rw [m1, hfp, hlp, e2, g1, hpp, g3]
      by_cases h : DEB_GetKeyState mid.deb DEB_USB_SENSE ≠ 0 <;> simp [h]
    · rw [m2, hfp, hlp, e2, g1]
      by_cases h : DEB_GetKeyState mid.deb DEB_USB_SENSE ≠ 0 <;> simp [h]
  · rintro ⟨a, b⟩
    rw [a, b] at f1 f3
    have g1 : (ProcessButtons st).flags.press_reset_button = true := by rw [f1]; rfl
    have g3 : (ProcessButtons st).reset_pin = RESET_PRESSED := by rw [f3]; rfl
    refine ⟨g3, g1, ?_, ?_⟩
    · rw [m3, hfr, hlr, f2, g1, hrp, g3]
      by_cases h : DEB_GetKeyState mid.deb DEB_USB_SENSE ≠ 0 <;> simp [h]
    · rw [m4, hfr, hlr, f2, g1]
      by_cases h : DEB_GetKeyState mid.deb DEB_USB_SENSE ≠ 0 <;> simp [h]

/-- Witness of C21, amended: the power-press intent newly set in the start-up
state with the control of the host buttons enabled; the following call is made
with both sense signals still set and releases the output. -/
theorem C21_one_cycle_pulse_witness :
    DEB_GetKeyState HIDIRT_power_intent.deb DEB_USB_SENSE ≠ 0 ∧
    HIDIRT_power_intent.hidirt_data.control_pc_enable = true ∧
    (ProcessButtons HIDIRT_power_intent).power_pin = POWER_PRESSED ∧
    (ProcessButtons (ProcessButtons HIDIRT_power_intent)).power_pin = POWER_RELEASED :=
  ⟨by decide, by decide,
   ((C21_one_cycle_pulse HIDIRT_power_intent (ProcessButtons HIDIRT_power_intent)
      (by decide) (by decide) rfl rfl rfl rfl rfl rfl).1 ⟨by decide, by decide⟩).1,
   (((C21_one_cycle_pulse HIDIRT_power_intent (ProcessButtons HIDIRT_power_intent)
      (by decide) (by decide) rfl rfl rfl rfl rfl rfl).1 ⟨by decide, by decide⟩).2.2.1).trans
      (by decide)⟩



theorem IRMP_ForwardData_step (st : HIDIRT_State) (d : IRMP_DATA) (p : fifo_entry_t) (c : Nat)
    (hc : c = (if d.flags &&& IRMP_FLAG_REPETITION = 0 then 0 else (st.repeat_ctr + 1) % 256)) :
    (IRMP_ForwardData st d p).hidirt_data = st.hidirt_data ∧
    (IRMP_ForwardData st d p).repeat_ctr =
      (if st.hidirt_data.min_ir_repeats ≤ c then st.hidirt_data.min_ir_repeats else c) ∧
    (IRMP_ForwardData st d p).usb_reports =
      st.usb_reports ++
        (if c = 0 ∨ st.hidirt_data.min_ir_repeats ≤ c then [[1] ++ bytes_IRMP_DATA d]
         else []) := by
  unfold IRMP_ForwardData
  rw [← hc]
  refine ⟨rfl, ?_, ?_⟩
  · by_cases h0 : c = 0 <;> by_cases hm : st.hidirt_data.min_ir_repeats ≤ c <;> simp [h0, hm]
  · by_cases h0 : c = 0 <;> by_cases hm : st.hidirt_data.min_ir_repeats ≤ c <;> simp [h0, hm]

theorem IRMP_ForwardData_run (st : HIDIRT_State) (rx : Nat → IRMP_DATA)
    (at_ptr : Nat → fifo_entry_t) (h254 : st.hidirt_data.min_ir_repeats ≤ 254)
    (h0 : (rx 0).flags &&& IRMP_FLAG_REPETITION = 0)
    (hr : ∀ n, (rx (n + 1)).flags &&& IRMP_FLAG_REPETITION ≠ 0) (n : Nat) :
    (IRMP_ForwardData_after st rx at_ptr (n + 1)).hidirt_data = st.hidirt_data ∧
    (IRMP_ForwardData_after st rx at_ptr (n + 1)).repeat_ctr =
      (if st.hidirt_data.min_ir_repeats ≤ n then st.hidirt_data.min_ir_repeats else n) ∧
    (IRMP_ForwardData_after st rx at_ptr (n + 1)).usb_reports =
      (IRMP_ForwardData_after st rx at_ptr n).usb_reports ++
        (if n = 0 ∨ st.hidirt_data.min_ir_repeats ≤ n then [[1] ++ bytes_IRMP_DATA (rx n)]
         else []) := by
  induction n with
  | zero =>
    obtain ⟨a1, a2, a3⟩ := IRMP_ForwardData_step st (rx 0) (at_ptr 0) 0 (by rw [if_pos h0])
    exact ⟨a1, a2, a3⟩
  | succ n ih =>
    obtain ⟨i1, i2, -⟩ := ih
    have hc : (if st.hidirt_data.min_ir_repeats ≤ n then st.hidirt_data.min_ir_repeats else n) + 1
        = (if (rx (n + 1)).flags &&& IRMP_FLAG_REPETITION = 0 then 0
            else ((IRMP_ForwardData_after st rx at_ptr (n + 1)).repeat_ctr + 1) % 256) := by
      rw [if_neg (hr n), i2]
      split_ifs <;> omega
    obtain ⟨a1, a2, a3⟩ := IRMP_ForwardData_step (IRMP_ForwardData_after st rx at_ptr (n + 1))
      (rx (n + 1)) (at_ptr (n + 1)) _ hc
    rw [i1] at a1 a2 a3
    refine ⟨a1, ?_, ?_⟩
    · show (IRMP_ForwardData (IRMP_ForwardData_after st rx at_ptr (n + 1)) (rx (n + 1))
        (at_ptr (n + 1))).repeat_ctr = _
      rw [a2]
      split_ifs <;> omega
    · show (IRMP_ForwardData (IRMP_ForwardData_after st rx at_ptr (n + 1)) (rx (n + 1))
        (at_ptr (n + 1))).usb_reports = _
      rw [a3]
      congr 1
      by_cases hN : st.hidirt_data.min_ir_repeats ≤ n
      · have e1 : st.hidirt_data.min_ir_repeats ≤ n + 1 := by omega
        simp [hN, e1]
      · by_cases hN1 : st.hidirt_data.min_ir_repeats ≤ n + 1
        · simp [hN, hN1]
        · simp [hN, hN1]

/-- C22, counterexample: with `min_ir_repeats = 3` an initial command followed
by 10 commands flagged as repetitions is forwarded 9 times, not 4 times: after
the initial command and 4 repetitions 3 reports have been sent (counts 0, 3
and 4), and after all 11 commands 9 reports, the initial one and one for each
of the repetitions 3 to 10. -/
theorem C22_every_later_repeat_counterexample :
    (IRMP_ForwardData_after
      { HIDIRT_trained with hidirt_data := { HIDIRT_trained.hidirt_data with min_ir_repeats := 3 } }
      (IRMP_held_key { protocol := 2, address := 1, command := 9, flags := 0 })
      (fun _ => { data := { protocol := 0, address := 0, command := 0, flags := 0 } })
      4).usb_reports.length = 2 ∧
    (IRMP_ForwardData_after
      { HIDIRT_trained with hidirt_data := { HIDIRT_trained.hidirt_data with min_ir_repeats := 3 } }
      (IRMP_held_key { protocol := 2, address := 1, command := 9, flags := 0 })
      (fun _ => { data := { protocol := 0, address := 0, command := 0, flags := 0 } })
      5).usb_reports.length = 3 ∧
    (IRMP_ForwardData_after
      { HIDIRT_trained with hidirt_data := { HIDIRT_trained.hidirt_data with min_ir_repeats := 3 } }
      (IRMP_held_key { protocol := 2, address := 1, command := 9, flags := 0 })
      (fun _ => { data := { protocol := 0, address := 0, command := 0, flags := 0 } })
      11).usb_reports.length = 9 := by
  refine ⟨?_, ?_, ?_⟩ <;> decide

/-- C22, amended: with `min_ir_repeats = N`, `N` at most 254, an initial
command (repetition flag clear) followed by commands flagged as repetitions,
passed to `IRMP_ForwardData`, sends the host report for the initial command
(count 0) and for every repetition from the `N`-th on and for no other: call
`n` appends the report of its command to the reports sent exactly when `n = 0`
or `N ≤ n`.  With `N = 3` and 10 repetitions the reports are sent on counts 0
and 3 to 10. -/
theorem C22_repeat_suppression (st : HIDIRT_State) (rx : Nat → IRMP_DATA)
    (at_ptr : Nat → fifo_entry_t) (h254 : st.hidirt_data.min_ir_repeats ≤ 254)
    (h0 : (rx 0).flags &&& IRMP_FLAG_REPETITION = 0)
    (hr : ∀ n, (rx (n + 1)).flags &&& IRMP_FLAG_REPETITION ≠ 0) (n : Nat) :
    (IRMP_ForwardData_after st rx at_ptr (n + 1)).usb_reports =
      (IRMP_ForwardData_after st rx at_ptr n).usb_reports ++
        (if n = 0 ∨ st.hidirt_data.min_ir_repeats ≤ n then [[1] ++ bytes_IRMP_DATA (rx n)]
         else []) :=
  (IRMP_ForwardData_run st rx at_ptr h254 h0 hr n).2.2

/-- Witness of C22, amended: a held key with `min_ir_repeats = 3`; the call
for repetition 4 sends a report. -/
theorem C22_repeat_suppression_witness :
    ({ HIDIRT_trained with hidirt_data :=
        { HIDIRT_trained.hidirt_data with min_ir_repeats := 3 } } :
      HIDIRT_State).hidirt_data.min_ir_repeats ≤ 254 ∧
    (IRMP_ForwardData_after
      { HIDIRT_trained with hidirt_data := { HIDIRT_trained.hidirt_data with min_ir_repeats := 3 } }
      (IRMP_held_key { protocol := 2, address := 1, command := 9, flags := 0 })
      (fun _ => { data := { protocol := 0, address := 0, command := 0, flags := 0 } })
      5).usb_reports =
    (IRMP_ForwardData_after
      { HIDIRT_trained with hidirt_data := { HIDIRT_trained.hidirt_data with min_ir_repeats := 3 } }
      (IRMP_held_key { protocol := 2, address := 1, command := 9, flags := 0 })
      (fun _ => { data := { protocol := 0, address := 0, command := 0, flags := 0 } })
      4).usb_reports ++ [[1, 2, 1, 0, 9, 0, 1]] :=
  ⟨by decide,
   (C22_repeat_suppression
      { HIDIRT_trained with hidirt_data := { HIDIRT_trained.hidirt_data with min_ir_repeats := 3 } }
      (IRMP_held_key { protocol := 2, address := 1, command := 9, flags := 0 })
      (fun _ => { data := { protocol := 0, address := 0, command := 0, flags := 0 } })
      (by decide) (by decide) (fun _ => by simp [IRMP_held_key, IRMP_FLAG_REPETITION])
      4).trans (by decide)⟩



theorem IRMP_ProcessData_blank (st : HIDIRT_State) (d : IRMP_DATA) (p : fifo_entry_t)
    (hb : IRMP_blank st.hidirt_data.irmp_power_on = true) :
    (IRMP_ProcessData st d p).1.hidirt_data.irmp_power_on = d ∧
    (IRMP_ProcessData st d p).1.hidirt_data.irmp_power_off =
      (if IRMP_blank st.hidirt_data.irmp_power_off then d else st.hidirt_data.irmp_power_off) ∧
    (IRMP_ProcessData st d p).1.eeprom_writes =
      st.eeprom_writes ++ [(ADDRESS_irmp_power_on, bytes_IRMP_DATA d)] ++
        (if IRMP_blank st.hidirt_data.irmp_power_off
          then [(ADDRESS_irmp_power_off, bytes_IRMP_DATA d)] else []) ∧
    (IRMP_ProcessData st d p).1.usb_reports = st.usb_reports ∧
    (IRMP_ProcessData st d p).1.irsnd_fifo = st.irsnd_fifo ∧
    (IRMP_ProcessData st d p).1.repeat_ctr = st.repeat_ctr ∧
    (IRMP_ProcessData st d p).2.power_set = false ∧
    (IRMP_ProcessData st d p).1.flags.press_power_button = st.flags.press_power_button := by
  unfold IRMP_blank at hb ⊢
  rw [decide_eq_true_eq] at hb
  unfold IRMP_ProcessData
  by_cases h2 : st.hidirt_data.irmp_power_off.protocol = 0x00 ∨
      st.hidirt_data.irmp_power_off.protocol = 0xFF
  · simp [hb, h2, EEPROM_WriteBytes]
  · simp [hb, h2, EEPROM_WriteBytes]

theorem IRMP_ProcessData_live (st : HIDIRT_State) (d : IRMP_DATA) (p : fifo_entry_t)
    (ht : IRMP_blank st.hidirt_data.irmp_power_on = false) :
    (IRMP_ProcessData st d p).1.hidirt_data = st.hidirt_data ∧
    (IRMP_ProcessData st d p).1.eeprom_writes = st.eeprom_writes ∧
    (IRMP_ProcessData st d p).1.usb_reports = (IRMP_ForwardData st d p).usb_reports ∧
    (IRMP_ProcessData st d p).1.irsnd_fifo = (IRMP_ForwardData st d p).irsnd_fifo ∧
    (IRMP_ProcessData st d p).1.repeat_ctr = (IRMP_ForwardData st d p).repeat_ctr ∧
    (IRMP_ProcessData st d p).2.power_set =
      ((IRMP_DataIsEqual d st.hidirt_data.irmp_power_on &&
          decide (DEB_GetKeyState st.deb DEB_PSU_SENSE = 0)) ||
        (IRMP_DataIsEqual d st.hidirt_data.irmp_power_off &&
          decide (DEB_GetKeyState st.deb DEB_PSU_SENSE ≠ 0))) ∧
    (IRMP_ProcessData st d p).1.flags.press_power_button =
      ((IRMP_ProcessData st d p).2.power_set || st.flags.press_power_button) := by
  unfold IRMP_blank at ht
  rw [decide_eq_false_iff_not] at ht
  unfold IRMP_ProcessData
  simp only [ht, decide_False, Bool.not_false, Bool.true_and, Bool.false_eq_true, if_false]
  refine ⟨rfl, rfl, trivial, trivial, trivial, ?_, ?_⟩
  · by_cases hp : DEB_GetKeyState st.deb DEB_PSU_SENSE = 0 <;> simp [hp]
  · unfold IRMP_ForwardData
    simp

/-- C23, counterexample: with both slots blank in the start-up state,
`IRMP_ProcessData` is given two distinct commands, (protocol 2, address 5,
command 7) and then (protocol 2, address 5, command 8).  Afterwards the
power-off slot holds the first command, not the second, and the second
command has been forwarded to the host as a live command. -/
theorem C23_first_code_trains_both_counterexample :
    IRMP_blank HIDIRT_initial.hidirt_data.irmp_power_on = true ∧
    IRMP_blank HIDIRT_initial.hidirt_data.irmp_power_off = true ∧
    (IRMP_ProcessData
      (IRMP_ProcessData HIDIRT_initial { protocol := 2, address := 5, command := 7, flags := 0 }
        { data := { protocol := 0, address := 0, command := 0, flags := 0 } }).1
      { protocol := 2, address := 5, command := 8, flags := 0 }
      { data := { protocol := 0, address := 0, command := 0, flags := 0 } }
      ).1.hidirt_data.irmp_power_on = { protocol := 2, address := 5, command := 7, flags := 0 } ∧
    (IRMP_ProcessData
      (IRMP_ProcessData HIDIRT_initial { protocol := 2, address := 5, command := 7, flags := 0 }
        { data := { protocol := 0, address := 0, command := 0, flags := 0 } }).1
      { protocol := 2, address := 5, command := 8, flags := 0 }
      { data := { protocol := 0, address := 0, command := 0, flags := 0 } }
      ).1.hidirt_data.irmp_power_off = { protocol := 2, address := 5, command := 7, flags := 0 } ∧
    (IRMP_ProcessData
      (IRMP_ProcessData HIDIRT_initial { protocol := 2, address := 5, command := 7, flags := 0 }
        { data := { protocol := 0, address := 0, command := 0, flags := 0 } }).1
      { protocol := 2, address := 5, command := 8, flags := 0 }
      { data := { protocol := 0, address := 0, command := 0, flags := 0 } }
      ).1.usb_reports = [[1, 2, 5, 0, 8, 0, 0]] ∧
    (IRMP_ProcessData
      (IRMP_ProcessData HIDIRT_initial { protocol := 2, address := 5, command := 7, flags := 0 }
        { data := { protocol := 0, address := 0, command := 0, flags := 0 } }).1
      { protocol := 2, address := 5, command := 8, flags := 0 }
      { data := { protocol := 0, address := 0, command := 0, flags := 0 } }
      ).1.eeprom_writes =
      [(ADDRESS_irmp_power_on, [2, 5, 0, 7, 0, 0]),
       (ADDRESS_irmp_power_off, [2, 5, 0, 7, 0, 0])] := by
  refine ⟨?_, ?_, ?_, ?_, ?_, ?_⟩ <;> decide

/-- C23, amended: starting with both the power-on and the power-off slot
blank, after `IRMP_ProcessData` has processed one decoded command `c1` whose
protocol is neither `0x00` nor `0xFF`, both slots hold `c1`, each persisted;
`c1` was not forwarded (no report sent, transmit queue and repeat counter
untouched) and not compared with the power codes (the power-press intent is
what it was), but it is compared with the reset code and counted towards the
reset chord as every reception is, and sets the reset-press intent when it
completes the chord.  Every command `c2` processed next is already classified
as live: the slots and the store stay as they are, `c2` is forwarded as
`IRMP_ForwardData` forwards it, with a report to the host if its repetition
flag is clear, and it raises the power-press intent exactly when it equals
`c1`, which both slots hold. -/
theorem C23_learning (st : HIDIRT_State) (c1 c2 : IRMP_DATA) (p1 p2 : fifo_entry_t)
    (hon : IRMP_blank st.hidirt_data.irmp_power_on = true)
    (hoff : IRMP_blank st.hidirt_data.irmp_power_off = true)
    (h1 : IRMP_blank c1 = false) :
    (IRMP_ProcessData st c1 p1).1.hidirt_data.irmp_power_on = c1 ∧
    (IRMP_ProcessData st c1 p1).1.hidirt_data.irmp_power_off = c1 ∧
    (IRMP_ProcessData st c1 p1).1.eeprom_writes =
      st.eeprom_writes ++ [(ADDRESS_irmp_power_on, bytes_IRMP_DATA c1),
        (ADDRESS_irmp_power_off, bytes_IRMP_DATA c1)] ∧
    (IRMP_ProcessData st c1 p1).1.usb_reports = st.usb_reports ∧
    (IRMP_ProcessData st c1 p1).1.irsnd_fifo = st.irsnd_fifo ∧
    (IRMP_ProcessData st c1 p1).1.repeat_ctr = st.repeat_ctr ∧
    (IRMP_ProcessData st c1 p1).2.power_set = false ∧
    (IRMP_ProcessData (IRMP_ProcessData st c1 p1).1 c2 p2).1.hidirt_data.irmp_power_on = c1 ∧
    (IRMP_ProcessData (IRMP_ProcessData st c1 p1).1 c2 p2).1.hidirt_data.irmp_power_off = c1 ∧
    (IRMP_ProcessData (IRMP_ProcessData st c1 p1).1 c2 p2).1.eeprom_writes =
      (IRMP_ProcessData st c1 p1).1.eeprom_writes ∧
    (IRMP_ProcessData (IRMP_ProcessData st c1 p1).1 c2 p2).1.usb_reports =
      (IRMP_ForwardData (IRMP_ProcessData st c1 p1).1 c2 p2).usb_reports ∧
    (IRMP_ProcessData (IRMP_ProcessData st c1 p1).1 c2 p2).1.irsnd_fifo =
      (IRMP_ForwardData (IRMP_ProcessData st c1 p1).1 c2 p2).irsnd_fifo ∧
    (c2.flags &&& IRMP_FLAG_REPETITION = 0 →
      (IRMP_ProcessData (IRMP_ProcessData st c1 p1).1 c2 p2).1.usb_reports =
        st.usb_reports ++ [[1] ++ bytes_IRMP_DATA c2]) ∧
    (IRMP_ProcessData st c1 p1).1.flags.press_power_button = st.flags.press_power_button ∧
    (IRMP_ProcessData st c1 p1).1.hidirt_data.irmp_reset = st.hidirt_data.irmp_reset ∧
    (IRMP_ProcessData st c1 p1).2.reset_set =
      (IRMP_counted st.hidirt_data.irmp_reset c1 && decide (3 ≤ (st.reset_ctr + 1) % 256)) ∧
    (IRMP_ProcessData st c1 p1).1.reset_ctr =
      (if IRMP_DataIsEqual c1 st.hidirt_data.irmp_reset then
        (if IRMP_counted st.hidirt_data.irmp_reset c1 then
          (if 3 ≤ (st.reset_ctr + 1) % 256 then 0 else (st.reset_ctr + 1) % 256)
         else st.reset_ctr)
       else 0) ∧
    (IRMP_ProcessData st c1 p1).1.flags.press_reset_button =
      ((IRMP_ProcessData st c1 p1).2.reset_set || st.flags.press_reset_button) ∧
    (IRMP_ProcessData (IRMP_ProcessData st c1 p1).1 c2 p2).2.power_set =
      IRMP_DataIsEqual c2 c1 ∧
    (IRMP_ProcessData (IRMP_ProcessData st c1 p1).1 c2 p2).1.flags.press_power_button =
      (IRMP_DataIsEqual c2 c1 || st.flags.press_power_button) := by
  obtain ⟨a1, a2, a3, a4, a5, a6, a7, a8⟩ := IRMP_ProcessData_blank st c1 p1 hon
  obtain ⟨r1, r2, r3, r4⟩ := IRMP_ProcessData_chord st c1 p1
  rw [hoff] at a2 a3
  simp only [if_true] at a2 a3
  have ht : IRMP_blank (IRMP_ProcessData st c1 p1).1.hidirt_data.irmp_power_on = false := by
    rw [a1]; exact h1
  obtain ⟨b1, b2, b3, b4, -, b6, b7⟩ :=
    IRMP_ProcessData_live (IRMP_ProcessData st c1 p1).1 c2 p2 ht
  have hp : (IRMP_ProcessData (IRMP_ProcessData st c1 p1).1 c2 p2).2.power_set =
      IRMP_DataIsEqual c2 c1 := by
    rw [b6, a1, a2]
    by_cases hz : DEB_GetKeyState (IRMP_ProcessData st c1 p1).1.deb DEB_PSU_SENSE = 0 <;>
      simp [hz]
  refine ⟨a1, a2, ?_, a4, a5, a6, a7, ?_, ?_, b2, b3, b4, ?_, a8, r1, r2, r3, r4, hp, ?_⟩
  · rw [a3]; simp
  · rw [b1, a1]
  · rw [b1, a2]
  · intro hf
    rw [b3]
    obtain ⟨-, -, c3⟩ := IRMP_ForwardData_step (IRMP_ProcessData st c1 p1).1 c2 p2 0
      (by rw [if_pos hf])
    rw [c3, a4]
    simp
  · rw [b7, hp, a8]

/-- Witness of C23, amended: the start-up state, whose slots are blank, and the
command (protocol 2, address 5, command 7); and the same state with that
command as the reset code and the chord counter at 2, in which the learning
command completes the reset chord. -/
theorem C23_learning_witness :
    IRMP_blank HIDIRT_initial.hidirt_data.irmp_power_on = true ∧
    IRMP_blank HIDIRT_initial.hidirt_data.irmp_power_off = true ∧
    (IRMP_ProcessData HIDIRT_initial { protocol := 2, address := 5, command := 7, flags := 0 }
      { data := { protocol := 0, address := 0, command := 0, flags := 0 } }
      ).1.hidirt_data.irmp_power_off = { protocol := 2, address := 5, command := 7, flags := 0 } ∧
    (IRMP_ProcessData
      { HIDIRT_initial with
        reset_ctr := 2
        hidirt_data :=
          { HIDIRT_initial.hidirt_data with
            irmp_reset := { protocol := 2, address := 5, command := 7, flags := 0 } } }
      { protocol := 2, address := 5, command := 7, flags := 0 }
      { data := { protocol := 0, address := 0, command := 0, flags := 0 } }).2.reset_set = true :=
  ⟨by decide, by decide,
   (C23_learning HIDIRT_initial { protocol := 2, address := 5, command := 7, flags := 0 }
      { protocol := 2, address := 5, command := 8, flags := 0 }
      { data := { protocol := 0, address := 0, command := 0, flags := 0 } }
      { data := { protocol := 0, address := 0, command := 0, flags := 0 } }
      (by decide) (by decide) (by decide)).2.1,
   (C23_learning
      { HIDIRT_initial with
        reset_ctr := 2
        hidirt_data :=
          { HIDIRT_initial.hidirt_data with
            irmp_reset := { protocol := 2, address := 5, command := 7, flags := 0 } } }
      { protocol := 2, address := 5, command := 7, flags := 0 }
      { protocol := 2, address := 5, command := 8, flags := 0 }
      { data := { protocol := 0, address := 0, command := 0, flags := 0 } }
      { data := { protocol := 0, address := 0, command := 0, flags := 0 } }
      (by decide) (by decide) (by decide)).2.2.2.2.2.2.2.2.2.2.2.2.2.2.2.1.trans (by decide)⟩

/-- C24: with the power-on code trained (its protocol neither `0x00` nor
`0xFF`), `IRMP_ProcessData` sets the power-press intent exactly when the
received command equals the trained power-on code in protocol, address and
command while the debounced PSU sense is clear, or equals the trained
power-off code while the debounced PSU sense is set; the flags of the command
play no part in the comparison, and for every other reception the flag keeps
the value it had. -/
theorem C24_power_classification (st : HIDIRT_State) (d : IRMP_DATA) (p : fifo_entry_t)
    (ht : IRMP_blank st.hidirt_data.irmp_power_on = false) :
    (IRMP_ProcessData st d p).2.power_set =
      ((IRMP_DataIsEqual d st.hidirt_data.irmp_power_on &&
          decide (DEB_GetKeyState st.deb DEB_PSU_SENSE = 0)) ||
        (IRMP_DataIsEqual d st.hidirt_data.irmp_power_off &&
          decide (DEB_GetKeyState st.deb DEB_PSU_SENSE ≠ 0))) ∧
    (IRMP_ProcessData st d p).1.flags.press_power_button =
      ((IRMP_ProcessData st d p).2.power_set || st.flags.press_power_button) ∧
    (∀ c : IRMP_DATA, IRMP_DataIsEqual d c =
      decide (d.protocol = c.protocol ∧ d.address = c.address ∧ d.command = c.command)) := by
  obtain ⟨-, -, -, -, -, b6, b7⟩ := IRMP_ProcessData_live st d p ht
  refine ⟨b6, b7, fun c => ?_⟩
  unfold IRMP_DataIsEqual
  by_cases h : d.command = c.command ∧ d.address = c.address ∧ d.protocol = c.protocol
  · rw [if_pos h]
    exact (decide_eq_true ⟨h.2.2, h.2.1, h.1⟩).symm
  · rw [if_neg h]
    exact (decide_eq_false (fun hh => h ⟨hh.2.2, hh.2.1, hh.1⟩)).symm

/-- Witness of C24: the trained power-off code received in the state with the
three codes trained, in which the debounced PSU sense is set. -/
theorem C24_power_classification_witness :
    IRMP_blank HIDIRT_trained.hidirt_data.irmp_power_on = false ∧
    (IRMP_ProcessData HIDIRT_trained { protocol := 2, address := 1, command := 2, flags := 0 }
      { data := { protocol := 0, address := 0, command := 0, flags := 0 } }).2.power_set = true :=
  ⟨by decide,
   (C24_power_classification HIDIRT_trained
      { protocol := 2, address := 1, command := 2, flags := 0 }
      { data := { protocol := 0, address := 0, command := 0, flags := 0 } }
      (by decide)).1.trans (by decide)⟩



theorem ProcessButtons_frame (st : HIDIRT_State) :
    (ProcessButtons st).deb = st.deb ∧
    (ProcessButtons st).flags.alarm_a_occurred = st.flags.alarm_a_occurred ∧
    (ProcessButtons st).flags.alarm_b_occurred = st.flags.alarm_b_occurred ∧
    (ProcessButtons st).iwdg_refreshes = st.iwdg_refreshes ∧
    (ProcessButtons st).hidirt_data = st.hidirt_data := by
  unfold ProcessButtons
  exact ⟨rfl, rfl, rfl, rfl, rfl⟩

theorem RTC_HandleInterruptFlags_wakeup_frame (st : HIDIRT_State) :
    (RTC_HandleInterruptFlags_wakeup st).deb = st.deb ∧
    (RTC_HandleInterruptFlags_wakeup st).flags.alarm_a_occurred = st.flags.alarm_a_occurred ∧
    (RTC_HandleInterruptFlags_wakeup st).flags.alarm_b_occurred = st.flags.alarm_b_occurred ∧
    (RTC_HandleInterruptFlags_wakeup st).iwdg_refreshes = st.iwdg_refreshes ∧
    (RTC_HandleInterruptFlags_wakeup st).hidirt_data = st.hidirt_data := by
  obtain ⟨h1, h2, h3, h4, h5⟩ := ProcessButtons_frame st
  unfold RTC_HandleInterruptFlags_wakeup
  by_cases h : (st.flags.wakeup_occurred != RESET) = true
  · rw [if_pos h]
    exact ⟨h1, h2, h3, h4, h5⟩
  · rw [if_neg h]
    exact ⟨rfl, rfl, rfl, rfl, rfl⟩

theorem RTC_HandleInterruptFlags_flags (st : HIDIRT_State) :
    (RTC_HandleInterruptFlags st).flags.press_power_button =
      ((st.flags.alarm_a_occurred && (decide (DEB_GetKeyState st.deb DEB_USB_SENSE ≠ 0) &&
          decide (DEB_GetKeyState st.deb DEB_PSU_SENSE = 0))) ||
        (RTC_HandleInterruptFlags_wakeup st).flags.press_power_button) ∧
    (RTC_HandleInterruptFlags_alarm_a (RTC_HandleInterruptFlags_wakeup st)).flags.alarm_a_occurred =
      (st.flags.alarm_a_occurred && !(decide (DEB_GetKeyState st.deb DEB_USB_SENSE ≠ 0) &&
          decide (DEB_GetKeyState st.deb DEB_PSU_SENSE ≠ 0))) ∧
    (RTC_HandleInterruptFlags st).flags.alarm_a_occurred =
      (st.flags.alarm_a_occurred && !(decide (DEB_GetKeyState st.deb DEB_USB_SENSE ≠ 0) &&
          decide (DEB_GetKeyState st.deb DEB_PSU_SENSE ≠ 0)) && !st.flags.alarm_b_occurred) ∧
    (RTC_HandleInterruptFlags st).flags.alarm_b_occurred = false ∧
    (RTC_HandleInterruptFlags st).deb = st.deb := by
  obtain ⟨h1, h2, h3, -, -⟩ := RTC_HandleInterruptFlags_wakeup_frame st
  unfold RTC_HandleInterruptFlags RTC_HandleInterruptFlags_alarm_b RTC_HandleInterruptFlags_alarm_a
  generalize RTC_HandleInterruptFlags_wakeup st = w at h1 h2 h3 ⊢
  simp only [RESET]
  rw [← h1, ← h2, ← h3]
  cases w.flags.alarm_a_occurred <;> cases w.flags.alarm_b_occurred <;>
    by_cases hu : DEB_GetKeyState w.deb DEB_USB_SENSE = 0 <;>
    by_cases hp : DEB_GetKeyState w.deb DEB_PSU_SENSE = 0 <;> simp [hu, hp]

/-- C25: in `RTC_HandleInterruptFlags` the wake branch sets the power-press
intent exactly when the wake-alarm flag (alarm A) is set, the debounced USB
sense is set and the debounced PSU sense is clear; otherwise the intent keeps
the value the button processing of the same call left.  The wake branch
clears the wake-alarm flag exactly when both debounced sense signals are set,
and otherwise leaves it pending; after the whole call the flag is still
pending only if, in addition, the deadline-alarm flag (alarm B) was clear. -/
theorem C25_wake_alarm (st : HIDIRT_State) :
    (RTC_HandleInterruptFlags st).flags.press_power_button =
      ((st.flags.alarm_a_occurred && (decide (DEB_GetKeyState st.deb DEB_USB_SENSE ≠ 0) &&
          decide (DEB_GetKeyState st.deb DEB_PSU_SENSE = 0))) ||
        (RTC_HandleInterruptFlags_wakeup st).flags.press_power_button) ∧
    (RTC_HandleInterruptFlags_alarm_a (RTC_HandleInterruptFlags_wakeup st)).flags.alarm_a_occurred =
      (st.flags.alarm_a_occurred && !(decide (DEB_GetKeyState st.deb DEB_USB_SENSE ≠ 0) &&
          decide (DEB_GetKeyState st.deb DEB_PSU_SENSE ≠ 0))) ∧
    (RTC_HandleInterruptFlags st).flags.alarm_a_occurred =
      (st.flags.alarm_a_occurred && !(decide (DEB_GetKeyState st.deb DEB_USB_SENSE ≠ 0) &&
          decide (DEB_GetKeyState st.deb DEB_PSU_SENSE ≠ 0)) && !st.flags.alarm_b_occurred) :=
  ⟨(RTC_HandleInterruptFlags_flags st).1, (RTC_HandleInterruptFlags_flags st).2.1,
   (RTC_HandleInterruptFlags_flags st).2.2.1⟩

/-- C26: a call of `RTC_HandleInterruptFlags` made with the deadline-alarm flag
(alarm B) set leaves both the wake-alarm flag and the deadline-alarm flag
clear, whatever the sense signals are; and a call made with the wake-alarm
flag clear, as every later call is until `Alarm1` runs again, leaves it clear
and does not raise the power-press intent: the intent is then what the button
processing of that call left.  `Alarm1` and `Alarm2` are what sets the two
flags. -/
theorem C26_deadline_cancels_wake (st : HIDIRT_State) :
    (st.flags.alarm_b_occurred = true →
      (RTC_HandleInterruptFlags st).flags.alarm_a_occurred = false ∧
      (RTC_HandleInterruptFlags st).flags.alarm_b_occurred = false) ∧
    (st.flags.alarm_a_occurred = false →
      (RTC_HandleInterruptFlags st).flags.alarm_a_occurred = false ∧
      (RTC_HandleInterruptFlags st).flags.press_power_button =
        (RTC_HandleInterruptFlags_wakeup st).flags.press_power_button) ∧
    (∀ idx, (Alarm1 st idx).flags.alarm_a_occurred = true) ∧
    (∀ idx, (Alarm2 st idx).flags.alarm_b_occurred = true) := by
  obtain ⟨h1, -, h3, h4, -⟩ := RTC_HandleInterruptFlags_flags st
  refine ⟨fun hb => ⟨?_, h4⟩, fun ha => ⟨?_, ?_⟩, fun _ => rfl, fun _ => rfl⟩
  · rw [h3, hb]; simp
  · rw [h3, ha]; simp
  · rw [h1, ha]; simp

/-- Witness of C26: the start-up state with both alarm flags set. -/
theorem C26_deadline_cancels_wake_witness :
    (RTC_HandleInterruptFlags (Alarm2 (Alarm1 HIDIRT_initial 0) 1)).flags.alarm_a_occurred
      = false ∧
    (RTC_HandleInterruptFlags (Alarm2 (Alarm1 HIDIRT_initial 0) 1)).flags.alarm_b_occurred
      = false :=
  (C26_deadline_cancels_wake (Alarm2 (Alarm1 HIDIRT_initial 0) 1)).1 (by decide)



/-- C27, divergence: the entry `IRMP_ForwardData` hands to `FIFO_Write` is
read at the address of its pointer parameter, so the buffer after the call
does not depend on the received command at all: it is the same for every two
commands.  In the state with the three codes trained and forwarding enabled
(the buffer empty), the command (protocol 2, address 1, command 9) is received
while the six bytes at the address of the parameter are E8 4F 00 20 00 00, a
pointer into the RAM followed by two zero bytes: the entry enqueued, and then
dequeued by `IRSND_ProcessData` and handed to the sender, is (protocol 232,
address 79, command 32), not the command received. -/
theorem C27_forward_enqueues_pointer_bytes :
    (∀ (st : HIDIRT_State) (d1 d2 : IRMP_DATA) (p : fifo_entry_t),
      (IRMP_ForwardData st d1 p).irsnd_fifo = (IRMP_ForwardData st d2 p).irsnd_fifo) ∧
    (∀ (st : HIDIRT_State) (d : IRMP_DATA) (p : fifo_entry_t),
      (IRMP_ForwardData st d p).irsnd_fifo =
        (if st.hidirt_data.forward_ir_enable then (FIFO_Write st.irsnd_fifo p).2
         else st.irsnd_fifo)) ∧
    FIFO_IsFull
      ({ HIDIRT_trained with hidirt_data :=
          { HIDIRT_trained.hidirt_data with forward_ir_enable := true } } :
        HIDIRT_State).irsnd_fifo = false ∧
    (IRSND_ProcessData
      (IRMP_ForwardData
        { HIDIRT_trained with hidirt_data :=
          { HIDIRT_trained.hidirt_data with forward_ir_enable := true } }
        { protocol := 2, address := 1, command := 9, flags := 0 }
        { data := rd_IRMP_DATA (HIDIRT_buffer [232, 79, 0, 32, 0, 0]) })
      false { protocol := 0, address := 0, command := 0, flags := 0 }).irsnd_sent =
      [{ protocol := 232, address := 79, command := 32, flags := 0 }] := by
  refine ⟨fun st d1 d2 p => rfl, fun st d p => rfl, ?_, ?_⟩ <;> decide

theorem IRMP_ProcessData_iwdg (st : HIDIRT_State) (d : IRMP_DATA) (p : fifo_entry_t) :
    (IRMP_ProcessData st d p).1.iwdg_refreshes = st.iwdg_refreshes := by
  unfold IRMP_ProcessData
  by_cases h1 : st.hidirt_data.irmp_power_on.protocol = 0x00 ∨
      st.hidirt_data.irmp_power_on.protocol = 0xFF
  · by_cases h2 : st.hidirt_data.irmp_power_off.protocol = 0x00 ∨
        st.hidirt_data.irmp_power_off.protocol = 0xFF
    · simp [h1, h2, EEPROM_WriteBytes]
    · simp [h1, h2, EEPROM_WriteBytes]
  · simp [h1, IRMP_ForwardData]

theorem IRSND_ProcessData_iwdg (st : HIDIRT_State) (busy : Bool) (scratch : IRMP_DATA) :
    (IRSND_ProcessData st busy scratch).iwdg_refreshes = st.iwdg_refreshes := by
  unfold IRSND_ProcessData
  cases busy
  · simp only [Bool.not_false, if_true]
    cases h : (FIFO_Read st.irsnd_fifo { data := scratch }).1 <;> simp [h]
  · rfl

theorem RTC_HandleInterruptFlags_iwdg (st : HIDIRT_State) :
    (RTC_HandleInterruptFlags st).iwdg_refreshes = st.iwdg_refreshes := by
  obtain ⟨-, -, -, h4, -⟩ := RTC_HandleInterruptFlags_wakeup_frame st
  unfold RTC_HandleInterruptFlags RTC_HandleInterruptFlags_alarm_b RTC_HandleInterruptFlags_alarm_a
  generalize RTC_HandleInterruptFlags_wakeup st = w at h4 ⊢
  rw [← h4]
  split_ifs <;> rfl

theorem GetHidirtShadowConfig_iwdg (st : HIDIRT_State) :
    (GetHidirtShadowConfig st).state.iwdg_refreshes = st.iwdg_refreshes := by
  have hc : st.hidirt_data_shadow.data_update_pending = 17 ∨
      st.hidirt_data_shadow.data_update_pending = 18 ∨
      st.hidirt_data_shadow.data_update_pending = 19 ∨
      st.hidirt_data_shadow.data_update_pending = 20 ∨
      st.hidirt_data_shadow.data_update_pending = 21 ∨
      st.hidirt_data_shadow.data_update_pending = 22 ∨
      st.hidirt_data_shadow.data_update_pending = 24 ∨
      st.hidirt_data_shadow.data_update_pending = 25 ∨
      st.hidirt_data_shadow.data_update_pending = 26 ∨
      st.hidirt_data_shadow.data_update_pending = 80 ∨
      st.hidirt_data_shadow.data_update_pending = 81 ∨
      st.hidirt_data_shadow.data_update_pending = 82 ∨
      (st.hidirt_data_shadow.data_update_pending ≠ 17 ∧
       st.hidirt_data_shadow.data_update_pending ≠ 18 ∧
       st.hidirt_data_shadow.data_update_pending ≠ 19 ∧
       st.hidirt_data_shadow.data_update_pending ≠ 20 ∧
       st.hidirt_data_shadow.data_update_pending ≠ 21 ∧
       st.hidirt_data_shadow.data_update_pending ≠ 22 ∧
       st.hidirt_data_shadow.data_update_pending ≠ 24 ∧
       st.hidirt_data_shadow.data_update_pending ≠ 25 ∧
       st.hidirt_data_shadow.data_update_pending ≠ 26 ∧
       st.hidirt_data_shadow.data_update_pending ≠ 80 ∧
       st.hidirt_data_shadow.data_update_pending ≠ 81 ∧
       st.hidirt_data_shadow.data_update_pending ≠ 82) := by omega
  unfold GetHidirtShadowConfig HIDIRT_Run.state
  simp only [REP_ID_CONTROL_PC_ENABLE, REP_ID_FORWARD_IR_ENABLE, REP_ID_POWER_ON_IR_CODE,
    REP_ID_POWER_OFF_IR_CODE, REP_ID_RESET_IR_CODE, REP_ID_MINIMUM_REPEATS,
    REP_ID_CLOCK_CORRECTION, REP_ID_WAKEUP_TIME, REP_ID_WAKEUP_TIME_SPAN,
    REP_ID_WATCHDOG_ENABLE, REP_ID_WATCHDOG_RESET, REP_ID_REQUEST_BOOTLOADER, EEPROM_WriteBytes]
  rcases hc with e | e | e | e | e | e | e | e | e | e | e | e | e
  all_goals (simp only [e]; simp only [Nat.reduceEqDiff, if_true, if_false])

theorem hidirt_watchdog_step (st : HIDIRT_State) :
    (hidirt_watchdog st).iwdg_refreshes =
      st.iwdg_refreshes +
        (if DEB_GetKeyState st.deb DEB_PSU_SENSE ≠ 0 ∧ st.hidirt_data.watchdog_enable = true ∧
            st.hidirt_data.watchdog_reset = false then 0 else 1) ∧
    (hidirt_watchdog st).hidirt_data.watchdog_reset =
      (if DEB_GetKeyState st.deb DEB_PSU_SENSE ≠ 0 ∧ st.hidirt_data.watchdog_enable = true
        then false else st.hidirt_data.watchdog_reset) := by
  unfold hidirt_watchdog
  simp only [TRUE, FALSE]
  by_cases hp : DEB_GetKeyState st.deb DEB_PSU_SENSE = 0 <;>
    cases he : st.hidirt_data.watchdog_enable <;>
    cases hr : st.hidirt_data.watchdog_reset <;> simp [hp, he, hr]

/-- C28, counterexample: in the start-up state the debounced PSU sense is set
(the host is running), the liveness flag `watchdog_reset` is clear and the
watchdog function `watchdog_enable` is off; an iteration of `hidirt()` in
which nothing is received returns and has refreshed the watchdog. -/
theorem C28_watchdog_disabled_counterexample :
    DEB_GetKeyState HIDIRT_initial.deb DEB_PSU_SENSE ≠ 0 ∧
    HIDIRT_initial.hidirt_data.watchdog_reset = false ∧
    HIDIRT_initial.hidirt_data.watchdog_enable = false ∧
    HIDIRT_initial.iwdg_refreshes = 0 ∧
    (hidirt HIDIRT_initial none
      { data := { protocol := 0, address := 0, command := 0, flags := 0 } } false
      { protocol := 0, address := 0, command := 0, flags := 0 }).returned = true ∧
    (hidirt HIDIRT_initial none
      { data := { protocol := 0, address := 0, command := 0, flags := 0 } } false
      { protocol := 0, address := 0, command := 0, flags := 0 }).state.iwdg_refreshes = 1 := by
  refine ⟨?_, ?_, ?_, ?_, ?_, ?_⟩ <;> decide

/-- C28, amended: in every iteration of `hidirt()`, whatever is received and
whatever else the iteration does, the hardware watchdog is refreshed exactly
once unless the host is running (debounced PSU sense set), the watchdog
function is enabled (`watchdog_enable` set) and the host has not asserted the
liveness flag (`watchdog_reset` clear); in that single case, and only in that
case, the watchdog is left unrefreshed.  The first statement of the iteration
takes the decision and consumes the liveness flag when it refreshes on its
account. -/
theorem C28_watchdog_refresh (st : HIDIRT_State) (received : Option IRMP_DATA)
    (at_ptr : fifo_entry_t) (busy : Bool) (scratch : IRMP_DATA) :
    (hidirt st received at_ptr busy scratch).state.iwdg_refreshes =
      st.iwdg_refreshes +
        (if DEB_GetKeyState st.deb DEB_PSU_SENSE ≠ 0 ∧ st.hidirt_data.watchdog_enable = true ∧
            st.hidirt_data.watchdog_reset = false then 0 else 1) ∧
    (hidirt_watchdog st).iwdg_refreshes =
      (hidirt st received at_ptr busy scratch).state.iwdg_refreshes ∧
    (hidirt_watchdog st).hidirt_data.watchdog_reset =
      (if DEB_GetKeyState st.deb DEB_PSU_SENSE ≠ 0 ∧ st.hidirt_data.watchdog_enable = true
        then false else st.hidirt_data.watchdog_reset) := by
  obtain ⟨w1, w2⟩ := hidirt_watchdog_step st
  have key : (hidirt st received at_ptr busy scratch).state.iwdg_refreshes =
      (hidirt_watchdog st).iwdg_refreshes := by
    unfold hidirt
    simp only []
    rw [GetHidirtShadowConfig_iwdg, RTC_HandleInterruptFlags_iwdg, IRSND_ProcessData_iwdg]
    cases received with
    | none => rfl
    | some d => exact IRMP_ProcessData_iwdg _ d at_ptr
  exact ⟨key.trans w1, key.symm, w2⟩



/-- C29: `FIFO_Write` on a full buffer (`read = (write + 1) mod 16`) returns
false and leaves the buffer, indices and slots, as it was; `FIFO_Read` on an
empty buffer (`read = write`) returns false and leaves the buffer and the
output entry of the caller as they were.  `FIFO_IsFull` and `FIFO_IsEmpty`
tell exactly these two conditions. -/
theorem C29_failing_calls_change_nothing (fifo : fifo_t) (entry : fifo_entry_t) :
    (fifo.read = (fifo.write + 1) % 16 → FIFO_Write fifo entry = (false, fifo)) ∧
    (fifo.read = fifo.write → FIFO_Read fifo entry = (false, fifo, entry)) ∧
    (FIFO_IsFull fifo = true ↔ fifo.read = (fifo.write + 1) % 16) ∧
    (FIFO_IsEmpty fifo = true ↔ fifo.read = fifo.write) := by
  refine ⟨fun h => ?_, fun h => ?_, ?_, ?_⟩
  · unfold FIFO_Write
    simp only [land_fifo_mask]
    rw [if_pos h]
  · unfold FIFO_Read
    rw [if_pos h]
  · unfold FIFO_IsFull
    simp only [land_fifo_mask]
    by_cases h : fifo.read = (fifo.write + 1) % 16 <;> simp [h]
  · unfold FIFO_IsEmpty
    by_cases h : fifo.read = fifo.write <;> simp [h]

/-- Witness of C29: the cleared buffer is empty, and a read on it fails and
changes nothing. -/
theorem C29_failing_calls_change_nothing_witness :
    (FIFO_Clear HIDIRT_initial.irsnd_fifo).read = (FIFO_Clear HIDIRT_initial.irsnd_fifo).write ∧
    (FIFO_Read (FIFO_Clear HIDIRT_initial.irsnd_fifo)
      { data := { protocol := 1, address := 2, command := 3, flags := 0 } }).1 = false ∧
    (FIFO_Read (FIFO_Clear HIDIRT_initial.irsnd_fifo)
      { data := { protocol := 1, address := 2, command := 3, flags := 0 } }).2.2 =
      { data := { protocol := 1, address := 2, command := 3, flags := 0 } } :=
  ⟨rfl,
   congrArg Prod.fst ((C29_failing_calls_change_nothing (FIFO_Clear HIDIRT_initial.irsnd_fifo)
      { data := { protocol := 1, address := 2, command := 3, flags := 0 } }).2.1 rfl),
   congrArg (fun r => r.2.2) ((C29_failing_calls_change_nothing
      (FIFO_Clear HIDIRT_initial.irsnd_fifo)
      { data := { protocol := 1, address := 2, command := 3, flags := 0 } }).2.1 rfl)⟩

theorem ldiff_fifo_mask (m : Nat) (hm : m < 16) : Nat.ldiff 15 m = 15 - m := by
  interval_cases m <;> simp [Nat.ldiff, Nat.bitwise]

theorem FIFO_Count_eq (fifo : fifo_t) (hr : fifo.read < 16) (hw : fifo.write < 16) :
    FIFO_Count fifo = (fifo.write + 16 - fifo.read) % 16 := by
  unfold FIFO_Count
  have hmask : ((fifo_mask : Nat) : Int) = ((15 : Nat) : Int) := by decide
  rw [hmask]
  by_cases h : fifo.read ≤ fifo.write
  · have e : (fifo.write : Int) - (fifo.read : Int) = ((fifo.write - fifo.read : Nat) : Int) := by
      omega
    rw [e]
    have e2 : Int.land ((fifo.write - fifo.read : Nat) : Int) ((15 : Nat) : Int) =
        (((fifo.write - fifo.read) &&& 15 : Nat) : Int) := rfl
    rw [e2]
    have e3 : (fifo.write - fifo.read) &&& 15 = (fifo.write - fifo.read) % 16 :=
      Nat.and_pow_two_sub_one_eq_mod _ 4
    rw [e3]
    unfold toU16
    omega
  · have e : (fifo.write : Int) - (fifo.read : Int) =
        Int.negSucc (fifo.read - fifo.write - 1) := by
      rw [Int.negSucc_eq]
      omega
    rw [e]
    have e2 : Int.land (Int.negSucc (fifo.read - fifo.write - 1)) ((15 : Nat) : Int) =
        ((Nat.ldiff 15 (fifo.read - fifo.write - 1) : Nat) : Int) := rfl
    rw [e2, ldiff_fifo_mask _ (by omega)]
    unfold toU16
    omega

theorem FIFO_counts (out : fifo_entry_t) (ops : List FIFO_Op) :
    ∀ (fifo : fifo_t) (q : SpecQueue), FIFO_holds fifo q →
      FIFO_reads_done (FIFO_run out fifo ops) ≤
        q.length + FIFO_writes_done (FIFO_run out fifo ops) ∧
      ∃ q2 : SpecQueue, FIFO_holds (FIFO_final out fifo ops) q2 ∧
        q2.length + FIFO_reads_done (FIFO_run out fifo ops) =
          q.length + FIFO_writes_done (FIFO_run out fifo ops) := by
  induction ops with
  | nil =>
    intro fifo q h
    exact ⟨Nat.zero_le _, q, h, rfl⟩
  | cons op ops ih =>
    intro fifo q h
    obtain ⟨h1, h2⟩ := FIFO_step_refines out fifo q op h
    obtain ⟨i1, q2, i2, i3⟩ := ih (FIFO_step out fifo op).2 (SpecQueue_step q op).2 h2
    simp only [FIFO_run, FIFO_final]
    rw [h1]
    cases op with
    | write e =>
      by_cases hl : q.length < FIFO_SIZE - 1
      · simp only [SpecQueue_step, if_pos hl] at i1 i3 ⊢
        simp only [FIFO_writes_done, FIFO_reads_done]
        rw [List.length_append] at i1 i3
        simp only [List.length_singleton] at i1 i3
        exact ⟨by omega, q2, i2, by omega⟩
      · simp only [SpecQueue_step, if_neg hl] at i1 i3 ⊢
        simp only [FIFO_writes_done, FIFO_reads_done]
        exact ⟨i1, q2, i2, i3⟩
    | read =>
      cases q with
      | nil =>
        simp only [SpecQueue_step] at i1 i3 ⊢
        simp only [FIFO_writes_done, FIFO_reads_done]
        exact ⟨i1, q2, i2, i3⟩
      | cons e rest =>
        simp only [SpecQueue_step] at i1 i3 ⊢
        simp only [FIFO_writes_done, FIFO_reads_done, List.length_cons]
        exact ⟨by omega, q2, i2, by omega⟩

/-- C30: for every sequence of `FIFO_Write` and `FIFO_Read` calls on a buffer
that starts cleared, with `k` the number of writes and `j` the number of reads
that returned true, `j ≤ k` and `FIFO_Count` on the buffer after the calls
returns `k - j`, which is `(write - read) mod 16`. -/
theorem C30_count_is_writes_minus_reads (fifo : fifo_t) (out : fifo_entry_t)
    (ops : List FIFO_Op) :
    FIFO_reads_done (FIFO_run out (FIFO_Clear fifo) ops) ≤
      FIFO_writes_done (FIFO_run out (FIFO_Clear fifo) ops) ∧
    FIFO_Count (FIFO_final out (FIFO_Clear fifo) ops) =
      FIFO_writes_done (FIFO_run out (FIFO_Clear fifo) ops) -
        FIFO_reads_done (FIFO_run out (FIFO_Clear fifo) ops) ∧
    FIFO_Count (FIFO_final out (FIFO_Clear fifo) ops) =
      ((FIFO_final out (FIFO_Clear fifo) ops).write + 16 -
        (FIFO_final out (FIFO_Clear fifo) ops).read) % 16 ∧
    ((FIFO_Count (FIFO_final out (FIFO_Clear fifo) ops) : Nat) : Int) =
      (((FIFO_final out (FIFO_Clear fifo) ops).write : Int) -
        ((FIFO_final out (FIFO_Clear fifo) ops).read : Int)) % 16 := by
  obtain ⟨h1, q2, ⟨hr, hw, hq⟩, h3⟩ :=
    FIFO_counts out ops (FIFO_Clear fifo) [] (FIFO_holds_clear fifo)
  simp only [List.length_nil, Nat.zero_add] at h1 h3
  have hc := FIFO_Count_eq (FIFO_final out (FIFO_Clear fifo) ops) hr hw
  have hl : q2.length =
      ((FIFO_final out (FIFO_Clear fifo) ops).write + 16 -
        (FIFO_final out (FIFO_Clear fifo) ops).read) % 16 := by
    rw [← hq, FIFO_contents_length]
  refine ⟨h1, ?_, hc, ?_⟩
  · rw [hc, ← hl]; omega
  · rw [hc]; omega

theorem FIFO_Write_ok_iff (fifo : fifo_t) (e : fifo_entry_t) :
    (FIFO_Write fifo e).1 = true ↔ fifo.read ≠ (fifo.write + 1) % 16 := by
  unfold FIFO_Write
  simp only [land_fifo_mask]
  by_cases h : fifo.read = (fifo.write + 1) % 16
  · rw [if_pos h]; simp [h]
  · rw [if_neg h]; simp [h]

theorem FIFO_IsFull_iff (fifo : fifo_t) :
    FIFO_IsFull fifo = true ↔ fifo.read = (fifo.write + 1) % 16 := by
  unfold FIFO_IsFull
  simp only [land_fifo_mask]
  by_cases h : fifo.read = (fifo.write + 1) % 16 <;> simp [h]

/-- C31: for every buffer with both indices below 16, `FIFO_Write` returns true
exactly when `FIFO_Count` is below 15, `FIFO_IsFull` returns true exactly when
`FIFO_Count` is 15, and `FIFO_Count` never exceeds 15; on a cleared buffer 16
consecutive writes return true 15 times and false the 16th time. -/
theorem C31_usable_capacity (fifo : fifo_t) (e out : fifo_entry_t)
    (hr : fifo.read < 16) (hw : fifo.write < 16) :
    ((FIFO_Write fifo e).1 = true ↔ FIFO_Count fifo < 15) ∧
    (FIFO_IsFull fifo = true ↔ FIFO_Count fifo = 15) ∧
    FIFO_Count fifo ≤ 15 ∧
    FIFO_run out (FIFO_Clear fifo) (List.replicate 16 (FIFO_Op.write e)) =
      List.replicate 15 (FIFO_Result.wrote true) ++ [FIFO_Result.wrote false] := by
  have hc := FIFO_Count_eq fifo hr hw
  refine ⟨?_, ?_, ?_, ?_⟩
  · rw [FIFO_Write_ok_iff, hc]; omega
  · rw [FIFO_IsFull_iff, hc]; omega
  · rw [hc]; omega
  · rw [FIFO_run_refines out _ (FIFO_Clear fifo) [] (FIFO_holds_clear fifo)]
    simp [List.replicate, SpecQueue_run, SpecQueue_step, FIFO_SIZE]

/-- Witness of C31: the cleared transmit queue of the start-up state; a write
succeeds and the count is 0. -/
theorem C31_usable_capacity_witness :
    (FIFO_Clear HIDIRT_initial.irsnd_fifo).read < 16 ∧
    (FIFO_Clear HIDIRT_initial.irsnd_fifo).write < 16 ∧
    ((FIFO_Write (FIFO_Clear HIDIRT_initial.irsnd_fifo)
        { data := { protocol := 1, address := 2, command := 3, flags := 0 } }).1 = true ↔
      FIFO_Count (FIFO_Clear HIDIRT_initial.irsnd_fifo) < 15) :=
  ⟨by decide, by decide,
   (C31_usable_capacity (FIFO_Clear HIDIRT_initial.irsnd_fifo)
      { data := { protocol := 1, address := 2, command := 3, flags := 0 } }
      { data := { protocol := 0, address := 0, command := 0, flags := 0 } }
      (by decide) (by decide)).1⟩

/-- C32: on every call of `DEB_Service`, with `F` the mask of the bits whose
stable state flips in the call, the new stable state is the old one with the
bits of `F` toggled, the press mask is the old one with the bits of `F` that
are now set added, and the release mask is the old one with the bits of `F`
that are now cleared added; bit by bit, signal `k` is in `F` exactly when its
stable bit changes, and a flipped bit is added to exactly one of the two
masks. -/
theorem C32_flip_bookkeeping (s : DEB_State) (keys : Nat) :
    (DEB_Service s keys).key_state = (s.key_state ^^^ DEB_flip_mask s keys) % 256 ∧
    (DEB_Service s keys).key_press =
      (s.key_press ||| ((DEB_Service s keys).key_state &&& DEB_flip_mask s keys)) % 256 ∧
    (DEB_Service s keys).key_release =
      (s.key_release ||| (BNOT (DEB_Service s keys).key_state &&& DEB_flip_mask s keys)) % 256 ∧
    (∀ k, k < 8 →
      (DEB_flip_mask s keys).testBit k = DEB_flips k s keys ∧
      (DEB_Service s keys).key_state.testBit k =
        xor (s.key_state.testBit k) (DEB_flips k s keys) ∧
      (DEB_Service s keys).key_press.testBit k =
        (s.key_press.testBit k ||
          (DEB_flips k s keys && (DEB_Service s keys).key_state.testBit k)) ∧
      (DEB_Service s keys).key_release.testBit k =
        (s.key_release.testBit k ||
          (DEB_flips k s keys && !(DEB_Service s keys).key_state.testBit k)) ∧
      xor (DEB_flips k s keys && (DEB_Service s keys).key_state.testBit k)
        (DEB_flips k s keys && !(DEB_Service s keys).key_state.testBit k) =
        DEB_flips k s keys) := by
  refine ⟨DEB_Service_key_state s keys, DEB_Service_key_press s keys,
    DEB_Service_key_release s keys, fun k hk => ?_⟩
  have hf := DEB_flips_mask k hk s keys
  refine ⟨hf, ?_, ?_, ?_, ?_⟩
  · rw [DEB_bit_key_state k hk, hf]
  · rw [DEB_bit_key_press k hk, hf, Bool.and_comm]
  · rw [DEB_bit_key_release k hk, hf, Bool.and_comm]
  · cases DEB_flips k s keys <;> cases (DEB_Service s keys).key_state.testBit k <;> rfl

theorem DEB_read_and_clear (p m : Nat) :
    (m &&& p) % 256 = (p &&& m) % 256 ∧
    (m &&& (p ^^^ (m &&& p) % 256) % 256) % 256 = 0 ∧
    (∀ k, k < 8 → m.testBit k = false →
      ((p ^^^ (m &&& p) % 256) % 256).testBit k = p.testBit k) ∧
    (∀ k, k < 8 → m.testBit k = true →
      ((p ^^^ (m &&& p) % 256) % 256).testBit k = false) := by
  refine ⟨by rw [Nat.and_comm], ?_, ?_, ?_⟩
  · apply Nat.eq_of_testBit_eq
    intro k
    rw [Nat.zero_testBit]
    by_cases hk : k < 8
    · rw [testBit_mod_256 _ _ hk, Nat.testBit_and, testBit_mod_256 _ _ hk, Nat.testBit_xor,
        testBit_mod_256 _ _ hk, Nat.testBit_and]
      cases m.testBit k <;> cases p.testBit k <;> rfl
    · have h := Nat.testBit_mod_two_pow (m &&& (p ^^^ (m &&& p) % 256) % 256) 8 k
      simpa [hk] using h
  · intro k hk hm
    rw [testBit_mod_256 _ _ hk, Nat.testBit_xor, testBit_mod_256 _ _ hk, Nat.testBit_and, hm]
    cases p.testBit k <;> rfl
  · intro k hk hm
    rw [testBit_mod_256 _ _ hk, Nat.testBit_xor, testBit_mod_256 _ _ hk, Nat.testBit_and, hm]
    cases p.testBit k <;> rfl

/-- C33: for `DEB_GetKeyPress`, `DEB_GetKeyRelease` and `DEB_GetKeyRepeat`,
every mask `m` and every state, the first call returns the event mask ANDed
with `m`, a second call with the same `m` right after it returns 0, and an
event bit (of the eight bits of a `debounce_t`) outside `m` is still pending
after the first and after the second call as it was before. -/
theorem C33_read_and_clear (s : DEB_State) (m : Nat) :
    ((DEB_GetKeyPress s m).1 = (s.key_press &&& m) % 256 ∧
      (DEB_GetKeyPress (DEB_GetKeyPress s m).2 m).1 = 0 ∧
      (∀ k, k < 8 → m.testBit k = false →
        (DEB_GetKeyPress s m).2.key_press.testBit k = s.key_press.testBit k ∧
        (DEB_GetKeyPress (DEB_GetKeyPress s m).2 m).2.key_press.testBit k =
          s.key_press.testBit k)) ∧
    ((DEB_GetKeyRelease s m).1 = (s.key_release &&& m) % 256 ∧
      (DEB_GetKeyRelease (DEB_GetKeyRelease s m).2 m).1 = 0 ∧
      (∀ k, k < 8 → m.testBit k = false →
        (DEB_GetKeyRelease s m).2.key_release.testBit k = s.key_release.testBit k ∧
        (DEB_GetKeyRelease (DEB_GetKeyRelease s m).2 m).2.key_release.testBit k =
          s.key_release.testBit k)) ∧
    ((DEB_GetKeyRepeat s m).1 = (s.key_rpt &&& m) % 256 ∧
      (DEB_GetKeyRepeat (DEB_GetKeyRepeat s m).2 m).1 = 0 ∧
      (∀ k, k < 8 → m.testBit k = false →
        (DEB_GetKeyRepeat s m).2.key_rpt.testBit k = s.key_rpt.testBit k ∧
        (DEB_GetKeyRepeat (DEB_GetKeyRepeat s m).2 m).2.key_rpt.testBit k =
          s.key_rpt.testBit k)) := by
  have key : ∀ p : Nat,
      (m &&& p) % 256 = (p &&& m) % 256 ∧
      (m &&& (p ^^^ (m &&& p) % 256) % 256) % 256 = 0 ∧
      (∀ k, k < 8 → m.testBit k = false →
        ((p ^^^ (m &&& p) % 256) % 256).testBit k = p.testBit k ∧
        (((p ^^^ (m &&& p) % 256) % 256 ^^^
          (m &&& (p ^^^ (m &&& p) % 256) % 256) % 256) % 256).testBit k = p.testBit k) := by
    intro p
    obtain ⟨h1, h2, h3, -⟩ := DEB_read_and_clear p m
    refine ⟨h1, h2, fun k hk hm => ⟨h3 k hk hm, ?_⟩⟩
    rw [h2, Nat.xor_zero, testBit_mod_256 _ _ hk]
    exact h3 k hk hm
  exact ⟨key s.key_press, key s.key_release, key s.key_rpt⟩



/-- C34: for every index `idx ≥ SWRTC_NUMBER_OF_ALARMS = 2`, `SWRTC_SetAlarmTime`
and `SWRTC_RegisterAlarmCallback` return false and leave the clock, the whole
alarm table included, unchanged, and `SWRTC_GetAlarmTime` returns 0.  For
`idx < 2` both return true and change entry `idx` only, the first only its
time and the second only its callback, and `SWRTC_GetAlarmTime` returns the
time of the entry. -/
theorem C34_alarm_index_validation (s : SWRTC_State) (idx t : Nat) (cb : Option Nat) :
    (2 ≤ idx →
      SWRTC_SetAlarmTime s idx t = (false, s) ∧
      SWRTC_RegisterAlarmCallback s idx cb = (false, s) ∧
      SWRTC_GetAlarmTime s idx = 0) ∧
    (idx < 2 →
      (SWRTC_SetAlarmTime s idx t).1 = true ∧
      ((SWRTC_SetAlarmTime s idx t).2.alarms idx).time = t ∧
      ((SWRTC_SetAlarmTime s idx t).2.alarms idx).callback = (s.alarms idx).callback ∧
      (∀ j, j ≠ idx → (SWRTC_SetAlarmTime s idx t).2.alarms j = s.alarms j) ∧
      (SWRTC_SetAlarmTime s idx t).2 =
        { s with alarms := (SWRTC_SetAlarmTime s idx t).2.alarms } ∧
      (SWRTC_RegisterAlarmCallback s idx cb).1 = true ∧
      ((SWRTC_RegisterAlarmCallback s idx cb).2.alarms idx).callback = cb ∧
      ((SWRTC_RegisterAlarmCallback s idx cb).2.alarms idx).time = (s.alarms idx).time ∧
      (∀ j, j ≠ idx → (SWRTC_RegisterAlarmCallback s idx cb).2.alarms j = s.alarms j) ∧
      (SWRTC_RegisterAlarmCallback s idx cb).2 =
        { s with alarms := (SWRTC_RegisterAlarmCallback s idx cb).2.alarms } ∧
      SWRTC_GetAlarmTime s idx = (s.alarms idx).time) := by
  have e : SWRTC_NUMBER_OF_ALARMS = 2 := rfl
  constructor
  · intro h
    have h2 : ¬ idx < 2 := by omega
    unfold SWRTC_SetAlarmTime SWRTC_RegisterAlarmCallback SWRTC_GetAlarmTime
    rw [e]
    simp only [if_neg h2, and_self]
  · intro h
    have hS : SWRTC_SetAlarmTime s idx t = (true, { s with alarms := fun i =>
        if i = idx then { callback := (s.alarms i).callback, time := t } else s.alarms i }) := by
      unfold SWRTC_SetAlarmTime
      rw [e, if_pos h]
    have hR : SWRTC_RegisterAlarmCallback s idx cb = (true, { s with alarms := fun i =>
        if i = idx then { callback := cb, time := (s.alarms i).time } else s.alarms i }) := by
      unfold SWRTC_RegisterAlarmCallback
      rw [e, if_pos h]
    have hG : SWRTC_GetAlarmTime s idx = (s.alarms idx).time := by
      unfold SWRTC_GetAlarmTime
      rw [e, if_pos h]
    rw [hS, hR]
    refine ⟨rfl, ?_, ?_, ?_, rfl, rfl, ?_, ?_, ?_, rfl, hG⟩
    · simp
    · simp
    · intro j hj; simp [hj]
    · simp
    · simp
    · intro j hj; simp [hj]

/-- Witness of C34: index 2 on the clock of the start-up state. -/
theorem C34_alarm_index_validation_witness :
    SWRTC_GetAlarmTime (SWRTC_SetAlarmTime HIDIRT_initial.clock 2 77).2 2 = 0 ∧
    (SWRTC_SetAlarmTime HIDIRT_initial.clock 2 77).1 = false :=
  ⟨((C34_alarm_index_validation (SWRTC_SetAlarmTime HIDIRT_initial.clock 2 77).2 2 77
      none).1 (by decide)).2.2,
   congrArg Prod.fst ((C34_alarm_index_validation HIDIRT_initial.clock 2 77 none).1
      (by decide)).1⟩



theorem CustomHID_SetFeature_switch_unknown (st : HIDIRT_State) (id : Nat) (flag : Bool)
    (code : IRMP_DATA) (byte : Nat) (time : swrtc_time_t) (correction : Int) (alarm : Nat)
    (h : id ∉ HIDIRT_set_ids) :
    CustomHID_SetFeature_switch st id flag code byte time correction alarm = (USBD_OK, st) := by
  simp only [HIDIRT_set_ids, List.mem_cons, List.mem_singleton, List.not_mem_nil, or_false,
    not_or] at h
  obtain ⟨h1, h2, h3, h4, h5, h6, h7, h8, h9, h10, h11, h12, h13⟩ := h
  unfold CustomHID_SetFeature_switch
  simp only [if_neg h1, if_neg h2, if_neg h3, if_neg h4, if_neg h5, if_neg h6, if_neg h7,
    if_neg h8, if_neg h9, if_neg h10, if_neg h11, if_neg h12, if_neg h13]

theorem CustomHID_GetFeature_reply_unknown (st : HIDIRT_State) (id : Nat)
    (h : id ∉ HIDIRT_get_ids) : CustomHID_GetFeature_reply st id = none := by
  simp only [HIDIRT_get_ids, List.mem_cons, List.mem_singleton, List.not_mem_nil, or_false,
    not_or] at h
  obtain ⟨h1, h2, h3, h4, h5, h6, h7, h8, h9, h10, h11, h12⟩ := h
  unfold CustomHID_GetFeature_reply
  simp only [if_neg h1, if_neg h2, if_neg h3, if_neg h4, if_neg h5, if_neg h6, if_neg h7,
    if_neg h8, if_neg h9, if_neg h10, if_neg h11, if_neg h12]

/-- C35: for every report ID `CustomHID_SetFeature` has no case for, it returns
`USBD_OK` and leaves the whole state unchanged: the shadow record with its
pending-field tag, the clock and the alarms; for every report ID
`CustomHID_GetFeature` has no case for, it returns `USBD_FAIL` and puts
nothing into the buffer.  A report ID outside both sets gets both. -/
theorem C35_unknown_report_ids (st : HIDIRT_State) (id : Nat) (buffer : Nat → Nat) :
    (id ∉ HIDIRT_set_ids → CustomHID_SetFeature st id buffer = (USBD_OK, st)) ∧
    (id ∉ HIDIRT_get_ids →
      (CustomHID_GetFeature st id).1 = USBD_FAIL ∧ (CustomHID_GetFeature st id).2.1 = none) ∧
    USBD_FAIL ≠ USBD_OK := by
  refine ⟨fun h => ?_, fun h => ?_, by decide⟩
  · unfold CustomHID_SetFeature
    exact CustomHID_SetFeature_switch_unknown st id _ _ _ _ _ _ h
  · have e := CustomHID_GetFeature_reply_unknown st id h
    unfold CustomHID_GetFeature
    rw [e]
    exact ⟨rfl, rfl⟩

/-- Witness of C35: report ID 0x42 on the start-up state. -/
theorem C35_unknown_report_ids_witness :
    0x42 ∉ HIDIRT_set_ids ∧ 0x42 ∉ HIDIRT_get_ids ∧
    (CustomHID_SetFeature HIDIRT_initial 0x42 (HIDIRT_buffer [1])).1 = USBD_OK ∧
    (CustomHID_GetFeature HIDIRT_initial 0x42).1 = USBD_FAIL :=
  ⟨by decide, by decide,
   congrArg Prod.fst ((C35_unknown_report_ids HIDIRT_initial 0x42 (HIDIRT_buffer [1])).1
      (by decide)),
   ((C35_unknown_report_ids HIDIRT_initial 0x42 (HIDIRT_buffer [1])).2.1 (by decide)).1⟩

theorem GetHidirtShadowConfig_bootloader (st : HIDIRT_State) :
    (st.hidirt_data_shadow.data_update_pending = REP_ID_REQUEST_BOOTLOADER →
      (GetHidirtShadowConfig st).returned = false ∧
      (GetHidirtShadowConfig st).state.bkp_bootloader = 0xABADC0DE) ∧
    (st.hidirt_data_shadow.data_update_pending ≠ REP_ID_REQUEST_BOOTLOADER →
      (GetHidirtShadowConfig st).returned = true ∧
      (GetHidirtShadowConfig st).state.bkp_bootloader = st.bkp_bootloader) := by
  constructor
  · intro h
    unfold GetHidirtShadowConfig HIDIRT_Run.returned HIDIRT_Run.state
    simp only [if_pos h, and_self]
  · intro h
    refine ⟨(GetHidirtShadowConfig_fields st h).1, ?_⟩
    have h80 : st.hidirt_data_shadow.data_update_pending ≠ 80 := h
    have hc : st.hidirt_data_shadow.data_update_pending = 17 ∨
        st.hidirt_data_shadow.data_update_pending = 18 ∨
        st.hidirt_data_shadow.data_update_pending = 19 ∨
        st.hidirt_data_shadow.data_update_pending = 20 ∨
        st.hidirt_data_shadow.data_update_pending = 21 ∨
        st.hidirt_data_shadow.data_update_pending = 22 ∨
        st.hidirt_data_shadow.data_update_pending = 24 ∨
        st.hidirt_data_shadow.data_update_pending = 25 ∨
        st.hidirt_data_shadow.data_update_pending = 26 ∨
        st.hidirt_data_shadow.data_update_pending = 81 ∨
        st.hidirt_data_shadow.data_update_pending = 82 ∨
        (st.hidirt_data_shadow.data_update_pending ≠ 17 ∧
         st.hidirt_data_shadow.data_update_pending ≠ 18 ∧
         st.hidirt_data_shadow.data_update_pending ≠ 19 ∧
         st.hidirt_data_shadow.data_update_pending ≠ 20 ∧
         st.hidirt_data_shadow.data_update_pending ≠ 21 ∧
         st.hidirt_data_shadow.data_update_pending ≠ 22 ∧
         st.hidirt_data_shadow.data_update_pending ≠ 24 ∧
         st.hidirt_data_shadow.data_update_pending ≠ 25 ∧
         st.hidirt_data_shadow.data_update_pending ≠ 26 ∧
         st.hidirt_data_shadow.data_update_pending ≠ 80 ∧
         st.hidirt_data_shadow.data_update_pending ≠ 81 ∧
         st.hidirt_data_shadow.data_update_pending ≠ 82) := by omega
    unfold GetHidirtShadowConfig HIDIRT_Run.state
    simp only [REP_ID_CONTROL_PC_ENABLE, REP_ID_FORWARD_IR_ENABLE, REP_ID_POWER_ON_IR_CODE,
      REP_ID_POWER_OFF_IR_CODE, REP_ID_RESET_IR_CODE, REP_ID_MINIMUM_REPEATS,
      REP_ID_CLOCK_CORRECTION, REP_ID_WAKEUP_TIME, REP_ID_WAKEUP_TIME_SPAN,
      REP_ID_WATCHDOG_ENABLE, REP_ID_WATCHDOG_RESET, REP_ID_REQUEST_BOOTLOADER,
      EEPROM_WriteBytes]
    rcases hc with e | e | e | e | e | e | e | e | e | e | e | e
    all_goals (simp only [e]; simp only [Nat.reduceEqDiff, if_true, if_false])

/-- C36, counterexample: on the start-up state the host requests the
maintenance mode with the magic value `0x5A`, which leaves the request
pending, and then once more with the payload byte `0x00`.  The second request
leaves the shadow record as it is, yet the following drain writes the
bootloader marker and does not return. -/
theorem C36_already_pending_counterexample :
    (CustomHID_SetFeature
      (CustomHID_SetFeature HIDIRT_initial REP_ID_REQUEST_BOOTLOADER (HIDIRT_buffer [0x5A])).2
      REP_ID_REQUEST_BOOTLOADER (HIDIRT_buffer [0x00])).2.hidirt_data_shadow =
      (CustomHID_SetFeature HIDIRT_initial REP_ID_REQUEST_BOOTLOADER
        (HIDIRT_buffer [0x5A])).2.hidirt_data_shadow ∧
    (GetHidirtShadowConfig (CustomHID_SetFeature
      (CustomHID_SetFeature HIDIRT_initial REP_ID_REQUEST_BOOTLOADER (HIDIRT_buffer [0x5A])).2
      REP_ID_REQUEST_BOOTLOADER (HIDIRT_buffer [0x00])).2).returned = false ∧
    (GetHidirtShadowConfig (CustomHID_SetFeature
      (CustomHID_SetFeature HIDIRT_initial REP_ID_REQUEST_BOOTLOADER (HIDIRT_buffer [0x5A])).2
      REP_ID_REQUEST_BOOTLOADER (HIDIRT_buffer [0x00])).2).state.bkp_bootloader = 0xABADC0DE := by
  refine ⟨?_, ?_, ?_⟩ <;> decide

/-- C36, amended: `CustomHID_SetFeature` for the maintenance-mode report
returns `USBD_OK`; with the payload byte `0x5A` it marks the maintenance
request as pending, touching nothing but the tag, and the following drain
writes the bootloader marker and does not return; with every other payload
byte it leaves the whole state, shadow record and tag included, unchanged, so
that the following drain writes the marker and halts only if a maintenance
request was pending already: if none was, the drain returns and leaves the
marker register as it was. -/
theorem C36_maintenance_needs_magic (st : HIDIRT_State) (buffer : Nat → Nat) :
    (CustomHID_SetFeature st REP_ID_REQUEST_BOOTLOADER buffer).1 = USBD_OK ∧
    (rd_u8 buffer 0 = 0x5A →
      (CustomHID_SetFeature st REP_ID_REQUEST_BOOTLOADER buffer).2 =
        { st with hidirt_data_shadow :=
          { st.hidirt_data_shadow with data_update_pending := REP_ID_REQUEST_BOOTLOADER } } ∧
      (GetHidirtShadowConfig
        (CustomHID_SetFeature st REP_ID_REQUEST_BOOTLOADER buffer).2).returned = false ∧
      (GetHidirtShadowConfig
        (CustomHID_SetFeature st REP_ID_REQUEST_BOOTLOADER buffer).2).state.bkp_bootloader
        = 0xABADC0DE) ∧
    (rd_u8 buffer 0 ≠ 0x5A →
      (CustomHID_SetFeature st REP_ID_REQUEST_BOOTLOADER buffer).2 = st ∧
      (st.hidirt_data_shadow.data_update_pending ≠ REP_ID_REQUEST_BOOTLOADER →
        (GetHidirtShadowConfig
          (CustomHID_SetFeature st REP_ID_REQUEST_BOOTLOADER buffer).2).returned = true ∧
        (GetHidirtShadowConfig
          (CustomHID_SetFeature st REP_ID_REQUEST_BOOTLOADER buffer).2).state.bkp_bootloader
          = st.bkp_bootloader)) := by
  have key : CustomHID_SetFeature st REP_ID_REQUEST_BOOTLOADER buffer =
      (USBD_OK, { st with hidirt_data_shadow :=
        { st.hidirt_data_shadow with data_update_pending :=
          (if rd_u8 buffer 0 = 0x5a then REP_ID_REQUEST_BOOTLOADER
           else st.hidirt_data_shadow.data_update_pending) } }) := by
    unfold CustomHID_SetFeature CustomHID_SetFeature_switch
    simp only [REP_ID_CONTROL_PC_ENABLE, REP_ID_FORWARD_IR_ENABLE, REP_ID_POWER_ON_IR_CODE,
      REP_ID_POWER_OFF_IR_CODE, REP_ID_RESET_IR_CODE, REP_ID_MINIMUM_REPEATS,
      REP_ID_CLOCK_CORRECTION, REP_ID_WAKEUP_TIME, REP_ID_WAKEUP_TIME_SPAN,
      REP_ID_WATCHDOG_ENABLE, REP_ID_WATCHDOG_RESET, REP_ID_REQUEST_BOOTLOADER,
      REP_ID_CURRENT_TIME]
    simp only [Nat.reduceEqDiff, if_true, if_false]
  rw [key]
  refine ⟨rfl, fun h => ?_, fun h => ?_⟩
  · simp only [if_pos h]
    exact ⟨trivial, (GetHidirtShadowConfig_bootloader _).1 rfl⟩
  · simp only [if_neg h]
    exact ⟨trivial, fun hp => (GetHidirtShadowConfig_bootloader st).2 hp⟩

/-- Witness of C36, amended: the payload byte `0x00` on the start-up state,
in which nothing is pending. -/
theorem C36_maintenance_needs_magic_witness :
    rd_u8 (HIDIRT_buffer [0x00]) 0 ≠ 0x5A ∧
    HIDIRT_initial.hidirt_data_shadow.data_update_pending ≠ REP_ID_REQUEST_BOOTLOADER ∧
    (GetHidirtShadowConfig (CustomHID_SetFeature HIDIRT_initial REP_ID_REQUEST_BOOTLOADER
      (HIDIRT_buffer [0x00])).2).returned = true :=
  ⟨by decide, by decide,
   (((C36_maintenance_needs_magic HIDIRT_initial (HIDIRT_buffer [0x00])).2.2 (by decide)).2
      (by decide)).1⟩



/-- C37, divergence: the deviation `-20,000,000` is accepted by
`SWRTC_SetDeviation`, and from the zero state the second counter is 3 after
four calls of `SWRTC_Service` and 9 after ten, while with deviation 0 it is 2
and 5: the negative deviation makes the clock run faster.  After the first
compensation the accumulator holds `2^32 - 20,000,000`, and one more interval
does not wrap it, so the unsigned comparison with `SWRTC_TICKS_PER_SECOND`
succeeds on every following call. -/
theorem C37_negative_deviation_runs_faster :
    (SWRTC_SetDeviation (SWRTC_zero 0) (-20000000)).1 = true ∧
    (SWRTC_SetDeviation (SWRTC_zero 0) (-20000000)).2 = SWRTC_zero (-20000000) ∧
    (SWRTC_after SWRTC_TICKS_PER_SECOND (SWRTC_zero (-20000000)) 2).clk_ticks = 4274967296 ∧
    (SWRTC_after SWRTC_TICKS_PER_SECOND (SWRTC_zero (-20000000)) 4).clk_secs = 3 ∧
    (SWRTC_after SWRTC_TICKS_PER_SECOND (SWRTC_zero 0) 4).clk_secs = 2 ∧
    (SWRTC_after SWRTC_TICKS_PER_SECOND (SWRTC_zero (-20000000)) 10).clk_secs = 9 ∧
    (SWRTC_after SWRTC_TICKS_PER_SECOND (SWRTC_zero 0) 10).clk_secs = 5 := by
  refine ⟨by decide, rfl, ?_, ?_, ?_, ?_, ?_⟩
  all_goals (set_option maxRecDepth 100000 in decide)

theorem FIFO_call_bounds (out : fifo_entry_t) (fifo : fifo_t) (c : FIFO_Call)
    (hr : fifo.read < 16) (hw : fifo.write < 16) :
    (FIFO_call out fifo c).read < 16 ∧ (FIFO_call out fifo c).write < 16 := by
  cases c with
  | write e =>
    simp only [FIFO_call, FIFO_Write, land_fifo_mask]
    split_ifs
    · exact ⟨hr, hw⟩
    · exact ⟨hr, Nat.mod_lt _ (by decide)⟩
  | read =>
    simp only [FIFO_call, FIFO_Read, land_fifo_mask]
    split_ifs
    · exact ⟨hr, hw⟩
    · exact ⟨Nat.mod_lt _ (by decide), hw⟩
  | clear =>
    simp only [FIFO_call, FIFO_Clear]
    exact ⟨by decide, by decide⟩

theorem FIFO_after_calls_bounds (out : fifo_entry_t) (calls : List FIFO_Call) :
    ∀ fifo : fifo_t, fifo.read < 16 → fifo.write < 16 →
      (FIFO_after_calls out fifo calls).read < 16 ∧
      (FIFO_after_calls out fifo calls).write < 16 := by
  induction calls with
  | nil => intro fifo hr hw; exact ⟨hr, hw⟩
  | cons c cs ih =>
    intro fifo hr hw
    obtain ⟨h1, h2⟩ := FIFO_call_bounds out fifo c hr hw
    exact ih _ h1 h2

/-- C38: if the read and the write index are both below `FIFO_SIZE = 16`, as
they are after `FIFO_Clear` on any buffer, they are both below 16 after every
sequence of `FIFO_Read`, `FIFO_Write` and `FIFO_Clear` calls and after every
initial part of it, so that every call finds them below 16: the slot
`entry[read]` that `FIFO_Read` accesses and the slot `entry[write & fifo_mask]`
that `FIFO_Write` accesses are within the 16-slot array. -/
theorem C38_indices_stay_in_range (fifo : fifo_t) (out : fifo_entry_t) (calls : List FIFO_Call)
    (hr : fifo.read < FIFO_SIZE) (hw : fifo.write < FIFO_SIZE) :
    (FIFO_after_calls out fifo calls).read < FIFO_SIZE ∧
    (FIFO_after_calls out fifo calls).write < FIFO_SIZE ∧
    (∀ n, (FIFO_after_calls out fifo (calls.take n)).read < FIFO_SIZE ∧
      (FIFO_after_calls out fifo (calls.take n)).write &&& fifo_mask < FIFO_SIZE) ∧
    (FIFO_Clear fifo).read < FIFO_SIZE ∧ (FIFO_Clear fifo).write < FIFO_SIZE := by
  have e : FIFO_SIZE = 16 := rfl
  rw [e] at hr hw ⊢
  obtain ⟨h1, h2⟩ := FIFO_after_calls_bounds out calls fifo hr hw
  refine ⟨h1, h2, fun n => ?_, Nat.zero_lt_succ 15, Nat.zero_lt_succ 15⟩
  obtain ⟨h3, -⟩ := FIFO_after_calls_bounds out (calls.take n) fifo hr hw
  refine ⟨h3, ?_⟩
  rw [land_fifo_mask]
  exact Nat.mod_lt _ (by decide)

/-- Witness of C38: three calls on the cleared transmit queue of the start-up
state. -/
theorem C38_indices_stay_in_range_witness :
    (FIFO_Clear HIDIRT_initial.irsnd_fifo).read < FIFO_SIZE ∧
    (FIFO_Clear HIDIRT_initial.irsnd_fifo).write < FIFO_SIZE ∧
    (FIFO_after_calls { data := { protocol := 0, address := 0, command := 0, flags := 0 } }
      (FIFO_Clear HIDIRT_initial.irsnd_fifo)
      [FIFO_Call.write { data := { protocol := 1, address := 2, command := 3, flags := 0 } },
       FIFO_Call.read, FIFO_Call.clear]).read < FIFO_SIZE :=
  ⟨by decide, by decide,
   (C38_indices_stay_in_range (FIFO_Clear HIDIRT_initial.irsnd_fifo)
      { data := { protocol := 0, address := 0, command := 0, flags := 0 } }
      [FIFO_Call.write { data := { protocol := 1, address := 2, command := 3, flags := 0 } },
       FIFO_Call.read, FIFO_Call.clear] (by decide) (by decide)).1⟩

/-- C39: whenever the debounced USB sense is clear, a call of `ProcessButtons`
changes nothing at all: neither the power output nor the reset output, nor the
press-intent flags, nor its remembered previous flags, whatever the flags
are. -/
theorem C39_no_supply_no_effect (st : HIDIRT_State)
    (h : DEB_GetKeyState st.deb DEB_USB_SENSE = 0) :
    ProcessButtons st = st ∧
    (ProcessButtons st).power_pin = st.power_pin ∧
    (ProcessButtons st).reset_pin = st.reset_pin ∧
    (ProcessButtons st).flags = st.flags ∧
    (ProcessButtons st).last_flags = st.last_flags := by
  have key : ProcessButtons st = st := by
    unfold ProcessButtons
    simp [h]
  rw [key]
  exact ⟨rfl, rfl, rfl, rfl, rfl⟩

/-- Witness of C39: the power-press intent set while the debounced USB sense
is clear. -/
theorem C39_no_supply_no_effect_witness :
    DEB_GetKeyState (HIDIRT_sensed HIDIRT_power_intent 1).deb DEB_USB_SENSE = 0 ∧
    (HIDIRT_sensed HIDIRT_power_intent 1).flags.press_power_button = true ∧
    (ProcessButtons (HIDIRT_sensed HIDIRT_power_intent 1)).power_pin =
      (HIDIRT_sensed HIDIRT_power_intent 1).power_pin :=
  ⟨by decide, by decide,
   (C39_no_supply_no_effect (HIDIRT_sensed HIDIRT_power_intent 1) (by decide)).2.1⟩

/-- C40: for every state whose power-on slot is trained (protocol neither
`0x00` nor `0xFF`) and every received command, `IRMP_ProcessData` leaves the
power-on, the power-off and the reset code slot of the live configuration,
and the live configuration as a whole, unchanged and hands nothing to the
non-volatile store. -/
theorem C40_no_retraining (st : HIDIRT_State) (d : IRMP_DATA) (p : fifo_entry_t)
    (ht : IRMP_blank st.hidirt_data.irmp_power_on = false) :
    (IRMP_ProcessData st d p).1.hidirt_data.irmp_power_on = st.hidirt_data.irmp_power_on ∧
    (IRMP_ProcessData st d p).1.hidirt_data.irmp_power_off = st.hidirt_data.irmp_power_off ∧
    (IRMP_ProcessData st d p).1.hidirt_data.irmp_reset = st.hidirt_data.irmp_reset ∧
    (IRMP_ProcessData st d p).1.hidirt_data = st.hidirt_data ∧
    (IRMP_ProcessData st d p).1.eeprom_writes = st.eeprom_writes := by
  obtain ⟨b1, b2, -⟩ := IRMP_ProcessData_live st d p ht
  rw [b1]
  exact ⟨rfl, rfl, rfl, rfl, b2⟩

/-- Witness of C40: the trained power-on code itself received in the state
with the three codes trained. -/
theorem C40_no_retraining_witness :
    IRMP_blank HIDIRT_trained.hidirt_data.irmp_power_on = false ∧
    (IRMP_ProcessData HIDIRT_trained { protocol := 2, address := 1, command := 1, flags := 0 }
      { data := { protocol := 0, address := 0, command := 0, flags := 0 } }).1.eeprom_writes
      = HIDIRT_trained.eeprom_writes :=
  ⟨by decide,
   (C40_no_retraining HIDIRT_trained { protocol := 2, address := 1, command := 1, flags := 0 }
      { data := { protocol := 0, address := 0, command := 0, flags := 0 } }
      (by decide)).2.2.2.2⟩

end HIDIRT
